import Mathlib

/-!
# Arister: order checkout, promotions and cash-on-delivery pricing

A shallow embedding of the checkout core of the Arister server
(`Server/utils/codCalculator.js`, `Server/routes/promotions.js`,
`Server/routes/order.js`, `Server/routes/replacements.js` and the variant and
stock routes of `Server/routes/productRoutes.js`) together with theorems about it.

Conventions of the embedding

* A JavaScript `Number` is an exact rational (`ℚ`); `NaN`, the infinities and
  rounding are outside the model.
* A field that may be `undefined`/`null` is an `Option`.  JavaScript truthiness
  is kept: an absent number and the number `0` are both falsy, an absent string
  and the empty string are both falsy.
* A Mongo collection is a `List` of documents in natural order; `findOne`
  returns the first matching document.
* The settings singleton returned by `Settings.findOne()` is passed in as an
  `Option Settings`.
* Rendering a number inside a template string is the parameter `fmt`.
* An instant (`Date`) is its time value in milliseconds, an `Int`.
-/

namespace Arister

/-! ## JavaScript helpers -/

/-- Truthiness of a possibly absent string: `undefined`, `null` and `""` are falsy. -/
def truthyStr : Option String → Bool
  | none => false
  | some s => decide (s ≠ "")

/-- The relational operator `<` on two strings: lexicographic on the characters. -/
def strLt (a b : String) : Bool := decide (a.data < b.data)

/-- Model of `String.prototype.toUpperCase` on the ASCII range. -/
def toUpperCase (s : String) : String := ⟨s.data.map Char.toUpper⟩

/-- Model of `String.prototype.toLowerCase` on the ASCII range. -/
def toLowerCase (s : String) : String := ⟨s.data.map Char.toLower⟩

/-- The characters that `String.prototype.trim` strips: white space and line terminators. -/
def isJsSpace (c : Char) : Bool :=
  [9, 10, 11, 12, 13, 32, 160, 5760, 8192, 8193, 8194, 8195, 8196, 8197, 8198, 8199, 8200,
    8201, 8202, 8232, 8233, 8239, 8287, 12288, 65279].contains c.toNat

/-- Model of `String.prototype.trim`. -/
def jsTrim (s : String) : String :=
  ⟨((s.data.dropWhile isJsSpace).reverse.dropWhile isJsSpace).reverse⟩

/-- The expression `Math.max(lo, Math.min(hi, x))`. -/
def clampCharge (lo hi x : ℚ) : ℚ := max lo (min hi x)

/-! ## Settings.cod (models/Settings.js) -/

/-- One entry of `cod.pricing.tiers`. -/
structure Tier where
  minAmount : ℚ
  maxAmount : Option ℚ
  charge : ℚ

/-- One entry of `cod.pricing.locationBased.zones`. -/
structure Zone where
  name : String
  pincodes : List String
  states : List String
  cities : List String
  charge : ℚ
  minCharge : ℚ
  maxCharge : ℚ

/-- The sub-document `cod.pricing.locationBased`. -/
structure LocationBased where
  enabled : Bool
  zones : List Zone

/-- The sub-document `cod.pricing`; `type` is one of the schema's enum strings. -/
structure Pricing where
  type : String
  fixedAmount : ℚ
  percentage : ℚ
  minCharge : ℚ
  maxCharge : ℚ
  tiers : List Tier
  locationBased : LocationBased

/-- One entry of `cod.courierCharges.couriers`. -/
structure Courier where
  name : String
  code : String
  percentage : ℚ
  minCharge : ℚ
  maxCharge : ℚ
  enabled : Bool

/-- The sub-document `cod.courierCharges`. -/
structure CourierCharges where
  enabled : Bool
  couriers : List Courier

/-- The sub-document `cod.rules.timeRestrictions`. -/
structure TimeRestrictions where
  enabled : Bool
  startTime : String
  endTime : String
  daysOfWeek : List Nat

/-- The sub-document `cod.rules`. -/
structure Rules where
  minOrderValue : ℚ
  maxOrderValue : Option ℚ
  excludedCategories : List String
  excludedProducts : List String
  excludedPincodes : List String
  excludedStates : List String
  timeRestrictions : TimeRestrictions

/-- The sub-document `cod` of the settings singleton. -/
structure Cod where
  enabled : Bool
  charge : ℚ
  pricing : Pricing
  courierCharges : CourierCharges
  rules : Rules

/-- The settings singleton, restricted to the part the checkout core reads. -/
structure Settings where
  cod : Cod

/-! ## Request data -/

/-- A cart line as sent by the client. -/
structure CartItem where
  id : Option String
  name : String
  price : ℚ
  quantity : ℚ
  color : Option String
  size : Option String
  image : Option String
  sku : Option String := none

/-- The local-time view of a JavaScript `Date`: `getDay()`, hours and minutes. -/
structure JsDate where
  day : Nat
  hours : Nat
  minutes : Nat

/-- Two decimal digits of a number below one hundred. -/
def pad2 (n : Nat) : String := ⟨[Char.ofNat (48 + n / 10), Char.ofNat (48 + n % 10)]⟩

/-- The expression `date.toTimeString().slice(0, 5)`, that is `HH:MM`. -/
def JsDate.hhmm (d : JsDate) : String := pad2 d.hours ++ ":" ++ pad2 d.minutes

/-! ## codCalculator.js: calculateCodCharge -/

/-- The predicate of the `zones.find` call. -/
def zoneMatches (pincode state city : String) (z : Zone) : Bool :=
  z.pincodes.contains pincode || z.states.contains state || z.cities.contains city

/-- The predicate of the `tiers.find` call:
`orderValue >= t.minAmount && (!t.maxAmount || orderValue <= t.maxAmount)`. -/
def tierMatches (orderValue : ℚ) (t : Tier) : Bool :=
  decide (t.minAmount ≤ orderValue) &&
    (match t.maxAmount with
     | none => true
     | some m => decide (m = 0) || decide (orderValue ≤ m))

/-- The zone picked by the location-based branch, if that branch is taken. -/
def matchedZone (pricing : Pricing) (pincode state city : String) : Option Zone :=
  if pricing.locationBased.enabled then
    pricing.locationBased.zones.find? (zoneMatches pincode state city)
  else none

/-- The courier entry picked by the courier branch, if that branch is taken. -/
def matchedCourier (cod : Cod) (courierCode : Option String) : Option Courier :=
  if truthyStr courierCode && cod.courierCharges.enabled then
    cod.courierCharges.couriers.find? (fun c => decide (some c.code = courierCode) && c.enabled)
  else none

/-- The tier picked by the tiered branch, if that branch is taken. -/
def matchedTier (pricing : Pricing) (orderValue : ℚ) : Option Tier :=
  if pricing.type = "tiered" then pricing.tiers.find? (tierMatches orderValue) else none

/-- The function `calculateCodCharge` of codCalculator.js.  No operation of its body
can throw on schema-typed settings, so the `catch` branch is not reachable here. -/
def calculateCodCharge (settings : Option Settings) (orderValue : ℚ)
    (pincode state city : String) (courierCode : Option String) : ℚ :=
  match settings with
  | none => 0
  | some s =>
    if s.cod.enabled = false then 0
    else
      let pricing := s.cod.pricing
      match matchedZone pricing pincode state city with
      | some zone =>
        if pricing.type = "percentage" then
          clampCharge zone.minCharge zone.maxCharge (orderValue * pricing.percentage / 100)
        else zone.charge
      | none =>
        match matchedCourier s.cod courierCode with
        | some courier =>
          clampCharge courier.minCharge courier.maxCharge (orderValue * courier.percentage / 100)
        | none =>
          match matchedTier pricing orderValue with
          | some tier => tier.charge
          | none =>
            if pricing.type = "percentage" then
              clampCharge pricing.minCharge pricing.maxCharge
                (orderValue * pricing.percentage / 100)
            else pricing.fixedAmount

/-! ## codCalculator.js: isCodAvailable -/

/-- The object `{ available, reason }` returned by `isCodAvailable`. -/
structure CodAvailability where
  available : Bool
  reason : Option String
deriving DecidableEq

/-- The product restrictions loop and the final `return { available: true }`. -/
def checkProducts (rules : Rules) (items : List CartItem) : CodAvailability :=
  match items.find? (fun item =>
      match item.id with
      | some i => rules.excludedProducts.contains i
      | none => false) with
  | some item => { available := false, reason := some ("COD not available for product " ++ item.name) }
  | none => { available := true, reason := none }

/-- The time restrictions block, followed by the rest of the function. -/
def checkTime (rules : Rules) (items : List CartItem) (orderTime : JsDate) : CodAvailability :=
  if rules.timeRestrictions.enabled then
    if rules.timeRestrictions.daysOfWeek.length > 0 ∧
        rules.timeRestrictions.daysOfWeek.contains orderTime.day = false then
      { available := false, reason := some "COD not available on this day" }
    else if strLt orderTime.hhmm rules.timeRestrictions.startTime = true ∨
        strLt rules.timeRestrictions.endTime orderTime.hhmm = true then
      { available := false, reason := some "COD not available at this time" }
    else checkProducts rules items
  else checkProducts rules items

/-- The location restrictions block, followed by the rest of the function. -/
def checkLocation (rules : Rules) (pincode state : String) (items : List CartItem)
    (orderTime : JsDate) : CodAvailability :=
  if rules.excludedPincodes.contains pincode then
    { available := false, reason := some ("COD not available for pincode " ++ pincode) }
  else if rules.excludedStates.contains state then
    { available := false, reason := some ("COD not available for state " ++ state) }
  else checkTime rules items orderTime

/-- The function `isCodAvailable` of codCalculator.js.  The argument `city` is accepted
and never read, as in the source.  No operation of its body can throw on typed inputs,
so the `catch` branch is not reachable here. -/
def isCodAvailable (fmt : ℚ → String) (settings : Option Settings) (orderValue : ℚ)
    (pincode state city : String) (items : List CartItem) (orderTime : JsDate) :
    CodAvailability :=
  match settings with
  | none => { available := false, reason := some "COD is disabled" }
  | some s =>
    if s.cod.enabled = false then { available := false, reason := some "COD is disabled" }
    else
      let rules := s.cod.rules
      if orderValue < rules.minOrderValue then
        { available := false,
          reason := some ("Order value ₹" ++ fmt orderValue ++ " is below minimum ₹" ++
            fmt rules.minOrderValue) }
      else
        match rules.maxOrderValue with
        | some m =>
          if m ≠ 0 ∧ orderValue > m then
            { available := false,
              reason := some ("Order value ₹" ++ fmt orderValue ++ " exceeds maximum ₹" ++ fmt m) }
          else checkLocation rules pincode state items orderTime
        | none => checkLocation rules pincode state items orderTime

/-! ## Promotions (models/Promotion.js, routes/promotions.js) -/

/-- A promotion document; dates are milliseconds since the epoch. -/
structure Promotion where
  code : String
  description : String
  discountType : String
  discountValue : ℚ
  minPurchase : ℚ
  isActive : Bool
  startDate : Option Int
  endDate : Option Int
  usageLimit : Option ℚ
  timesUsed : ℚ
deriving DecidableEq

/-- The JSON answer of `POST /promotions/apply` with its HTTP status. -/
structure ApplyResponse where
  status : Nat
  message : String
  discount : Option ℚ
  code : Option String
deriving DecidableEq

/-- An error answer `res.status(status).json({ message })`. -/
def applyError (status : Nat) (message : String) : ApplyResponse :=
  { status := status, message := message, discount := none, code := none }

/-- The value the query `{ code }` is cast to: the schema declares `code` with
`uppercase: true` and `trim: true`, and these setters run on the value of a query as they
do on a stored value. -/
def queryCode (code : String) : String := toUpperCase (jsTrim code)

/-- The query `Promotion.findOne({ code })`: the first document whose code is the cast
value of the query. -/
def findPromotion (promotions : List Promotion) (code : String) : Option Promotion :=
  promotions.find? (fun p => decide (p.code = queryCode code))

/-- The handler of `POST /promotions/apply`; `now` is `Date.now()`. -/
def promotionsApply (fmt : ℚ → String) (promotions : List Promotion) (now : Int)
    (code : Option String) (cartTotal : ℚ) : ApplyResponse :=
  match code with
  | none => applyError 400 "Promotion code is required."
  | some c =>
    if c = "" then applyError 400 "Promotion code is required."
    else
      match findPromotion promotions (toUpperCase c) with
      | none => applyError 404 "Invalid promotion code."
      | some promotion =>
        if promotion.isActive = false then applyError 400 "This promotion is not active."
        else if (match promotion.startDate with
            | some d => decide (d > now)
            | none => false) = true then
          applyError 400 "This promotion has not started yet."
        else if (match promotion.endDate with
            | some d => decide (d < now)
            | none => false) = true then
          applyError 400 "This promotion has expired."
        else if (match promotion.usageLimit with
            | some l => decide (l ≠ 0) && decide (promotion.timesUsed ≥ l)
            | none => false) = true then
          applyError 400 "This promotion has reached its usage limit."
        else if promotion.minPurchase ≠ 0 ∧ cartTotal < promotion.minPurchase then
          applyError 400 ("A minimum purchase of ₹" ++ fmt promotion.minPurchase ++ " is required.")
        else
          { status := 200,
            message := "Promotion applied successfully!",
            discount := some
              (if promotion.discountType = "percentage" then
                cartTotal * promotion.discountValue / 100
              else if promotion.discountType = "fixed" then promotion.discountValue
              else 0),
            code := some promotion.code }

/-! ## Order creation (routes/order.js, `POST /orders`) -/

/-- The delivery address of a request, restricted to the fields the core reads. -/
structure Address where
  postalCode : String
  state : String
  city : String
  name : String := ""
  addressLine1 : String := ""
  addressLine2 : Option String := none
  country : String := ""
  phone : String := ""
deriving DecidableEq

/-- An entry of `product.images`. -/
structure ProductImage where
  url : String
  publicId : String

/-- An entry of `product.variants`. -/
structure Variant where
  color : String
  size : Option String
  stock : ℚ

/-- The sub-document `replacementPolicy` of a product (models/Product.js): the number of
days, which the schema keeps between 0 and 365. -/
structure ReplacementPolicy where
  days : ℚ := 7

/-- A product document, restricted to the fields order creation, the replacement routes and
the stock routes touch. -/
structure Product where
  id : String
  images : List ProductImage
  variants : List Variant
  replacementPolicy : Option ReplacementPolicy := some {}

/-- The object `paymentResult` of the request body. -/
structure PaymentResult where
  id : Option String
  status : String

/-- The sub-document `order.payment`. -/
structure Payment where
  method : String
  paymentId : Option String
  status : String

/-- Modelled from the spec: the sub-record `order.shipping` of the schema `models/order`,
which is not in the source tree (spec section 3: carrier shipment id, carrier order id,
AWB code, courier, textual status, expected-delivery and pickup-scheduled dates), with the
field names the handlers use.  The address fields that `createReplacementShiprocketOrder`
reads from this sub-record come last; nothing in the source tree writes them. -/
structure Shipping where
  shipmentId : Option String := none
  shiprocketOrderId : Option String := none
  awbCode : Option String := none
  courier : Option String := none
  courierId : Option String := none
  status : Option String := none
  expectedDeliveryDate : Option String := none
  pickupScheduledDate : Option String := none
  name : Option String := none
  addressLine1 : Option String := none
  addressLine2 : Option String := none
  city : Option String := none
  postalCode : Option String := none
  state : Option String := none
  country : Option String := none
  phone : Option String := none
deriving DecidableEq

/-- Modelled from the spec: the schema `models/order` is not in the source tree.  The
record holds the fields that the handler passes to `new Order` (spec section 3: cart
snapshot, money fields, payment, applied discount code), then the storage key `_id`,
the e-mail of the populated `user`, the lifecycle status, the shipping sub-record, the
cancellation sub-record, the creation time (milliseconds) and the replacement sub-record
(spec section 3: requested flag, status starting at `pending`, reason, admin notes,
decision and completion timestamps, replacement shipment identifiers), with the field names
the handlers use. -/
structure Order where
  orderId : String
  user : String
  items : List CartItem
  address : Address
  total : ℚ
  subTotal : ℚ
  discount : ℚ
  codCharge : ℚ
  payment : Payment
  discountCode : Option String
  _id : String := ""
  userEmail : Option String := none
  status : String := "pending"
  shipping : Shipping := {}
  cancellationRequested : Bool := false
  cancellationRequestedAt : Option Int := none
  cancellationReason : Option String := none
  adminCancellationReason : Option String := none
  cancelledAt : Option Int := none
  createdAt : Int := 0
  replacementRequested : Bool := false
  replacementRequestedAt : Option Int := none
  replacementReason : Option String := none
  replacementStatus : String := "pending"
  replacementApprovedAt : Option Int := none
  replacementRejectedAt : Option Int := none
  replacementRejectionReason : Option String := none
  replacementCompletedAt : Option Int := none
  replacementTrackingNumber : Option String := none
  replacementCourier : Option String := none
  replacementShiprocketOrderId : Option String := none
  replacementAdminNotes : Option String := none

/-- The body of `POST /orders`; an absent `cartItems` is the empty list. -/
structure OrderRequest where
  cartItems : List CartItem
  address : Address
  paymentMethod : String
  paymentResult : Option PaymentResult
  promoCode : Option String

/-- What the handler reads from its environment: `new Date()`, the rendering of
`Date.now()` used as order id, `req.user._id`, and the storage key that the store assigns
to the new order. -/
structure RequestEnv where
  orderTime : JsDate
  orderId : String
  userId : String
  newOrderKey : String := ""

/-- The persisted collections and the settings singleton. -/
structure Db where
  settings : Option Settings
  promotions : List Promotion
  products : List Product
  orders : List Order

/-- The answer of `POST /orders`: status 201 with the order, or an error status with
the message of the thrown error. -/
inductive OrderResponse where
  | created (order : Order)
  | failed (status : Nat) (message : String)

/-- The reduction `cartItems.reduce((acc, item) => acc + item.quantity * item.price, 0)`. -/
def cartSubTotal (cartItems : List CartItem) : ℚ :=
  cartItems.foldl (fun acc item => acc + item.quantity * item.price) 0

/-- The effect of `promotion.timesUsed += 1; await promotion.save()` on the document that
`findOne({ code })` returned, the first one carrying `code`, the cast value of the query. -/
def saveIncrement (code : String) : List Promotion → List Promotion
  | [] => []
  | p :: ps =>
    if p.code = code then { p with timesUsed := p.timesUsed + 1 } :: ps
    else p :: saveIncrement code ps

/-- The values that the block `// Apply promotion` leaves behind. -/
structure PromoOutcome where
  discount : ℚ
  discountCode : Option String
  promotions : List Promotion

/-- The block `// Apply promotion` of the handler. -/
def orderPromotion (promotions : List Promotion) (promoCode : Option String) (subTotal : ℚ) :
    PromoOutcome :=
  if truthyStr promoCode then
    let code := toUpperCase (promoCode.getD "")
    match findPromotion promotions code with
    | some promotion =>
      if promotion.isActive then
        { discount :=
            if promotion.discountType = "percentage" then
              subTotal * promotion.discountValue / 100
            else promotion.discountValue,
          discountCode := some code,
          promotions := saveIncrement (queryCode code) promotions }
      else { discount := 0, discountCode := none, promotions := promotions }
    | none => { discount := 0, discountCode := none, promotions := promotions }
  else { discount := 0, discountCode := none, promotions := promotions }

/-- The test `!item.image || !item.image.startsWith('http')`. -/
def needsImage (image : Option String) : Bool :=
  match image with
  | none => true
  | some url => decide (url = "") || decide (url.data.take 4 ≠ "http".data)

/-- The callback of `cartItems.map` that fills in a missing image from the product. -/
def resolveImage (products : List Product) (item : CartItem) : CartItem :=
  if needsImage item.image then
    match item.id.bind (fun i => products.find? (fun p => decide (p.id = i))) with
    | some product =>
      match product.images with
      | img :: _ => { item with image := some img.url }
      | [] => item
    | none => item
  else item

/-- The loop `// Decrement stock for each product in the order`.  The Mongo call
`Product.findOneAndUpdate` with its positional operator is the parameter `stockUpdate`. -/
def decrementStock (stockUpdate : List Product → CartItem → List Product)
    (products : List Product) (cartItems : List CartItem) : List Product :=
  cartItems.foldl
    (fun ps item =>
      if truthyStr item.id && decide (item.quantity ≠ 0) then stockUpdate ps item else ps)
    products

/-- The handler of `POST /orders`.  It returns the answer and the state left behind;
the confirmation e-mail is best-effort and has no effect on either. -/
def createOrder (fmt : ℚ → String) (stockUpdate : List Product → CartItem → List Product)
    (db : Db) (env : RequestEnv) (req : OrderRequest) : OrderResponse × Db :=
  if req.cartItems.length = 0 then (OrderResponse.failed 400 "No items in cart", db)
  else
    let subTotal := cartSubTotal req.cartItems
    let promo := orderPromotion db.promotions req.promoCode subTotal
    let db1 : Db := { db with promotions := promo.promotions }
    let finish (codCharge : ℚ) : OrderResponse × Db :=
      let total := subTotal - promo.discount + codCharge
      let order : Order :=
        { orderId := env.orderId,
          user := env.userId,
          items := req.cartItems.map (resolveImage db1.products),
          address := req.address,
          total := total,
          subTotal := subTotal,
          discount := promo.discount,
          codCharge := codCharge,
          payment :=
            { method := req.paymentMethod,
              paymentId := req.paymentResult.bind (fun r => r.id),
              status :=
                match req.paymentResult with
                | some r => r.status
                | none => "pending" },
          discountCode := promo.discountCode,
          _id := env.newOrderKey }
      (OrderResponse.created order,
        { db1 with
          orders := db1.orders ++ [order],
          products := decrementStock stockUpdate db1.products req.cartItems })
    if req.paymentMethod = "cod" then
      let codAvailability :=
        isCodAvailable fmt db1.settings subTotal req.address.postalCode req.address.state
          req.address.city req.cartItems env.orderTime
      if codAvailability.available = false then
        (OrderResponse.failed 400 (codAvailability.reason.getD ""), db1)
      else
        finish
          (calculateCodCharge db1.settings subTotal req.address.postalCode req.address.state
            req.address.city none)
    else finish 0

/-! ## Store primitives and the stock update of `POST /orders` -/

/-- Rewrites the first document of a collection that satisfies `p`.  Storage keys are
unique, so `doc.save()` and `findByIdAndUpdate(doc._id, ...)` write the very document that
the preceding query returned: the first one satisfying the predicate of that query. -/
def updateFirst {α : Type} (p : α → Bool) (f : α → α) : List α → List α
  | [] => []
  | x :: xs => if p x then f x :: xs else x :: updateFirst p f xs

/-- The array condition of the stock filter that the positional operator `$` follows.
The filter `{ _id, "variants.color", "variants.size" }` puts two separate conditions on
the array `variants` (no `$elemMatch`), and `$` stands for the first element matched by one
of them. -/
inductive PositionalRule where
  | colorCondition
  | sizeCondition

/-- The filter of the stock update: the product has the id, some variant has the colour
and some variant, possibly another one, has the size. -/
def stockFilter (item : CartItem) (p : Product) : Bool :=
  decide (some p.id = item.id) &&
    p.variants.any (fun v => decide (some v.color = item.color)) &&
    p.variants.any (fun v => decide (v.size = item.size))

/-- The single array condition that selects the element for `variants.$`. -/
def positionalMatch (rule : PositionalRule) (item : CartItem) (v : Variant) : Bool :=
  match rule with
  | PositionalRule.colorCondition => decide (some v.color = item.color)
  | PositionalRule.sizeCondition => decide (v.size = item.size)

/-- The call `Product.findOneAndUpdate(filter, { $inc: { "variants.$.stock": -quantity } })`
of the stock loop. -/
def findOneAndUpdateStock (rule : PositionalRule) (products : List Product) (item : CartItem) :
    List Product :=
  updateFirst (stockFilter item)
    (fun p =>
      { p with
        variants :=
          updateFirst (positionalMatch rule item)
            (fun v => { v with stock := v.stock + -item.quantity }) p.variants })
    products

/-! ## The carrier (routes/order.js, Shiprocket helpers) -/

/-- An entry of `order_items` in the carrier payload. -/
structure ShiprocketItem where
  name : String
  sku : Option String
  units : ℚ
  selling_price : ℚ

/-- The payload of the carrier's create-order call.  The fixed parcel dimensions and
`shipping_is_billing` are constants of the source and are left out. -/
structure ShiprocketPayload where
  order_id : String
  order_date : String
  billing_customer_name : String
  billing_last_name : String
  billing_address : String
  billing_address_2 : String
  billing_city : String
  billing_pincode : String
  billing_state : String
  billing_country : String
  billing_email : Option String
  billing_phone : String
  order_items : List ShiprocketItem
  payment_method : String
  sub_total : ℚ
  total_discount : ℚ
  total : ℚ
  cod_charges : Option ℚ

/-- The callback of `cartItems.map` that builds one entry of `order_items`. -/
def shiprocketItem (item : CartItem) : ShiprocketItem :=
  { name := item.name,
    sku := if truthyStr item.sku then item.sku else item.id,
    units := if item.quantity ≠ 0 then item.quantity else 1,
    selling_price := item.price }

/-- The reduction `order_items.reduce((sum, item) => sum + item.selling_price * item.units, 0)`. -/
def shiprocketTotal (items : List ShiprocketItem) : ℚ :=
  items.foldl (fun sum item => sum + item.selling_price * item.units) 0

/-- The object `shiprocketPayload` built by `createShiprocketOrder`; `today` is the date
part of `new Date().toISOString()`. -/
def shiprocketPayload (today : String) (order : Order) (address : Address)
    (cartItems : List CartItem) : ShiprocketPayload :=
  let order_items := cartItems.map shiprocketItem
  let rest := address.name.data.dropWhile (fun c => decide (c ≠ ' '))
  { order_id := order.orderId,
    order_date := today,
    billing_customer_name := ⟨address.name.data.takeWhile (fun c => decide (c ≠ ' '))⟩,
    billing_last_name :=
      (match rest with
       | [] => "."
       | _ :: tail => ⟨tail⟩),
    billing_address := address.addressLine1,
    billing_address_2 := if truthyStr address.addressLine2 then address.addressLine2.getD "" else "",
    billing_city := address.city,
    billing_pincode := address.postalCode,
    billing_state := address.state,
    billing_country := address.country,
    billing_email := order.userEmail,
    billing_phone := address.phone,
    order_items := order_items,
    payment_method := if order.payment.method = "cod" then "COD" else "Prepaid",
    sub_total := order.subTotal,
    total_discount := order.discount,
    total := shiprocketTotal order_items +
      (if order.payment.method = "cod" then
        (if order.codCharge ≠ 0 then order.codCharge else 0)
       else 0),
    cod_charges :=
      if order.payment.method = "cod" ∧ order.codCharge ≠ 0 then some order.codCharge else none }

/-- The first courier of a serviceability answer. -/
structure CourierInfo where
  courier_name : Option String

/-- What the serviceability call of the carrier can come back with: an answer listing the
available couriers, or a failure with the message of the response body (if any) and the
message of the error. -/
inductive ServiceabilityReply where
  | couriers (available : List CourierInfo)
  | failure (dataMessage : Option String) (message : String)

/-- What the create-order call of the carrier can come back with: the two identifiers, or
a failure with the message of the response body (if any). -/
inductive CreateReply where
  | created (shipment_id : String) (order_id : String)
  | failure (dataMessage : Option String)

/-- The carrier as seen by the handlers: its answers to the two calls. -/
structure Carrier where
  serviceability : String → ServiceabilityReply
  createOrder : ShiprocketPayload → CreateReply

/-- The helper `validateShiprocketServiceability`: the first available courier, or the
message of the error it throws. -/
def validateShiprocketServiceability (carrier : Carrier) (postalCode : String) :
    Except String CourierInfo :=
  match carrier.serviceability postalCode with
  | ServiceabilityReply.couriers [] => Except.error "Pincode not serviceable by Shiprocket"
  | ServiceabilityReply.couriers (c :: _) => Except.ok c
  | ServiceabilityReply.failure dataMessage message =>
    Except.error
      (if truthyStr dataMessage then dataMessage.getD ""
       else if message ≠ "" then message
       else "Shiprocket serviceability check failed")

/-- The helper `createShiprocketOrder`: the identifiers the carrier returns, or the message
of the error it throws. -/
def createShiprocketOrder (carrier : Carrier) (today : String) (order : Order)
    (address : Address) (cartItems : List CartItem) : Except String (String × String) :=
  match carrier.createOrder (shiprocketPayload today order address cartItems) with
  | CreateReply.created shipment_id order_id => Except.ok (shipment_id, order_id)
  | CreateReply.failure dataMessage =>
    Except.error
      (if truthyStr dataMessage then dataMessage.getD "" else "Failed to create Shiprocket order")

/-! ## Order lifecycle handlers (routes/order.js) -/

/-- The answer of a lifecycle endpoint: the HTTP status, the message (or error text), and
the identifiers some answers carry.  An error thrown with no status set is answered with
status 500. -/
structure ApiResponse where
  status : Nat
  message : String
  orderId : Option String := none
  shiprocketOrderId : Option String := none
  shipmentId : Option String := none
deriving DecidableEq

/-- The predicate of the query that finds an order by its human-readable id, falling back
to the storage key: `Order.findOne({ orderId })`, then `Order.findById(orderId)`.
Identifiers are plain strings; a failing cast of the key is outside the model. -/
def orderKey (orders : List Order) (orderId : String) : Order → Bool :=
  if orders.any (fun o => decide (o.orderId = orderId)) then
    fun o => decide (o.orderId = orderId)
  else fun o => decide (o._id = orderId)

/-- The order found by human-readable id or storage key. -/
def findOrder (orders : List Order) (orderId : String) : Option Order :=
  orders.find? (orderKey orders orderId)

/-- The predicate of the webhook's query: `Order.findOne({ "shipping.shiprocketOrderId" })`,
then `Order.findById`. -/
def carrierKey (orders : List Order) (order_id : String) : Order → Bool :=
  if orders.any (fun o => decide (o.shipping.shiprocketOrderId = some order_id)) then
    fun o => decide (o.shipping.shiprocketOrderId = some order_id)
  else fun o => decide (o._id = order_id)

/-- The body of the carrier webhook. -/
structure WebhookPayload where
  order_id : Option String
  awb_code : Option String
  courier_name : Option String := none
  courier_id : Option String := none
  expected_delivery_date : Option String := none
  pickup_scheduled_date : Option String := none
  status : Option String := none

/-- The value a field takes when an update sets it to a possibly `undefined` value:
`stripUndefined` tells whether the store drops `undefined` entries of an update (the field
keeps its value) or writes them as `null`. -/
def setField {α : Type} (stripUndefined : Bool) (old new : Option α) : Option α :=
  match new with
  | some v => some v
  | none => if stripUndefined then old else none

/-- The effect of the webhook's `updateData` on the located order. -/
def webhookUpdate (stripUndefined : Bool) (payload : WebhookPayload) (order : Order) : Order :=
  { order with
    status := "shipped",
    shipping :=
      { order.shipping with
        awbCode := payload.awb_code,
        courier := setField stripUndefined order.shipping.courier payload.courier_name,
        courierId := setField stripUndefined order.shipping.courierId payload.courier_id,
        status := some "shipped",
        expectedDeliveryDate :=
          if truthyStr payload.expected_delivery_date then payload.expected_delivery_date
          else order.shipping.expectedDeliveryDate,
        pickupScheduledDate :=
          if truthyStr payload.pickup_scheduled_date then payload.pickup_scheduled_date
          else order.shipping.pickupScheduledDate } }

/-- The handler of `POST /webhook/shiprocket`.  `isObjectId` tells which texts the driver
casts to a storage key: when no order carries `order_id` as its carrier order id,
`Order.findById(order_id)` throws for a text it cannot cast, and the `catch` of the
handler answers 500.  The shipment e-mail is best-effort and has no effect on the answer or
the store. -/
def shiprocketWebhook (isObjectId : String → Bool) (stripUndefined : Bool)
    (orders : List Order) (payload : WebhookPayload) : ApiResponse × List Order :=
  if truthyStr payload.order_id = false ∨ truthyStr payload.awb_code = false then
    ({ status := 400, message := "Missing required fields" }, orders)
  else if orders.any
        (fun o => decide (o.shipping.shiprocketOrderId = some (payload.order_id.getD ""))) =
          false ∧
      isObjectId (payload.order_id.getD "") = false then
    ({ status := 500, message := "Internal server error" }, orders)
  else
    let key := carrierKey orders (payload.order_id.getD "")
    match orders.find? key with
    | none => ({ status := 404, message := "Order not found" }, orders)
    | some order =>
      ({ status := 200, message := "Order updated successfully", orderId := some order.orderId },
        updateFirst key (webhookUpdate stripUndefined payload) orders)

/-- The list `shippedStatuses` of the cancellation request handler. -/
def shippedStatuses : List String := ["shipped", "in_transit", "out_for_delivery", "delivered"]

/-- The fields a user cancellation request writes. -/
def markCancellationRequested (now : Int) (reason : String) (order : Order) : Order :=
  { order with
    cancellationRequested := true,
    cancellationRequestedAt := some now,
    cancellationReason := some (jsTrim reason) }

/-- The handler of `POST /request-cancellation/:orderId`; `now` is `new Date()`.  The
e-mail to the admin is best-effort and has no effect on the answer or the store. -/
def requestCancellation (orders : List Order) (orderId : String) (reason : Option String)
    (now : Int) : ApiResponse × List Order :=
  if truthyStr reason = false ∨ jsTrim (reason.getD "") = "" then
    ({ status := 400, message := "Cancellation reason is required" }, orders)
  else
    match findOrder orders orderId with
    | none => ({ status := 404, message := "Order not found" }, orders)
    | some order =>
      if order.status ≠ "" ∧ shippedStatuses.contains (toLowerCase order.status) = true then
        ({ status := 400, message := "Cannot cancel shipped orders" }, orders)
      else if truthyStr order.shipping.status = true ∧
          shippedStatuses.contains (toLowerCase (order.shipping.status.getD "")) = true then
        ({ status := 400, message := "Cannot cancel shipped orders" }, orders)
      else if truthyStr order.shipping.awbCode = true then
        ({ status := 400, message := "Cannot cancel orders with AWB assigned" }, orders)
      else if order.cancellationRequested = true then
        ({ status := 400, message := "Cancellation already requested for this order" }, orders)
      else
        ({ status := 200,
           message :=
             "Cancellation request submitted successfully. Admin will review your request." },
          updateFirst (orderKey orders orderId)
            (markCancellationRequested now (reason.getD "")) orders)

/-- The fields the approve branch writes. -/
def approveCancellation (now : Int) (adminReason : Option String) (order : Order) : Order :=
  { order with
    status := "cancelled",
    cancelledAt := some now,
    adminCancellationReason :=
      some (if truthyStr adminReason then adminReason.getD "" else "Cancelled by admin") }

/-- The fields the reject branch writes. -/
def rejectCancellation (adminReason : Option String) (order : Order) : Order :=
  { order with
    cancellationRequested := false,
    cancellationRequestedAt := none,
    cancellationReason := none,
    adminCancellationReason :=
      some (if truthyStr adminReason then adminReason.getD ""
            else "Cancellation request rejected") }

/-- The handler of `POST /admin/cancellation/:orderId/:action`; `role` is `req.user.role`.
The carrier-side cancellation of the approve branch and the e-mails are best-effort: their
outcome has no effect on the answer or the store. -/
def adminCancellation (orders : List Order) (role orderId action : String)
    (adminReason : Option String) (now : Int) : ApiResponse × List Order :=
  if role ≠ "admin" then ({ status := 403, message := "Access denied. Admin only." }, orders)
  else if ["approve", "reject"].contains action = false then
    ({ status := 400, message := "Invalid action. Must be 'approve' or 'reject'" }, orders)
  else
    match findOrder orders orderId with
    | none => ({ status := 404, message := "Order not found" }, orders)
    | some order =>
      if order.cancellationRequested = false then
        ({ status := 400, message := "No cancellation request found for this order" }, orders)
      else
        ({ status := 200, message := "Cancellation request " ++ action ++ "ed successfully" },
          updateFirst (orderKey orders orderId)
            (if action = "approve" then approveCancellation now adminReason
             else rejectCancellation adminReason)
            orders)

/-- The handler of `POST /admin/create-shiprocket-any/:orderId`.  The order is looked up
by its human-readable id only. -/
def createShiprocketAny (carrier : Carrier) (today : String) (orders : List Order)
    (role orderId : String) : ApiResponse × List Order :=
  if role ≠ "admin" then ({ status := 403, message := "Access denied. Admin only." }, orders)
  else
    let key : Order → Bool := fun o => decide (o.orderId = orderId)
    match orders.find? key with
    | none => ({ status := 404, message := "Order not found" }, orders)
    | some order =>
      if truthyStr order.shipping.shiprocketOrderId = true then
        ({ status := 400, message := "Shiprocket order already exists for this order" }, orders)
      else
        match validateShiprocketServiceability carrier order.address.postalCode with
        | Except.error message =>
          ({ status := 500, message := "Failed to create Shiprocket order: " ++ message }, orders)
        | Except.ok courier =>
          match createShiprocketOrder carrier today order order.address order.items with
          | Except.error message =>
            ({ status := 500, message := "Failed to create Shiprocket order: " ++ message },
              orders)
          | Except.ok (shipment_id, order_id) =>
            ({ status := 200,
               message :=
                 "Shiprocket order created successfully. Order is now being processed for shipment.",
               shiprocketOrderId := some order_id,
               shipmentId := some shipment_id },
              updateFirst key
                (fun o =>
                  { o with
                    status := "confirmed",
                    shipping :=
                      { o.shipping with
                        shipmentId := some shipment_id,
                        shiprocketOrderId := some order_id,
                        courier := courier.courier_name,
                        status := some "Processing" } })
                orders)

/-- The handler of `POST /admin/add-to-shiprocket/:orderId`.  The error thrown by
`createShiprocketOrder` is not caught by the handler. -/
def addToShiprocket (carrier : Carrier) (today : String) (orders : List Order)
    (role orderId : String) : ApiResponse × List Order :=
  if role ≠ "admin" then ({ status := 403, message := "Access denied. Admin only." }, orders)
  else
    match findOrder orders orderId with
    | none => ({ status := 404, message := "Order not found" }, orders)
    | some order =>
      if truthyStr order.shipping.shiprocketOrderId = true then
        ({ status := 400, message := "Order has already been added to Shiprocket" }, orders)
      else
        match createShiprocketOrder carrier today order order.address order.items with
        | Except.error message => ({ status := 500, message := message }, orders)
        | Except.ok (shipment_id, order_id) =>
          ({ status := 200,
             message := "Order successfully added to Shiprocket",
             shiprocketOrderId := some order_id,
             shipmentId := some shipment_id },
            updateFirst (orderKey orders orderId)
              (fun o =>
                { o with
                  shipping :=
                    { o.shipping with
                      shiprocketOrderId := some order_id,
                      shipmentId := some shipment_id,
                      status := some "Processing" } })
              orders)

/-! ## Admin direct cancellation (routes/order.js) -/

/-- The fields the direct cancellation writes. -/
def markCancelled (now : Int) (reason : String) (order : Order) : Order :=
  { order with
    status := "cancelled",
    cancelledAt := some now,
    adminCancellationReason := some (jsTrim reason) }

/-- The handler of `POST /admin/cancel/:orderId`; `now` is `new Date()`.  The carrier-side
cancellation and the e-mail are best-effort: their outcome has no effect on the answer or
the store. -/
def adminCancel (orders : List Order) (role orderId : String) (reason : Option String)
    (now : Int) : ApiResponse × List Order :=
  if role ≠ "admin" then ({ status := 403, message := "Access denied. Admin only." }, orders)
  else if truthyStr reason = false ∨ jsTrim (reason.getD "") = "" then
    ({ status := 400, message := "Cancellation reason is required" }, orders)
  else
    match findOrder orders orderId with
    | none => ({ status := 404, message := "Order not found" }, orders)
    | some _ =>
      ({ status := 200, message := "Order cancelled successfully and removed from Shiprocket" },
        updateFirst (orderKey orders orderId) (markCancelled now (reason.getD "")) orders)

/-! ## Replacements (routes/replacements.js)

Instants are milliseconds since the epoch; `timeValue` is the time value of the date
stored in `shipping.expectedDeliveryDate`, `zone` the time zone of the server. -/

/-- The length of a day in milliseconds. -/
def dayMs : Int := 86400000

/-- The body `createReplacementShiprocketOrder` posts to the carrier.  The fixed parcel
dimensions, the pickup location and `shipping_is_billing` are constants of the source and
are left out. -/
structure ReplacementPayload where
  order_id : String
  order_date : String
  billing_customer_name : String
  billing_last_name : String
  billing_address : Option String
  billing_address_2 : String
  billing_city : Option String
  billing_pincode : Option String
  billing_state : Option String
  billing_country : Option String
  billing_email : Option String
  billing_phone : Option String
  order_items : List ShiprocketItem
  payment_method : String
  sub_total : ℚ
  comment : String

/-- The carrier as seen from routes/replacements.js: the login call of its own
`getShiprocketToken` (the token, or nothing when the call fails) and the create-order
call. -/
structure ReplacementCarrier where
  login : Option String
  createOrder : ReplacementPayload → CreateReply

/-- The callback of `originalOrder.items.map` in `createReplacementShiprocketOrder`. -/
def replacementItem (item : CartItem) : ShiprocketItem :=
  { name := "REPLACEMENT - " ++ item.name,
    sku := if truthyStr item.sku then item.sku else item.id,
    units := if item.quantity ≠ 0 then item.quantity else 1,
    selling_price := 0 }

/-- The identifier `REP_${originalOrder.orderId}_${Date.now()}`; `stamp` is the rendering
of `Date.now()`. -/
def replacementOrderId (stamp : String) (originalOrder : Order) : String :=
  "REP_" ++ originalOrder.orderId ++ "_" ++ stamp

/-- The body of the create-order call, once `address.name` has been read: `address` is
`originalOrder.shipping`, `today` the date part of `new Date().toISOString()`. -/
def replacementPayload (today stamp name : String) (originalOrder : Order)
    (replacementReason : Option String) : ReplacementPayload :=
  let address := originalOrder.shipping
  let rest := name.data.dropWhile (fun c => decide (c ≠ ' '))
  { order_id := replacementOrderId stamp originalOrder,
    order_date := today,
    billing_customer_name := ⟨name.data.takeWhile (fun c => decide (c ≠ ' '))⟩,
    billing_last_name :=
      (match rest with
       | [] => "."
       | _ :: tail => ⟨tail⟩),
    billing_address := address.addressLine1,
    billing_address_2 := if truthyStr address.addressLine2 then address.addressLine2.getD "" else "",
    billing_city := address.city,
    billing_pincode := address.postalCode,
    billing_state := address.state,
    billing_country := address.country,
    billing_email := originalOrder.userEmail,
    billing_phone := address.phone,
    order_items := originalOrder.items.map replacementItem,
    payment_method := "Prepaid",
    sub_total := 0,
    comment :=
      "Replacement for order " ++ originalOrder.orderId ++ ". Reason: " ++
        replacementReason.getD "undefined" }

/-- The helper `createReplacementShiprocketOrder`: the shipment id, the carrier order id
and the replacement order id, or the message of the error it throws.  Everything runs
inside one `try`: a failed login, the failing read `address.name.split` when
`originalOrder.shipping` has no `name`, and a failed create-order call all end in the
`catch`, which keeps only the message of a carrier response body. -/
def createReplacementShiprocketOrder (carrier : ReplacementCarrier) (today stamp : String)
    (originalOrder : Order) (replacementReason : Option String) :
    Except String (String × String × String) :=
  match carrier.login with
  | none => Except.error "Failed to create Shiprocket replacement order"
  | some _ =>
    match originalOrder.shipping.name with
    | none => Except.error "Failed to create Shiprocket replacement order"
    | some name =>
      match carrier.createOrder
          (replacementPayload today stamp name originalOrder replacementReason) with
      | CreateReply.created shipment_id order_id =>
        Except.ok (shipment_id, order_id, replacementOrderId stamp originalOrder)
      | CreateReply.failure dataMessage =>
        Except.error
          (if truthyStr dataMessage then dataMessage.getD ""
           else "Failed to create Shiprocket replacement order")

/-- The predicate of `Order.findOne({ orderId, user: userId })`. -/
def replacementKey (userId orderId : String) : Order → Bool :=
  fun o => decide (o.orderId = orderId ∧ o.user = userId)

/-- The predicate of `Order.findOne({ orderId })`. -/
def orderIdKey (orderId : String) : Order → Bool :=
  fun o => decide (o.orderId = orderId)

/-- The value `order.shipping?.expectedDeliveryDate || order.createdAt` as an instant. -/
def deliveryTime (timeValue : String → Int) (order : Order) : Int :=
  match order.shipping.expectedDeliveryDate with
  | some d => timeValue d
  | none => order.createdAt

/-- The time zone of the server as the engine sees it, in milliseconds: the offset of local
time from UTC in effect at an instant, and the offset the engine takes for a local time
value when it turns it back into an instant. -/
structure TimeZone where
  offsetAt : Int → Int
  offsetOfLocal : Int → Int

/-- The call `d.setDate(d.getDate() + days)` on the instant `t`, for a whole number of
days: the local time value of `t` is moved by `days` calendar days, the clock time kept,
and turned back into an instant. -/
def setDateForward (zone : TimeZone) (t days : Int) : Int :=
  let moved := t + zone.offsetAt t + days * dayMs
  moved - zone.offsetOfLocal moved

/-- The date `replacementDeadline` after `setDate(getDate() + days)`: the delivery date
moved by the whole days of the policy on the calendar of the server.  `days` is not
negative (schema), and `setDate` drops a fractional part. -/
def replacementDeadline (zone : TimeZone) (timeValue : String → Int) (order : Order)
    (policy : ReplacementPolicy) : Int :=
  setDateForward zone (deliveryTime timeValue order) ⌊policy.days⌋

/-- The replacement policy reached through `Product.findById(order.items[0].id)`: nothing
when the product or its policy is missing. -/
def firstItemPolicy (products : List Product) (item : CartItem) : Option ReplacementPolicy :=
  (item.id.bind (fun i => products.find? (fun p => decide (p.id = i)))).bind
    (fun product => product.replacementPolicy)

/-- The answer of `GET /check-eligibility/:orderId`, without the human-readable message
and the echoed policy. -/
structure EligibilityResponse where
  status : Nat
  eligible : Option Bool := none
  reason : Option String := none
  replacementDeadline : Option Int := none
  daysRemaining : Option Int := none
deriving DecidableEq

/-- The handler of `GET /check-eligibility/:orderId`; `userId` is `req.user._id` and `now`
is `new Date()`.  Reading `order.items[0].id` of an order without items throws inside the
`try`, which answers 500. -/
def checkEligibility (zone : TimeZone) (timeValue : String → Int) (orders : List Order)
    (products : List Product) (userId orderId : String) (now : Int) : EligibilityResponse :=
  match orders.find? (replacementKey userId orderId) with
  | none => { status := 404 }
  | some order =>
    if order.status ≠ "delivered" ∧ order.status ≠ "confirmed" then
      { status := 200, eligible := some false, reason := some "order_not_delivered" }
    else if order.replacementRequested = true then
      { status := 200, eligible := some false, reason := some "replacement_already_requested" }
    else
      match order.items with
      | [] => { status := 500 }
      | item :: _ =>
        match firstItemPolicy products item with
        | none => { status := 200, eligible := some false, reason := some "no_replacement_policy" }
        | some policy =>
          let deadline := replacementDeadline zone timeValue order policy
          if now ≤ deadline then
            { status := 200, eligible := some true,
              replacementDeadline := some deadline,
              daysRemaining := some ⌈(((deadline - now : Int) : ℚ)) / ((dayMs : Int) : ℚ)⌉ }
          else
            { status := 200, eligible := some false,
              reason := some "replacement_period_expired",
              replacementDeadline := some deadline,
              daysRemaining := some 0 }

/-- The fields a replacement request writes. -/
def markReplacementRequested (now : Int) (reason : String) (order : Order) : Order :=
  { order with
    replacementRequested := true,
    replacementRequestedAt := some now,
    replacementReason := some reason,
    replacementStatus := "pending" }

/-- The handler of `POST /request/:orderId`. -/
def requestReplacement (fmt : ℚ → String) (zone : TimeZone) (timeValue : String → Int)
    (orders : List Order) (products : List Product) (userId orderId : String)
    (reason : Option String) (now : Int) : ApiResponse × List Order :=
  if truthyStr reason = false then
    ({ status := 400, message := "Replacement reason is required" }, orders)
  else
    match orders.find? (replacementKey userId orderId) with
    | none => ({ status := 404, message := "Order not found" }, orders)
    | some order =>
      if order.replacementRequested = true then
        ({ status := 400, message := "Replacement already requested for this order" }, orders)
      else
        match order.items with
        | [] => ({ status := 500, message := "Failed to request replacement" }, orders)
        | item :: _ =>
          match firstItemPolicy products item with
          | none =>
            ({ status := 400, message := "This product does not have a replacement policy" },
              orders)
          | some policy =>
            if now > replacementDeadline zone timeValue order policy then
              ({ status := 400,
                 message :=
                   "Replacement period expired. Replacement policy allows replacements within " ++
                     fmt policy.days ++ " days of delivery." },
                orders)
            else
              ({ status := 200, message := "Replacement request submitted successfully" },
                updateFirst (replacementKey userId orderId)
                  (markReplacementRequested now (reason.getD "")) orders)

/-- The fields the user's cancellation of a replacement request resets. -/
def resetReplacement (order : Order) : Order :=
  { order with
    replacementRequested := false,
    replacementRequestedAt := none,
    replacementReason := none,
    replacementStatus := "pending",
    replacementApprovedAt := none,
    replacementRejectedAt := none,
    replacementRejectionReason := none }

/-- The handler of `POST /cancel/:orderId`. -/
def cancelReplacement (orders : List Order) (userId orderId : String) :
    ApiResponse × List Order :=
  match orders.find? (replacementKey userId orderId) with
  | none => ({ status := 404, message := "Order not found" }, orders)
  | some order =>
    if order.replacementRequested = false then
      ({ status := 400, message := "No replacement request found for this order" }, orders)
    else if order.replacementStatus ≠ "pending" then
      ({ status := 400, message := "Cannot cancel replacement request that is not pending" },
        orders)
    else
      ({ status := 200, message := "Replacement request cancelled successfully" },
        updateFirst (replacementKey userId orderId) resetReplacement orders)

/-- The fields the approval writes once the carrier holds the replacement shipment. -/
def markReplacementApproved (now : Int) (shipment_id replacement_order_id : String)
    (adminNotes : Option String) (order : Order) : Order :=
  { order with
    replacementStatus := "approved",
    replacementApprovedAt := some now,
    replacementTrackingNumber := some shipment_id,
    replacementCourier := some "Shiprocket",
    replacementShiprocketOrderId := some replacement_order_id,
    replacementAdminNotes := adminNotes }

/-- The fields a rejection writes. -/
def markReplacementRejected (now : Int) (rejectionReason : String) (adminNotes : Option String)
    (order : Order) : Order :=
  { order with
    replacementStatus := "rejected",
    replacementRejectedAt := some now,
    replacementRejectionReason := some rejectionReason,
    replacementAdminNotes := adminNotes }

/-- The handler of `POST /admin/approve/:orderId`; `role` is `req.user.role` of the user
that `protect` has authenticated.  The route is mounted with `protect` only and the handler
does not read the role. -/
def approveReplacement (carrier : ReplacementCarrier) (today stamp : String)
    (orders : List Order) (role orderId : String) (adminNotes : Option String) (now : Int) :
    ApiResponse × List Order :=
  match orders.find? (orderIdKey orderId) with
  | none => ({ status := 404, message := "Order not found" }, orders)
  | some order =>
    if order.replacementRequested = false then
      ({ status := 400, message := "No replacement request found for this order" }, orders)
    else if order.replacementStatus ≠ "pending" then
      ({ status := 400, message := "Replacement request is not pending" }, orders)
    else
      match createReplacementShiprocketOrder carrier today stamp order order.replacementReason with
      | Except.ok (shipment_id, _, replacement_order_id) =>
        ({ status := 200,
           message := "Replacement approved and Shiprocket order created successfully" },
          updateFirst (orderIdKey orderId)
            (markReplacementApproved now shipment_id replacement_order_id adminNotes) orders)
      | Except.error message =>
        ({ status := 500,
           message := "Replacement rejected due to shipping order creation failure" },
          updateFirst (orderIdKey orderId)
            (markReplacementRejected now ("Failed to create shipping order: " ++ message)
              adminNotes)
            orders)

/-- The handler of `POST /admin/reject/:orderId`; the route is mounted with `protect` only
and the handler does not read the role. -/
def rejectReplacement (orders : List Order) (role orderId : String)
    (rejectionReason adminNotes : Option String) (now : Int) : ApiResponse × List Order :=
  if truthyStr rejectionReason = false then
    ({ status := 400, message := "Rejection reason is required" }, orders)
  else
    match orders.find? (orderIdKey orderId) with
    | none => ({ status := 404, message := "Order not found" }, orders)
    | some order =>
      if order.replacementRequested = false then
        ({ status := 400, message := "No replacement request found for this order" }, orders)
      else if order.replacementStatus ≠ "pending" then
        ({ status := 400, message := "Replacement request is not pending" }, orders)
      else
        ({ status := 200, message := "Replacement request rejected successfully" },
          updateFirst (orderIdKey orderId)
            (markReplacementRejected now (rejectionReason.getD "") adminNotes) orders)

/-- The fields the completion writes; the notes are kept when none are sent. -/
def markReplacementCompleted (now : Int) (adminNotes : Option String) (order : Order) : Order :=
  { order with
    replacementStatus := "completed",
    replacementCompletedAt := some now,
    replacementAdminNotes :=
      if truthyStr adminNotes then adminNotes else order.replacementAdminNotes }

/-- The handler of `POST /admin/complete/:orderId`; the route is mounted with `protect`
only and the handler does not read the role. -/
def completeReplacement (orders : List Order) (role orderId : String)
    (adminNotes : Option String) (now : Int) : ApiResponse × List Order :=
  match orders.find? (orderIdKey orderId) with
  | none => ({ status := 404, message := "Order not found" }, orders)
  | some order =>
    if order.replacementRequested = false then
      ({ status := 400, message := "No replacement request found for this order" }, orders)
    else if order.replacementStatus ≠ "approved" then
      ({ status := 400,
         message := "Replacement must be approved before marking as completed" }, orders)
    else
      ({ status := 200, message := "Replacement marked as completed successfully" },
        updateFirst (orderIdKey orderId) (markReplacementCompleted now adminNotes) orders)

/-- The handler of `GET /admin/all`: the status and the orders with a replacement request,
in the order of the collection (the sort by request date is left out); the route is
mounted with `protect` only and the handler does not read the role. -/
def allReplacements (orders : List Order) (role : String) : Nat × List Order :=
  (200, orders.filter (fun o => o.replacementRequested))

/-- A replacement operation with the data of its request. -/
inductive ReplacementOp where
  | request (userId orderId : String) (reason : Option String)
  | cancel (userId orderId : String)
  | approve (role orderId : String) (adminNotes : Option String)
  | reject (role orderId : String) (rejectionReason adminNotes : Option String)
  | complete (role orderId : String) (adminNotes : Option String)

/-- What a replacement operation reads besides the orders: number rendering, the time
zone of the server, the time values of stored dates, the products, the carrier, and the
clock of the request. -/
structure ReplacementEnv where
  fmt : ℚ → String
  zone : TimeZone
  timeValue : String → Int
  products : List Product
  carrier : ReplacementCarrier
  today : String
  stamp : String
  now : Int

/-- The route a replacement operation goes to. -/
def runReplacementOp (env : ReplacementEnv) (orders : List Order) :
    ReplacementOp → ApiResponse × List Order
  | ReplacementOp.request userId orderId reason =>
    requestReplacement env.fmt env.zone env.timeValue orders env.products userId orderId reason
      env.now
  | ReplacementOp.cancel userId orderId => cancelReplacement orders userId orderId
  | ReplacementOp.approve role orderId adminNotes =>
    approveReplacement env.carrier env.today env.stamp orders role orderId adminNotes env.now
  | ReplacementOp.reject role orderId rejectionReason adminNotes =>
    rejectReplacement orders role orderId rejectionReason adminNotes env.now
  | ReplacementOp.complete role orderId adminNotes =>
    completeReplacement orders role orderId adminNotes env.now

/-- The orders after a sequence of replacement operations, each with its own
environment. -/
def runReplacementOps (orders : List Order) (ops : List (ReplacementEnv × ReplacementOp)) :
    List Order :=
  ops.foldl (fun store step => (runReplacementOp step.1 store step.2).2) orders

/-! ## Product variants and bulk stock (routes/productRoutes.js) -/

/-- The value a request body carries in the place of a size: nothing (`undefined`), `null`,
a text, or a value of another type, given by its truthiness and its rendering inside a
template string. -/
inductive SizeValue where
  | absent
  | null
  | text (s : String)
  | other (truthy : Bool) (rendered : String)
deriving DecidableEq

/-- The expression `size || fallback` as it is rendered inside a template string. -/
def sizeOr (fallback : String) : SizeValue → String
  | SizeValue.absent => fallback
  | SizeValue.null => fallback
  | SizeValue.text s => if s = "" then fallback else s
  | SizeValue.other truthy rendered => if truthy then rendered else fallback

/-- The comparison `v.size === size` of the size of a stored variant (absent, or a text)
with a value of the request. -/
def sizeEquals (stored : Option String) (size : SizeValue) : Bool :=
  match stored, size with
  | none, SizeValue.absent => true
  | some s, SizeValue.text t => decide (s = t)
  | _, _ => false

/-- An entry of `parsedVariants` in the body of product create and update.  A `color` that
is not a string and a `stock` that is not a number are absent ones here. -/
structure VariantInput where
  color : Option String
  size : SizeValue
  stock : Option ℚ

/-- Whether the callback of `parsedVariants.forEach` pushes a validation error: the colour
is missing, the size is neither `undefined` nor a string, or the stock is not a number that
is at least 0. -/
def variantInvalid (variant : VariantInput) : Bool :=
  !truthyStr variant.color ||
    (match variant.size with
     | SizeValue.absent => false
     | SizeValue.text _ => false
     | _ => true) ||
    (match variant.stock with
     | none => true
     | some stock => decide (stock < 0))

/-- The key computed by the callback of the `colorSizeCombos` map. -/
def colorSizeCombo (v : VariantInput) : String :=
  v.color.getD "undefined" ++ "-" ++ sizeOr "NOSIZE" v.size

/-- The callback of `colorSizeCombos.filter`, run from position `index` on. -/
def duplicatesFrom (colorSizeCombos : List String) : Nat → List String → List String
  | _, [] => []
  | index, combo :: rest =>
    if colorSizeCombos.indexOf combo ≠ index then
      combo :: duplicatesFrom colorSizeCombos (index + 1) rest
    else duplicatesFrom colorSizeCombos (index + 1) rest

/-- The list `duplicates`: the keys that are not at the position of their first
occurrence. -/
def duplicateCombos (colorSizeCombos : List String) : List String :=
  duplicatesFrom colorSizeCombos 0 colorSizeCombos

/-- The variant checks shared by `POST /` and `PUT /:id` of the products: the refusal
they answer, or nothing when the list passes. -/
def checkVariants (parsedVariants : List VariantInput) : Option ApiResponse :=
  if parsedVariants.length > 0 then
    if parsedVariants.any variantInvalid then
      some { status := 400, message := "Invalid variant data" }
    else if (duplicateCombos (parsedVariants.map colorSizeCombo)).length > 0 then
      some { status := 400, message := "Duplicate color-size combinations found" }
    else none
  else none

/-- An entry of `updates` in the body of `PATCH /:id/bulk-stock`; a `stock` that is not a
number is an absent one here. -/
structure StockUpdate where
  color : Option String
  size : SizeValue
  stock : Option ℚ

/-- The test `!color || typeof stock !== 'number' || stock < 0`. -/
def stockUpdateInvalid (update : StockUpdate) : Bool :=
  !truthyStr update.color ||
    (match update.stock with
     | none => true
     | some stock => decide (stock < 0))

/-- The callback of `product.variants.findIndex`: `v.color === color && v.size === size`. -/
def variantNamed (update : StockUpdate) (v : Variant) : Bool :=
  decide (some v.color = update.color) && sizeEquals v.size update.size

/-- The state of the loop over `updates`: the variants of the loaded product, the errors
and the number of results pushed so far. -/
structure BulkStockState where
  variants : List Variant
  errors : List String
  results : Nat

/-- One turn of the loop over `updates`. -/
def bulkStockStep (state : BulkStockState) (update : StockUpdate) : BulkStockState :=
  if stockUpdateInvalid update then
    { state with
      errors := state.errors ++ ["Invalid update: color required, stock must be non-negative number"] }
  else if state.variants.any (variantNamed update) = false then
    { state with
      errors := state.errors ++
        ["Variant not found for color: " ++ update.color.getD "" ++ ", size: " ++
          sizeOr "No Size" update.size] }
  else
    { state with
      variants :=
        updateFirst (variantNamed update) (fun v => { v with stock := update.stock.getD 0 })
          state.variants,
      results := state.results + 1 }

/-- The answer of `PATCH /:id/bulk-stock`. -/
structure BulkStockResponse where
  status : Nat
  message : String
  errors : List String := []
  totalUpdated : Option Nat := none

/-- The handler of `PATCH /:id/bulk-stock`; an `updates` that is not an array is the empty
list.  The loop changes the loaded document only; `product.save()` is reached when no
error was pushed. -/
def bulkStock (products : List Product) (id : String) (updates : List StockUpdate) :
    BulkStockResponse × List Product :=
  if updates.length = 0 then
    ({ status := 400, message := "Updates array is required and must not be empty" }, products)
  else
    match products.find? (fun p => decide (p.id = id)) with
    | none => ({ status := 404, message := "Product not found" }, products)
    | some product =>
      let final := updates.foldl bulkStockStep
        { variants := product.variants, errors := [], results := 0 }
      if final.errors.length > 0 then
        ({ status := 400, message := "Some updates failed", errors := final.errors }, products)
      else
        ({ status := 200, message := "Bulk stock update completed successfully",
           totalUpdated := some final.results },
          updateFirst (fun p => decide (p.id = id))
            (fun p => { p with variants := final.variants }) products)

/-! ## Reference definition of the COD charge

The charge written after the words of the specification: the branches are tried in
priority order and the first one that applies gives the charge. -/

/-- The specification's `clamp(x, lo, hi)`, read as `max(lo, min(hi, x))`. -/
def clamp (x lo hi : ℚ) : ℚ := max lo (min hi x)

/-- The specification's "a tier matches": the order value lies in
`[minAmount, maxAmount]`, and the range is unbounded above when `maxAmount` is absent. -/
def tierInRange (orderValue : ℚ) (t : Tier) : Bool :=
  match t.maxAmount with
  | none => decide (t.minAmount ≤ orderValue)
  | some m => decide (t.minAmount ≤ orderValue ∧ orderValue ≤ m)

/-- The same reading, with a `maxAmount` of zero also counting as unbounded. -/
def tierInRangeZeroOpen (orderValue : ℚ) (t : Tier) : Bool :=
  match t.maxAmount with
  | none => decide (t.minAmount ≤ orderValue)
  | some m => decide (t.minAmount ≤ orderValue ∧ (m = 0 ∨ orderValue ≤ m))

/-- The reference definition of the charge.  `tierOk` is the reading of "a tier
matches"; a courier code is supplied when it is present and not empty. -/
def calculateCodChargeRef (tierOk : ℚ → Tier → Bool) (settings : Option Settings)
    (orderValue : ℚ) (pincode state city : String) (courierCode : Option String) : ℚ :=
  match settings with
  | none => 0
  | some s =>
    if s.cod.enabled = false then 0
    else
      let p := s.cod.pricing
      let zoneCharge : Option ℚ :=
        if p.locationBased.enabled = true then
          ((p.locationBased.zones.filter
              (fun z => decide (pincode ∈ z.pincodes ∨ state ∈ z.states ∨ city ∈ z.cities))).head?).map
            (fun z =>
              if p.type = "percentage" then
                clamp (orderValue * p.percentage / 100) z.minCharge z.maxCharge
              else z.charge)
        else none
      let courierCharge : Option ℚ :=
        match courierCode with
        | none => none
        | some code =>
          if code ≠ "" ∧ s.cod.courierCharges.enabled = true then
            ((s.cod.courierCharges.couriers.filter
                (fun c => decide (c.enabled = true ∧ c.code = code))).head?).map
              (fun c => clamp (orderValue * c.percentage / 100) c.minCharge c.maxCharge)
          else none
      let tierCharge : Option ℚ :=
        if p.type = "tiered" then ((p.tiers.filter (tierOk orderValue)).head?).map (fun t => t.charge)
        else none
      let base : ℚ :=
        if p.type = "percentage" then
          clamp (orderValue * p.percentage / 100) p.minCharge p.maxCharge
        else p.fixedAmount
      ((zoneCharge <|> courierCharge) <|> tierCharge).getD base

/-! ## Reference definition of COD availability

The availability decision written after the words of the specification: a fixed list
of checks, of which the first one that fails gives the reason. -/

/-- One availability check: whether it passes, and the reason reported when it fails. -/
structure Check where
  passes : Bool
  reason : String

/-- The reason of the first check that fails, in list order. -/
def firstFailure : List Check → Option String
  | [] => none
  | c :: cs => if c.passes then firstFailure cs else some c.reason

/-- The answer built from the outcome of the checks. -/
def verdict : Option String → CodAvailability
  | none => { available := true, reason := none }
  | some r => { available := false, reason := some r }

/-- Check (3) read literally: whenever a maximum is present, `orderValue ≤ maxOrderValue`. -/
def maxOkLiteral (maxOrderValue : Option ℚ) (orderValue : ℚ) : Bool :=
  match maxOrderValue with
  | none => true
  | some m => decide (orderValue ≤ m)

/-- Check (3) with a maximum of zero counting as no maximum. -/
def maxOkZeroOpen (maxOrderValue : Option ℚ) (orderValue : ℚ) : Bool :=
  match maxOrderValue with
  | none => true
  | some m => decide (m = 0 ∨ orderValue ≤ m)

/-- Whether the product id of a cart item is among the excluded products. -/
def itemExcluded (rules : Rules) (item : CartItem) : Bool :=
  match item.id with
  | some i => decide (i ∈ rules.excludedProducts)
  | none => false

/-- The day part of the time restriction: no day listed, or the weekday is listed. -/
def dayAllowed (tr : TimeRestrictions) (orderTime : JsDate) : Prop :=
  tr.daysOfWeek = [] ∨ orderTime.day ∈ tr.daysOfWeek

instance (tr : TimeRestrictions) (orderTime : JsDate) : Decidable (dayAllowed tr orderTime) := by
  unfold dayAllowed
  infer_instance

/-- The clock part of the time restriction: `startTime ≤ HH:MM ≤ endTime` as strings. -/
def clockAllowed (tr : TimeRestrictions) (orderTime : JsDate) : Prop :=
  tr.startTime.data ≤ orderTime.hhmm.data ∧ orderTime.hhmm.data ≤ tr.endTime.data

instance (tr : TimeRestrictions) (orderTime : JsDate) :
    Decidable (clockAllowed tr orderTime) := by
  unfold clockAllowed
  infer_instance

/-- The checks (1) to (7) for present settings; `maxOk` is the reading of check (3). -/
def codChecks (maxOk : Option ℚ → ℚ → Bool) (fmt : ℚ → String) (s : Settings)
    (orderValue : ℚ) (pincode state : String) (items : List CartItem) (orderTime : JsDate) :
    List Check :=
  let rules := s.cod.rules
  let tr := rules.timeRestrictions
  [ { passes := s.cod.enabled, reason := "COD is disabled" },
    { passes := decide (orderValue ≥ rules.minOrderValue),
      reason := "Order value ₹" ++ fmt orderValue ++ " is below minimum ₹" ++
        fmt rules.minOrderValue },
    { passes := maxOk rules.maxOrderValue orderValue,
      reason := "Order value ₹" ++ fmt orderValue ++ " exceeds maximum ₹" ++
        fmt (rules.maxOrderValue.getD 0) },
    { passes := decide (pincode ∉ rules.excludedPincodes),
      reason := "COD not available for pincode " ++ pincode },
    { passes := decide (state ∉ rules.excludedStates),
      reason := "COD not available for state " ++ state },
    { passes := !tr.enabled || decide (dayAllowed tr orderTime ∧ clockAllowed tr orderTime),
      reason :=
        if dayAllowed tr orderTime then "COD not available at this time"
        else "COD not available on this day" },
    { passes := items.all (fun item => !itemExcluded rules item),
      reason := "COD not available for product " ++
        (((items.filter (itemExcluded rules)).head?).map (fun item => item.name)).getD "" } ]

/-- The availability decision by the list of checks; absent settings count as COD
disabled. -/
def isCodAvailableByChecks (maxOk : Option ℚ → ℚ → Bool) (fmt : ℚ → String)
    (settings : Option Settings) (orderValue : ℚ) (pincode state : String)
    (items : List CartItem) (orderTime : JsDate) : CodAvailability :=
  match settings with
  | none => verdict (some "COD is disabled")
  | some s => verdict (firstFailure (codChecks maxOk fmt s orderValue pincode state items orderTime))

/-! ## Reference definition of the promotion evaluator

`POST /promotions/apply` written after the words of the specification: the promotion
is looked up, then a fixed list of checks is run and the first failure is reported. -/

/-- The usage check read literally: whenever a limit is present, `timesUsed < usageLimit`. -/
def usageOkLiteral (p : Promotion) : Bool :=
  match p.usageLimit with
  | none => true
  | some l => decide (p.timesUsed < l)

/-- The usage check with a limit of zero counting as no limit. -/
def usageOkZeroOpen (p : Promotion) : Bool :=
  match p.usageLimit with
  | none => true
  | some l => decide (l = 0 ∨ p.timesUsed < l)

/-- The minimum purchase check read literally: `cartTotal ≥ minPurchase`. -/
def minPurchaseOkLiteral (p : Promotion) (cartTotal : ℚ) : Bool :=
  decide (cartTotal ≥ p.minPurchase)

/-- The minimum purchase check, skipped when `minPurchase` is zero. -/
def minPurchaseOkZeroOpen (p : Promotion) (cartTotal : ℚ) : Bool :=
  decide (p.minPurchase = 0 ∨ cartTotal ≥ p.minPurchase)

/-- The checks on a promotion that was found, in the order of the specification. -/
def promotionChecks (usageOk : Promotion → Bool) (minOk : Promotion → ℚ → Bool)
    (fmt : ℚ → String) (p : Promotion) (now : Int) (cartTotal : ℚ) : List Check :=
  [ { passes := p.isActive, reason := "This promotion is not active." },
    { passes :=
        (match p.startDate with
         | none => true
         | some d => decide (now ≥ d)),
      reason := "This promotion has not started yet." },
    { passes :=
        (match p.endDate with
         | none => true
         | some d => decide (now ≤ d)),
      reason := "This promotion has expired." },
    { passes := usageOk p, reason := "This promotion has reached its usage limit." },
    { passes := minOk p cartTotal,
      reason := "A minimum purchase of ₹" ++ fmt p.minPurchase ++ " is required." } ]

/-- The discount of the specification: `subtotal * value / 100` for a percentage
promotion, the flat `value` for a fixed one. -/
def promotionDiscount (p : Promotion) (subtotal : ℚ) : ℚ :=
  if p.discountType = "percentage" then subtotal * p.discountValue / 100 else p.discountValue

/-- The promotion that the code names, if the request carries a code and a promotion
with that code (in upper case) exists. -/
def lookupPromotion (promotions : List Promotion) (code : Option String) : Option Promotion :=
  match code with
  | none => none
  | some c => if c = "" then none else findPromotion promotions (toUpperCase c)

/-- The evaluator by checks: "code exists" first, then the checks on the promotion. -/
def promotionsApplyByChecks (usageOk : Promotion → Bool) (minOk : Promotion → ℚ → Bool)
    (fmt : ℚ → String) (promotions : List Promotion) (now : Int) (code : Option String)
    (cartTotal : ℚ) : ApplyResponse :=
  match lookupPromotion promotions code with
  | none =>
    if truthyStr code then applyError 404 "Invalid promotion code."
    else applyError 400 "Promotion code is required."
  | some p =>
    match firstFailure (promotionChecks usageOk minOk fmt p now cartTotal) with
    | some message => applyError 400 message
    | none =>
      { status := 200, message := "Promotion applied successfully!",
        discount := some
          (if p.discountType = "percentage" then cartTotal * p.discountValue / 100
           else if p.discountType = "fixed" then p.discountValue
           else 0),
        code := some p.code }

/-! ## Reference condition of the cancellation request -/

/-- The part of the acceptance condition that does not depend on an earlier request:
neither `order.status` nor `shipping.status` is, in lower case, one of the four shipped
statuses, and no (non-empty) AWB code is assigned. -/
def cancellationOpen (order : Order) : Prop :=
  toLowerCase order.status ∉ shippedStatuses ∧
    (∀ s, order.shipping.status = some s → toLowerCase s ∉ shippedStatuses) ∧
    (∀ a, order.shipping.awbCode = some a → a = "")

/-! ## Reference conditions of the replacement sub-record -/

/-- The replacement sub-record is consistent: an order without a replacement request has
the status `pending`, as a new order has. -/
def replacementConsistent (o : Order) : Prop :=
  o.replacementRequested = false → o.replacementStatus = "pending"

/-- The moves of `replacementStatus` that the specification allows. -/
def replacementMove (old new : String) : Prop :=
  (old = "pending" ∧ new = "approved") ∨ (old = "pending" ∧ new = "rejected") ∨
    (old = "approved" ∧ new = "completed")

/-- The relation between an order before and after one replacement operation: the status
is kept or moves along an allowed edge, and the sub-record stays consistent. -/
def replacementStep (o o' : Order) : Prop :=
  replacementConsistent o' ∧
    (o'.replacementStatus = o.replacementStatus ∨
      replacementMove o.replacementStatus o'.replacementStatus)

/-! ## Reference definition of the stock after a bulk update -/

/-- The position of the first element that satisfies `p`, if any. -/
def firstIndex {α : Type} (p : α → Bool) : List α → Option Nat
  | [] => none
  | x :: xs => if p x then some 0 else (firstIndex p xs).map (fun i => i + 1)

/-- An update names a variant: the variant has its colour, and either both are without
size or both have the same text as size. -/
def namesVariant (u : StockUpdate) (v : Variant) : Bool :=
  decide (u.color = some v.color) &&
    (match u.size with
     | SizeValue.absent => decide (v.size = none)
     | SizeValue.text s => decide (v.size = some s)
     | _ => false)

/-- The stock a bulk update leaves at position `i`, where the variant `v` stands: the
value of the last update that names the position, and the stock of `v` when none does.  An
update names the position of the first variant it names. -/
def stockAfterUpdates (variants : List Variant) (updates : List StockUpdate) (i : Nat)
    (v : Variant) : ℚ :=
  match (updates.filter
      (fun u => decide (firstIndex (namesVariant u) variants = some i))).getLast? with
  | some u => u.stock.getD 0
  | none => v.stock

/-- An entry of `updates` is well formed: it has a colour, and its stock is a number that
is not negative. -/
def updateWellFormed (u : StockUpdate) : Prop :=
  (∃ c, u.color = some c ∧ c ≠ "") ∧ ∃ s, u.stock = some s ∧ 0 ≤ s

/-- Some variant has the colour and the size of the update: both without size, or both
with the same text as size.  An update whose size is `null` or not a text matches no
variant. -/
def updateMatches (variants : List Variant) (u : StockUpdate) : Prop :=
  ∃ v ∈ variants, u.color = some v.color ∧
    ((u.size = SizeValue.absent ∧ v.size = none) ∨
      ∃ s, u.size = SizeValue.text s ∧ v.size = some s)

/-! ## Sample configurations

The schema defaults of `models/Settings.js`, and variations of them used to evaluate
the functions on concrete inputs. -/

/-- The schema defaults of `cod.pricing`. -/
def defaultPricing : Pricing :=
  { type := "fixed", fixedAmount := 50, percentage := 5 / 2, minCharge := 30, maxCharge := 200,
    tiers := [], locationBased := { enabled := false, zones := [] } }

/-- The schema defaults of `cod.rules`. -/
def defaultRules : Rules :=
  { minOrderValue := 0, maxOrderValue := some 10000, excludedCategories := [],
    excludedProducts := [], excludedPincodes := [], excludedStates := [],
    timeRestrictions := { enabled := false, startTime := "09:00", endTime := "18:00",
                          daysOfWeek := [] } }

/-- The schema defaults of `cod`. -/
def defaultCod : Cod :=
  { enabled := true, charge := 50, pricing := defaultPricing,
    courierCharges := { enabled := false, couriers := [] }, rules := defaultRules }

/-- Percentage pricing with the default bounds 30 and 200. -/
def percentagePricing : Pricing := { defaultPricing with type := "percentage" }

/-- Percentage pricing with one location zone whose own bounds are 300 and 400. -/
def zoneSettings : Settings :=
  { cod := { defaultCod with
      pricing := { percentagePricing with
        locationBased :=
          { enabled := true,
            zones := [{ name := "metro", pincodes := ["110001"], states := [], cities := [],
                        charge := 80, minCharge := 300, maxCharge := 400 }] } } } }

/-- Percentage pricing with one enabled courier entry whose own bounds are 300 and 400. -/
def courierSettings : Settings :=
  { cod := { defaultCod with
      pricing := percentagePricing,
      courierCharges :=
        { enabled := true,
          couriers := [{ name := "Express", code := "EXP", percentage := 5 / 2,
                         minCharge := 300, maxCharge := 400, enabled := true }] } } }

/-- Percentage pricing whose lower bound 200 lies above its upper bound 30. -/
def invertedSettings : Settings :=
  { cod := { defaultCod with
      pricing := { percentagePricing with minCharge := 200, maxCharge := 30 } } }

/-- Plain percentage pricing with the default bounds. -/
def percentageSettings : Settings :=
  { cod := { defaultCod with pricing := percentagePricing } }

/-- Tiered pricing whose first tier has `maxAmount` zero: charge 10 on `[0, 0]`, then a
tier of charge 20 from 0 upwards. -/
def zeroTierSettings : Settings :=
  { cod := { defaultCod with
      pricing := { defaultPricing with
        type := "tiered",
        tiers := [{ minAmount := 0, maxAmount := some 0, charge := 10 },
                  { minAmount := 0, maxAmount := none, charge := 20 }] } } }

/-- The promotion of the specification's scenario: `SAVE10`, ten percent, active, no
usage limit. -/
def save10 : Promotion :=
  { code := "SAVE10", description := "Ten percent off", discountType := "percentage",
    discountValue := 10, minPurchase := 0, isActive := true, startDate := none,
    endDate := none, usageLimit := none, timesUsed := 0 }

/-- A store with default settings (fixed COD charge 50) and the promotion `SAVE10`. -/
def sampleDb : Db :=
  { settings := some { cod := defaultCod }, promotions := [save10], products := [], orders := [] }

/-- A cart line of two units at 500 with an absolute image address. -/
def sampleItem : CartItem :=
  { id := some "p1", name := "Kurta", price := 500, quantity := 2, color := some "red",
    size := some "M", image := some "https://img/1.png" }

/-- A delivery address. -/
def sampleAddress : Address := { postalCode := "110001", state := "Delhi", city := "Delhi" }

/-- A Monday at 12:30. -/
def sampleTime : JsDate := { day := 1, hours := 12, minutes := 30 }

/-- The environment of the sample request. -/
def sampleEnv : RequestEnv := { orderTime := sampleTime, orderId := "1700000000000", userId := "u1" }

/-- The scenario request: cart subtotal 1000, promotion code `SAVE10`, payment by COD. -/
def sampleRequest : OrderRequest :=
  { cartItems := [sampleItem], address := sampleAddress, paymentMethod := "cod",
    paymentResult := none, promoCode := some "SAVE10" }

/-- The order the scenario request creates. -/
def sampleOrder : Order :=
  { orderId := "1700000000000", user := "u1", items := [sampleItem], address := sampleAddress,
    total := 950, subTotal := 1000, discount := 100, codCharge := 50,
    payment := { method := "cod", paymentId := none, status := "pending" },
    discountCode := some "SAVE10" }

/-- Default settings with `rules.maxOrderValue` set to zero. -/
def zeroMaxSettings : Settings :=
  { cod := { defaultCod with rules := { defaultRules with maxOrderValue := some 0 } } }

/-- Default settings accepting COD for order values between 100 and 10000 only. -/
def limitSettings : Settings :=
  { cod := { defaultCod with rules := { defaultRules with minOrderValue := 100 } } }

/-- Default settings with COD restricted to Monday to Friday, 09:00 to 18:00. -/
def officeHoursSettings : Settings :=
  { cod := { defaultCod with
      rules := { defaultRules with
        timeRestrictions := { enabled := true, startTime := "09:00", endTime := "18:00",
                              daysOfWeek := [1, 2, 3, 4, 5] } } } }

/-- The scenario of the specification: tiers `{0, 500, 30}` and `{500, absent, 60}`. -/
def scenarioTierSettings : Settings :=
  { cod := { defaultCod with
      pricing := { defaultPricing with
        type := "tiered",
        tiers := [{ minAmount := 0, maxAmount := some 500, charge := 30 },
                  { minAmount := 500, maxAmount := none, charge := 60 }] } } }

/-- An active promotion `FREE` with a usage limit of zero. -/
def zeroLimitPromo : Promotion :=
  { save10 with code := "FREE", usageLimit := some 0 }

/-- An active promotion `ONCE` whose single permitted use is already taken. -/
def onceOnlyPromo : Promotion :=
  { save10 with code := "ONCE", usageLimit := some 1, timesUsed := 1 }

/-- The sample store holding only the promotion `ONCE`. -/
def onceDb : Db := { sampleDb with promotions := [onceOnlyPromo] }

/-- The sample cart paid online with the promotion code `ONCE`. -/
def onceRequest : OrderRequest :=
  { sampleRequest with promoCode := some "ONCE", paymentMethod := "online" }

/-- An active ten percent promotion `OLD10` whose end date 1000 is in the past at time
2000. -/
def expiredPromo : Promotion := { save10 with code := "OLD10", endDate := some 1000 }

/-- The sample store holding only the promotion `OLD10`. -/
def expiredDb : Db := { sampleDb with promotions := [expiredPromo] }

/-- The sample cart paid online with the promotion code `OLD10`. -/
def expiredRequest : OrderRequest :=
  { sampleRequest with promoCode := some "OLD10", paymentMethod := "online" }

/-- An active promotion `FLAT500` of the fixed amount 500. -/
def flat500 : Promotion :=
  { save10 with code := "FLAT500", discountType := "fixed", discountValue := 500 }

/-- The sample store holding only the promotion `FLAT500`. -/
def flatDb : Db := { sampleDb with promotions := [flat500] }

/-- A cart of one unit at 100, paid online with the promotion code `FLAT500`. -/
def flatRequest : OrderRequest :=
  { sampleRequest with
    cartItems := [{ sampleItem with price := 100, quantity := 1 }],
    promoCode := some "FLAT500", paymentMethod := "online" }

/-- The sample store with COD disabled. -/
def codOffDb : Db :=
  { sampleDb with settings := some { cod := { defaultCod with enabled := false } } }

/-- A product with the variants red/M, blue/S and blue/M, ten units each. -/
def gridProduct : Product :=
  { id := "p1", images := [],
    variants := [{ color := "red", size := some "M", stock := 10 },
                 { color := "blue", size := some "S", stock := 10 },
                 { color := "blue", size := some "M", stock := 10 }] }

/-- The sample store holding the product `gridProduct` and no promotion. -/
def gridDb : Db := { sampleDb with promotions := [], products := [gridProduct] }

/-- A cart of one unit of the product in blue/M, paid online without promotion code. -/
def gridRequest : OrderRequest :=
  { sampleRequest with
    cartItems := [{ sampleItem with color := some "blue", size := some "M", quantity := 1 }],
    promoCode := none, paymentMethod := "online" }

/-- A stored order of the sample cart, pending, with the id `1001` and the key `o1`. -/
def pendingOrder : Order := { sampleOrder with orderId := "1001", _id := "o1" }

/-- The same order with a cancellation request on record. -/
def requestedOrder : Order :=
  { pendingOrder with
    cancellationRequested := true, cancellationRequestedAt := some 5,
    cancellationReason := some "changed my mind" }

/-- A carrier whose serviceability call fails with a network error. -/
def unreachableCarrier : Carrier :=
  { serviceability := fun _ => ServiceabilityReply.failure none "Network Error",
    createOrder := fun _ => CreateReply.failure none }

/-- A carrier that serves every pincode and refuses every order with a message. -/
def refusingCarrier : Carrier :=
  { serviceability := fun _ => ServiceabilityReply.couriers [{ courier_name := some "Express" }],
    createOrder := fun _ => CreateReply.failure (some "Invalid order data") }

/-- A carrier that reports no courier for any pincode and yet accepts every create-order
call. -/
def unserviceableCarrier : Carrier :=
  { serviceability := fun _ => ServiceabilityReply.couriers [],
    createOrder := fun _ => CreateReply.created "s1" "c1" }

/-- A product with the default replacement policy of seven days. -/
def policyProduct : Product := { id := "p1", images := [], variants := [] }

/-- A delivered order with a pending replacement request. -/
def replacementOrder : Order :=
  { sampleOrder with
    orderId := "2001", _id := "o2", status := "delivered",
    address := { sampleAddress with name := "Asha Rao" },
    replacementRequested := true, replacementRequestedAt := some 5,
    replacementReason := some "torn seam" }

/-- A carrier whose login and create-order calls succeed. -/
def workingReplacementCarrier : ReplacementCarrier :=
  { login := some "token", createOrder := fun _ => CreateReply.created "s9" "c9" }

/-- The time zone UTC. -/
def utcZone : TimeZone := { offsetAt := fun _ => 0, offsetOfLocal := fun _ => 0 }

/-- A time zone that is on UTC until 01:00 of day 10 and one hour ahead
from then on; the local times of the skipped hour are taken with the earlier offset. -/
def summerZone : TimeZone :=
  { offsetAt := fun t => if t < 10 * dayMs + 3600000 then 0 else 3600000,
    offsetOfLocal := fun t => if t < 10 * dayMs + 7200000 then 0 else 3600000 }

/-- A product whose replacement policy allows ten days. -/
def tenDayProduct : Product :=
  { id := "p1", images := [], variants := [], replacementPolicy := some { days := 10 } }

/-- A delivered order of user `u1` created at noon of day 5, with no expected delivery
date. -/
def noonOrder : Order :=
  { sampleOrder with
    orderId := "2001", _id := "o2", status := "delivered", createdAt := 5 * dayMs + 43200000 }

/-- An environment of replacement operations. -/
def sampleReplacementEnv : ReplacementEnv :=
  { fmt := fun _ => "", zone := utcZone, timeValue := fun _ => 0, products := [],
    carrier := workingReplacementCarrier, today := "2026-01-01", stamp := "1767225600000",
    now := 9 }

/-- A carrier that has a courier for every pincode and accepts every create-order call. -/
def workingCarrier : Carrier :=
  { serviceability := fun _ => ServiceabilityReply.couriers [{ courier_name := some "Express" }],
    createOrder := fun _ => CreateReply.created "s1" "c1" }

/-- A cart line whose image is a relative path. -/
def relativeImageItem : CartItem :=
  { sampleItem with image := some "/uploads/kurta.png", color := some "blue", quantity := 1 }

/-- A cart line without an image, for a product that is not in the catalogue. -/
def noImageItem : CartItem := { sampleItem with id := some "p9", image := none }

/-- An online order of the two lines. -/
def brokenImageRequest : OrderRequest :=
  { sampleRequest with
    cartItems := [relativeImageItem, noImageItem], promoCode := none,
    paymentMethod := "online" }

/-- An order in status `approved` for a replacement. -/
def approvedReplacementOrder : Order :=
  { replacementOrder with replacementStatus := "approved" }

/-- Two variants with different colours and different sizes whose keys are both
`blue-grey-M`. -/
def hyphenVariants : List VariantInput :=
  [{ color := some "blue-grey", size := SizeValue.text "M", stock := some 3 },
   { color := some "blue", size := SizeValue.text "grey-M", stock := some 5 }]

/-- A variant whose size is the text `NOSIZE` and a variant of the same colour without
size. -/
def noSizeVariants : List VariantInput :=
  [{ color := some "red", size := SizeValue.text "NOSIZE", stock := some 3 },
   { color := some "red", size := SizeValue.absent, stock := some 5 }]

/-- A product with one variant, red without size. -/
def plainProduct : Product :=
  { id := "p2", images := [], variants := [{ color := "red", size := none, stock := 5 }] }

/-- Two updates of the blue/M variant and one of red/M. -/
def gridUpdates : List StockUpdate :=
  [{ color := some "blue", size := SizeValue.text "M", stock := some 4 },
   { color := some "red", size := SizeValue.text "M", stock := some 0 },
   { color := some "blue", size := SizeValue.text "M", stock := some 7 }]

/-- The request `flatRequest` with the code typed in lower case between blanks. -/
def paddedFlatRequest : OrderRequest := { flatRequest with promoCode := some " flat500 " }

/-- The texts of 24 hexadecimal digits, the form of a storage key. -/
def hexObjectId (s : String) : Bool :=
  decide (s.length = 24) &&
    s.data.all (fun c =>
      c.isDigit || (decide ('a' ≤ c) && decide (c ≤ 'f')) || (decide ('A' ≤ c) && decide (c ≤ 'F')))

/-- The pending order with a storage key of 24 hexadecimal digits. -/
def keyedOrder : Order := { pendingOrder with _id := "64b7f0c2a1d3e4f5a6b7c8d9" }

/-- The pending order after the carrier took it under the carrier order id `987654`. -/
def carrierOrder : Order :=
  { pendingOrder with shipping := { shiprocketOrderId := some "987654", status := some "Processing" } }

/-- The pending order in another lifecycle status. -/
def statusOrder (status : String) : Order := { pendingOrder with status := status }

/-- The pending order with a shipping status. -/
def shippingStatusOrder (status : String) : Order :=
  { pendingOrder with shipping := { status := some status } }

/-- The pending order with an AWB code assigned. -/
def awbOrder : Order := { pendingOrder with shipping := { awbCode := some "AWB1" } }

/-! ## Shared lemmas -/

/-- On well-ordered bounds the reading `max(lo, min(hi, x))` of `clamp` agrees with the
other usual composition `min(hi, max(lo, x))`. -/
theorem clamp_eq_min_max (x lo hi : ℚ) (h : lo ≤ hi) : clamp x lo hi = min hi (max lo x) := by
  unfold clamp
  rcases le_total hi x with hx | hx
  · rw [min_eq_left hx, max_eq_right h, max_eq_right (le_trans h hx), min_eq_left hx]
  · rw [min_eq_right hx, min_eq_right (max_le h hx)]

theorem clampCharge_lower (lo hi x : ℚ) : lo ≤ clampCharge lo hi x :=
  le_max_left _ _

theorem clampCharge_upper (lo hi x : ℚ) (h : lo ≤ hi) : clampCharge lo hi x ≤ hi :=
  max_le h (min_le_left _ _)

theorem matchedTier_of_not_tiered (pricing : Pricing) (orderValue : ℚ)
    (h : pricing.type ≠ "tiered") : matchedTier pricing orderValue = none := by
  simp [matchedTier, h]

/-- The charge once the zone and courier branches are both passed over. -/
theorem calculateCodCharge_of_no_override (s : Settings) (orderValue : ℚ)
    (pincode state city : String) (courierCode : Option String)
    (hen : s.cod.enabled = true)
    (hz : matchedZone s.cod.pricing pincode state city = none)
    (hc : matchedCourier s.cod courierCode = none) :
    calculateCodCharge (some s) orderValue pincode state city courierCode =
      match matchedTier s.cod.pricing orderValue with
      | some tier => tier.charge
      | none =>
        if s.cod.pricing.type = "percentage" then
          clampCharge s.cod.pricing.minCharge s.cod.pricing.maxCharge
            (orderValue * s.cod.pricing.percentage / 100)
        else s.cod.pricing.fixedAmount := by
  simp [calculateCodCharge, hen, hz, hc]

/-! ## C1: bounds of the percentage charge -/

/-- C1, as stated, fails: with percentage pricing bounded by 30 and 200, an order of 1000
in a matching zone is charged 300, the same order with a matching courier is charged 300,
and with inverted bounds 200 and 30 the charge is 200; each exceeds `pricing.maxCharge`. -/
theorem calculateCodCharge_percentage_bounds_fail :
    (zoneSettings.cod.enabled = true ∧ zoneSettings.cod.pricing.type = "percentage" ∧
      calculateCodCharge (some zoneSettings) 1000 "110001" "Delhi" "Delhi" none = 300 ∧
      ¬ (300 : ℚ) ≤ zoneSettings.cod.pricing.maxCharge) ∧
    (courierSettings.cod.enabled = true ∧ courierSettings.cod.pricing.type = "percentage" ∧
      calculateCodCharge (some courierSettings) 1000 "110001" "Delhi" "Delhi" (some "EXP") = 300 ∧
      ¬ (300 : ℚ) ≤ courierSettings.cod.pricing.maxCharge) ∧
    (invertedSettings.cod.enabled = true ∧ invertedSettings.cod.pricing.type = "percentage" ∧
      calculateCodCharge (some invertedSettings) 1000 "110001" "Delhi" "Delhi" none = 200 ∧
      ¬ (200 : ℚ) ≤ invertedSettings.cod.pricing.maxCharge) := by
  refine ⟨⟨rfl, rfl, ?_, ?_⟩, ⟨rfl, rfl, ?_, ?_⟩, ⟨rfl, rfl, ?_, ?_⟩⟩
  · norm_num [calculateCodCharge, zoneSettings, defaultCod, percentagePricing, defaultPricing,
      matchedZone, zoneMatches, clampCharge]
  · norm_num [zoneSettings, defaultCod, percentagePricing, defaultPricing]
  · have hne : ("EXP" : String) ≠ "" := by decide
    norm_num [calculateCodCharge, courierSettings, defaultCod, percentagePricing, defaultPricing,
      matchedZone, matchedCourier, truthyStr, clampCharge, hne]
  · norm_num [courierSettings, defaultCod, percentagePricing, defaultPricing]
  · norm_num [calculateCodCharge, invertedSettings, defaultCod, percentagePricing,
      defaultPricing, matchedZone, matchedCourier, matchedTier, truthyStr, clampCharge]
  · norm_num [invertedSettings, defaultCod, percentagePricing, defaultPricing]

/-- C1, amended: with COD enabled, percentage pricing, no location zone selected and no
courier entry selected, the charge is at least `pricing.minCharge`, and it is at most
`pricing.maxCharge` whenever `pricing.minCharge ≤ pricing.maxCharge`. -/
theorem calculateCodCharge_percentage_bounds (s : Settings) (orderValue : ℚ)
    (pincode state city : String) (courierCode : Option String)
    (hen : s.cod.enabled = true) (hty : s.cod.pricing.type = "percentage")
    (hz : matchedZone s.cod.pricing pincode state city = none)
    (hc : matchedCourier s.cod courierCode = none) :
    s.cod.pricing.minCharge ≤
        calculateCodCharge (some s) orderValue pincode state city courierCode ∧
      (s.cod.pricing.minCharge ≤ s.cod.pricing.maxCharge →
        calculateCodCharge (some s) orderValue pincode state city courierCode ≤
          s.cod.pricing.maxCharge) := by
  have ht : matchedTier s.cod.pricing orderValue = none :=
    matchedTier_of_not_tiered _ _ (by rw [hty]; decide)
  rw [calculateCodCharge_of_no_override s orderValue pincode state city courierCode hen hz hc,
    ht]
  simp only [hty, if_true]
  exact ⟨clampCharge_lower _ _ _, fun h => clampCharge_upper _ _ _ h⟩

/-- C1 witness: plain percentage pricing, order value 1000, no courier code. -/
theorem calculateCodCharge_percentage_bounds_witness :
    percentageSettings.cod.pricing.minCharge ≤
        calculateCodCharge (some percentageSettings) 1000 "110001" "Delhi" "Delhi" none ∧
      (percentageSettings.cod.pricing.minCharge ≤ percentageSettings.cod.pricing.maxCharge →
        calculateCodCharge (some percentageSettings) 1000 "110001" "Delhi" "Delhi" none ≤
          percentageSettings.cod.pricing.maxCharge) :=
  calculateCodCharge_percentage_bounds percentageSettings 1000 "110001" "Delhi" "Delhi" none
    rfl rfl (by simp [matchedZone, percentageSettings, defaultCod, percentagePricing,
      defaultPricing])
    (by simp [matchedCourier, truthyStr])

/-! ## C2: the charge against its reference definition -/

theorem tierMatches_eq_tierInRangeZeroOpen (orderValue : ℚ) (t : Tier) :
    tierMatches orderValue t = tierInRangeZeroOpen orderValue t := by
  unfold tierMatches tierInRangeZeroOpen
  cases t.maxAmount <;> simp [Bool.decide_and, Bool.decide_or]

theorem zoneMatches_eq_decide (pincode state city : String) (z : Zone) :
    zoneMatches pincode state city z =
      decide (pincode ∈ z.pincodes ∨ state ∈ z.states ∨ city ∈ z.cities) := by
  simp [zoneMatches, Bool.decide_or, Bool.or_assoc]

/-- C2, as stated, fails: for an order of 5 the code takes the tier `[0, 0]` (a `maxAmount`
of zero is falsy) and charges 10, while under the reading of the specification the first
tier containing 5 is the second one, of charge 20. -/
theorem calculateCodCharge_ne_reference :
    calculateCodCharge (some zeroTierSettings) 5 "110001" "Delhi" "Delhi" none = 10 ∧
      calculateCodChargeRef tierInRange (some zeroTierSettings) 5 "110001" "Delhi" "Delhi" none
        = 20 := by
  constructor
  · norm_num [calculateCodCharge, zeroTierSettings, defaultCod, defaultPricing, matchedZone,
      matchedCourier, matchedTier, truthyStr, tierMatches]
  · norm_num [calculateCodChargeRef, zeroTierSettings, defaultCod, defaultPricing, tierInRange]

/-- C2, amended: for every settings value and every input, `calculateCodCharge` equals
the reference definition in which a tier matches when `minAmount ≤ orderValue` and
`maxAmount` is absent, zero, or at least `orderValue`. -/
theorem calculateCodCharge_eq_reference (settings : Option Settings) (orderValue : ℚ)
    (pincode state city : String) (courierCode : Option String) :
    calculateCodCharge settings orderValue pincode state city courierCode =
      calculateCodChargeRef tierInRangeZeroOpen settings orderValue pincode state city
        courierCode := by
  cases settings with
  | none => rfl
  | some s =>
    have hz : (fun z : Zone =>
        decide (pincode ∈ z.pincodes ∨ state ∈ z.states ∨ city ∈ z.cities)) =
          zoneMatches pincode state city := by
      funext z
      rw [zoneMatches_eq_decide]
    have ht : tierInRangeZeroOpen orderValue = tierMatches orderValue := by
      funext t
      rw [tierMatches_eq_tierInRangeZeroOpen]
    have hc : ∀ code : String,
        (fun c : Courier => decide (c.enabled = true ∧ c.code = code)) =
          (fun c : Courier => decide (some c.code = some code) && c.enabled) := by
      intro code
      funext c
      cases c.enabled <;> simp
    have e1 : ∀ f : Zone → ℚ,
        (if s.cod.pricing.locationBased.enabled = true then
            Option.map f
              (List.find? (zoneMatches pincode state city) s.cod.pricing.locationBased.zones)
          else none) = Option.map f (matchedZone s.cod.pricing pincode state city) := by
      intro f
      unfold matchedZone
      split <;> rfl
    have e2 : ∀ f : Courier → ℚ,
        (match courierCode with
          | none => none
          | some code =>
            if code ≠ "" ∧ s.cod.courierCharges.enabled = true then
              Option.map f
                (List.find? (fun c => decide (some c.code = some code) && c.enabled)
                  s.cod.courierCharges.couriers)
            else none) = Option.map f (matchedCourier s.cod courierCode) := by
      intro f
      unfold matchedCourier
      cases courierCode with
      | none => simp [truthyStr]
      | some code =>
        by_cases h1 : code = "" <;> by_cases h2 : s.cod.courierCharges.enabled = true <;>
          simp [truthyStr, h1, h2]
    have e3 : ∀ f : Tier → ℚ,
        (if s.cod.pricing.type = "tiered" then
            Option.map f (List.find? (tierMatches orderValue) s.cod.pricing.tiers)
          else none) = Option.map f (matchedTier s.cod.pricing orderValue) := by
      intro f
      unfold matchedTier
      split <;> rfl
    simp only [calculateCodCharge, calculateCodChargeRef, List.filter_head?, hz, ht, hc, clamp,
      clampCharge, e1, e2, e3]
    by_cases hen : s.cod.enabled = false
    · simp [hen]
    · simp only [hen, if_false]
      cases matchedZone s.cod.pricing pincode state city <;>
        cases matchedCourier s.cod courierCode <;>
          cases matchedTier s.cod.pricing orderValue <;> simp

/-! ## C3: the money fields of a created order -/

theorem foldl_subTotal (items : List CartItem) (acc : ℚ) :
    items.foldl (fun acc item => acc + item.quantity * item.price) acc =
      acc + (items.map (fun item => item.price * item.quantity)).sum := by
  induction items generalizing acc with
  | nil => simp
  | cons item rest ih =>
    simp only [List.foldl_cons, List.map_cons, List.sum_cons]
    rw [ih]
    ring

theorem cartSubTotal_eq_sum (items : List CartItem) :
    cartSubTotal items = (items.map (fun item => item.price * item.quantity)).sum := by
  simp [cartSubTotal, foldl_subTotal]

/-- The sample request evaluates to the sample order. -/
theorem createOrder_sample (fmt : ℚ → String)
    (stockUpdate : List Product → CartItem → List Product) :
    (createOrder fmt stockUpdate sampleDb sampleEnv sampleRequest).1 =
      OrderResponse.created sampleOrder := by
  have h1 : toUpperCase "SAVE10" = "SAVE10" := by decide
  have hq : queryCode "SAVE10" = "SAVE10" := by decide
  have h2 : ("SAVE10" : String) ≠ "" := by decide
  have h3 : needsImage (some "https://img/1.png") = false := by decide
  have h4 : cartSubTotal [sampleItem] = 1000 := by norm_num [cartSubTotal, sampleItem]
  have h5 : ("fixed" : String) ≠ "percentage" := by decide
  simp only [createOrder, sampleRequest, sampleDb, sampleEnv, List.length_singleton,
    one_ne_zero, if_false, h4]
  norm_num [orderPromotion, truthyStr, h1, h2, findPromotion, hq, save10, isCodAvailable, defaultCod,
    defaultRules, checkLocation, checkTime, checkProducts, sampleItem, sampleAddress,
    calculateCodCharge, matchedZone, matchedCourier, matchedTier, defaultPricing, sampleOrder,
    resolveImage, h3, h5]

/-- C3: whenever `POST /orders` answers 201, the order it stored satisfies
`total = subTotal - discount + codCharge`, its `subTotal` is the sum over the cart of
`price * quantity`, and its `codCharge` is 0 unless the payment method is `cod`. -/
theorem createOrder_total (fmt : ℚ → String)
    (stockUpdate : List Product → CartItem → List Product) (db : Db) (env : RequestEnv)
    (req : OrderRequest) (order : Order)
    (h : (createOrder fmt stockUpdate db env req).1 = OrderResponse.created order) :
    (createOrder fmt stockUpdate db env req).2.orders = db.orders ++ [order] ∧
      order.total = order.subTotal - order.discount + order.codCharge ∧
      order.subTotal = (req.cartItems.map (fun item => item.price * item.quantity)).sum ∧
      (req.paymentMethod ≠ "cod" → order.codCharge = 0) := by
  rw [← cartSubTotal_eq_sum]
  unfold createOrder at h ⊢
  by_cases h0 : req.cartItems.length = 0
  · simp [h0] at h
  · by_cases hcod : req.paymentMethod = "cod"
    · simp only [h0, hcod, if_true, if_false] at h ⊢
      split at h
      · simp at h
      · rename_i hav
        simp only [hav, if_false]
        simp only [OrderResponse.created.injEq] at h
        subst h
        simp
    · simp only [h0, hcod, if_false] at h ⊢
      simp only [OrderResponse.created.injEq] at h
      subst h
      simp

/-- C3 witness: the scenario request (subtotal 1000, `SAVE10`, COD at the fixed charge 50)
is answered with an order of total 950. -/
theorem createOrder_total_witness :
    (createOrder (fun _ => "") (fun ps _ => ps) sampleDb sampleEnv sampleRequest).2.orders =
        sampleDb.orders ++ [sampleOrder] ∧
      sampleOrder.total = sampleOrder.subTotal - sampleOrder.discount + sampleOrder.codCharge ∧
      sampleOrder.subTotal =
        (sampleRequest.cartItems.map (fun item => item.price * item.quantity)).sum ∧
      (sampleRequest.paymentMethod ≠ "cod" → sampleOrder.codCharge = 0) :=
  createOrder_total (fun _ => "") (fun ps _ => ps) sampleDb sampleEnv sampleRequest sampleOrder
    (createOrder_sample _ _)

/-! ## C4: order value limits of COD -/

/-- The verdict on the default rules once the order value checks are passed. -/
theorem checkLocation_default (items : List CartItem) (orderTime : JsDate)
    (rules : Rules) (hp : rules.excludedPincodes = []) (hs : rules.excludedStates = [])
    (ht : rules.timeRestrictions.enabled = false) (he : rules.excludedProducts = []) :
    checkLocation rules "110001" "Delhi" items orderTime =
      { available := true, reason := none } := by
  have hnone : (fun item : CartItem =>
      match item.id with
      | some _ => false
      | none => false) = fun _ => false := by
    funext item
    cases item.id <;> rfl
  have hfind : List.find? (fun _ : CartItem => false) items = none := by
    induction items with
    | nil => rfl
    | cons item rest ih => simp [List.find?, ih]
  simp [checkLocation, checkTime, checkProducts, hp, hs, ht, he, hnone, hfind]

/-- C4, as stated, fails: with `rules.maxOrderValue` set to 0 an order of value 5 exceeds
the maximum, yet COD is reported available, because a maximum of 0 is falsy. -/
theorem isCodAvailable_zero_max :
    zeroMaxSettings.cod.enabled = true ∧
      zeroMaxSettings.cod.rules.maxOrderValue = some 0 ∧ (5 : ℚ) > 0 ∧
      (isCodAvailable (fun _ => "") (some zeroMaxSettings) 5 "110001" "Delhi" "Delhi"
        [sampleItem] sampleTime).available = true := by
  refine ⟨rfl, rfl, by norm_num, ?_⟩
  have h := checkLocation_default [sampleItem] sampleTime zeroMaxSettings.cod.rules rfl rfl rfl rfl
  simp only [isCodAvailable]
  norm_num [zeroMaxSettings, defaultCod, defaultRules] at h ⊢
  rw [h]

/-- C4, amended: for every enabled COD configuration and every input, if
`orderValue < rules.minOrderValue`, or `rules.maxOrderValue` is set to a non-zero value
and `orderValue > rules.maxOrderValue`, then `isCodAvailable` returns `available = false`. -/
theorem isCodAvailable_order_value_limits (fmt : ℚ → String) (s : Settings) (orderValue : ℚ)
    (pincode state city : String) (items : List CartItem) (orderTime : JsDate)
    (hen : s.cod.enabled = true)
    (h : orderValue < s.cod.rules.minOrderValue ∨
      ∃ m, s.cod.rules.maxOrderValue = some m ∧ m ≠ 0 ∧ orderValue > m) :
    (isCodAvailable fmt (some s) orderValue pincode state city items orderTime).available
      = false := by
  by_cases hmin : orderValue < s.cod.rules.minOrderValue
  · simp [isCodAvailable, hen, hmin]
  · rcases h with h | ⟨m, hm, hm0, hgt⟩
    · exact absurd h hmin
    · simp [isCodAvailable, hen, hmin, hm, hm0, hgt]

/-- C4 witness: order values 50 and 20000 against the limits 100 and 10000. -/
theorem isCodAvailable_order_value_limits_witness :
    (isCodAvailable (fun _ => "") (some limitSettings) 50 "110001" "Delhi" "Delhi"
        [sampleItem] sampleTime).available = false ∧
      (isCodAvailable (fun _ => "") (some limitSettings) 20000 "110001" "Delhi" "Delhi"
        [sampleItem] sampleTime).available = false :=
  ⟨isCodAvailable_order_value_limits _ limitSettings 50 _ _ _ _ _ rfl
      (Or.inl (by norm_num [limitSettings, defaultCod, defaultRules])),
    isCodAvailable_order_value_limits _ limitSettings 20000 _ _ _ _ _ rfl
      (Or.inr ⟨10000, rfl, by norm_num, by norm_num⟩)⟩

/-! ## C5: the order of the availability checks -/

theorem verdict_available (r : Option String) : (verdict r).available = true ↔ r = none := by
  cases r <;> simp [verdict]

theorem firstFailure_eq_none (cs : List Check) :
    firstFailure cs = none ↔ ∀ c ∈ cs, c.passes = true := by
  induction cs with
  | nil => simp [firstFailure]
  | cons c rest ih =>
    by_cases hc : c.passes = true
    · simp [firstFailure, hc, ih]
    · simp [firstFailure, hc]

theorem checkProducts_eq (rules : Rules) (items : List CartItem) :
    checkProducts rules items =
      verdict (firstFailure
        [{ passes := items.all (fun item => !itemExcluded rules item),
           reason := "COD not available for product " ++
             (((items.filter (itemExcluded rules)).head?).map (fun item => item.name)).getD "" }]) := by
  have hp : (fun item : CartItem =>
      match item.id with
      | some i => rules.excludedProducts.contains i
      | none => false) = itemExcluded rules := by
    funext item
    unfold itemExcluded
    cases item.id <;> simp
  unfold checkProducts
  rw [hp, List.filter_head?]
  cases hf : List.find? (itemExcluded rules) items with
  | none =>
    have hall : (items.all fun item => !itemExcluded rules item) = true := by
      rw [List.find?_eq_none] at hf
      simpa using hf
    simp [firstFailure, verdict, hall]
  | some item =>
    have hall : (items.all fun item => !itemExcluded rules item) = false := by
      have h1 := List.find?_some hf
      have h2 := List.mem_of_find?_eq_some hf
      rw [Bool.eq_false_iff]
      intro hall
      rw [List.all_eq_true] at hall
      have := hall item h2
      simp [h1] at this
    simp [firstFailure, verdict, hall]

theorem checkTime_eq (rules : Rules) (items : List CartItem) (orderTime : JsDate) :
    checkTime rules items orderTime =
      if rules.timeRestrictions.enabled = true ∧
          ¬ (dayAllowed rules.timeRestrictions orderTime ∧
            clockAllowed rules.timeRestrictions orderTime) then
        { available := false,
          reason := some (if dayAllowed rules.timeRestrictions orderTime then
            "COD not available at this time" else "COD not available on this day") }
      else checkProducts rules items := by
  unfold checkTime
  have hday : (rules.timeRestrictions.daysOfWeek.length > 0 ∧
      rules.timeRestrictions.daysOfWeek.contains orderTime.day = false) ↔
        ¬ dayAllowed rules.timeRestrictions orderTime := by
    unfold dayAllowed
    cases hd : rules.timeRestrictions.daysOfWeek with
    | nil => simp
    | cons d ds => simp
  have hclock : (strLt orderTime.hhmm rules.timeRestrictions.startTime = true ∨
      strLt rules.timeRestrictions.endTime orderTime.hhmm = true) ↔
        ¬ clockAllowed rules.timeRestrictions orderTime := by
    unfold clockAllowed strLt
    simp only [decide_eq_true_eq, not_and_or, not_le]
  simp only [hday, hclock]
  by_cases hen : rules.timeRestrictions.enabled = true
  · by_cases hd : dayAllowed rules.timeRestrictions orderTime
    · by_cases hc : clockAllowed rules.timeRestrictions orderTime
      · simp [hen, hd, hc]
      · simp [hen, hd, hc]
    · simp [hen, hd]
  · simp [hen]

theorem checkLocation_eq (maxOk : Option ℚ → ℚ → Bool) (fmt : ℚ → String) (s : Settings)
    (orderValue : ℚ) (pincode state : String) (items : List CartItem) (orderTime : JsDate) :
    checkLocation s.cod.rules pincode state items orderTime =
      verdict (firstFailure
        ((codChecks maxOk fmt s orderValue pincode state items orderTime).drop 3)) := by
  simp only [codChecks, List.drop, firstFailure]
  unfold checkLocation
  rw [checkTime_eq, checkProducts_eq]
  by_cases hp : pincode ∈ s.cod.rules.excludedPincodes
  · simp [hp, verdict]
  · by_cases hs : state ∈ s.cod.rules.excludedStates
    · simp [hp, hs, verdict]
    · by_cases hen : s.cod.rules.timeRestrictions.enabled = true
      · by_cases hd : dayAllowed s.cod.rules.timeRestrictions orderTime
        · by_cases hc : clockAllowed s.cod.rules.timeRestrictions orderTime
          · simp [hp, hs, hen, hd, hc, firstFailure]
          · simp [hp, hs, hen, hd, hc, verdict]
        · simp [hp, hs, hen, hd, verdict]
      · simp [hp, hs, hen, firstFailure]

theorem isCodAvailable_eq_checks (fmt : ℚ → String) (settings : Option Settings)
    (orderValue : ℚ) (pincode state city : String) (items : List CartItem)
    (orderTime : JsDate) :
    isCodAvailable fmt settings orderValue pincode state city items orderTime =
      isCodAvailableByChecks maxOkZeroOpen fmt settings orderValue pincode state items
        orderTime := by
  cases settings with
  | none => rfl
  | some s =>
    have hloc := checkLocation_eq maxOkZeroOpen fmt s orderValue pincode state items orderTime
    simp only [isCodAvailable, isCodAvailableByChecks]
    by_cases hen : s.cod.enabled = true
    · by_cases hmin : orderValue < s.cod.rules.minOrderValue
      · have hmin3 : ¬ s.cod.rules.minOrderValue ≤ orderValue := not_le.mpr hmin
        simp [codChecks, firstFailure, hen, hmin, hmin3, verdict]
      · have hmin2 : s.cod.rules.minOrderValue ≤ orderValue := not_lt.mp hmin
        cases hmax : s.cod.rules.maxOrderValue with
        | none =>
          simp only [hen, hmin, if_false, hloc]
          simp [codChecks, firstFailure, hen, hmin2, hmax, maxOkZeroOpen]
        | some m =>
          by_cases hex : m ≠ 0 ∧ orderValue > m
          · have h3 : maxOkZeroOpen (some m) orderValue = false := by
              simp [maxOkZeroOpen, hex.1, hex.2]
            simp [codChecks, firstFailure, hen, hmin, hmin2, hmax, h3, hex, verdict]
          · have h3 : maxOkZeroOpen (some m) orderValue = true := by
              simp only [maxOkZeroOpen, decide_eq_true_eq]
              by_cases hm : m = 0
              · exact Or.inl hm
              · exact Or.inr (not_lt.mp (fun hgt => hex ⟨hm, hgt⟩))
            simp only [hen, hmin, hex, if_false, hloc]
            simp [codChecks, firstFailure, hen, hmin2, hmax, h3]
    · simp [codChecks, firstFailure, hen, verdict]

/-- C5, as stated, fails: with `rules.maxOrderValue` set to 0 and an order of value 5,
check (3) `orderValue <= maxOrderValue` is the first check that fails, yet the code
returns `available = true` with no reason. -/
theorem isCodAvailable_ne_literal_checks :
    isCodAvailable (fun _ => "") (some zeroMaxSettings) 5 "110001" "Delhi" "Delhi"
        [sampleItem] sampleTime = { available := true, reason := none } ∧
      (isCodAvailableByChecks maxOkLiteral (fun _ => "") (some zeroMaxSettings) 5 "110001"
        "Delhi" [sampleItem] sampleTime).available = false := by
  constructor
  · have h := checkLocation_default [sampleItem] sampleTime zeroMaxSettings.cod.rules rfl rfl
      rfl rfl
    simp only [isCodAvailable]
    norm_num [zeroMaxSettings, defaultCod, defaultRules] at h ⊢
    rw [h]
  · norm_num [isCodAvailableByChecks, codChecks, firstFailure, verdict, maxOkLiteral,
      zeroMaxSettings, defaultCod, defaultRules]

/-- C5, amended: `isCodAvailable` evaluates the checks (1) COD enabled, (2)
`orderValue >= minOrderValue`, (3) `orderValue <= maxOrderValue` (passed when the maximum
is absent or zero), (4) pincode not excluded, (5) state not excluded, (6) time
restriction, (7) no cart item's product id excluded, in this order; the reason it returns
is that of the first check that fails; it returns `available = true` exactly when every
check passes; and when COD is disabled the result is
`{available: false, reason: "COD is disabled"}` for every other input. -/
theorem isCodAvailable_checks_in_order (fmt : ℚ → String) (settings : Option Settings)
    (orderValue : ℚ) (pincode state city : String) (items : List CartItem)
    (orderTime : JsDate) :
    isCodAvailable fmt settings orderValue pincode state city items orderTime =
        (match settings with
         | none => verdict (some "COD is disabled")
         | some s =>
           verdict (firstFailure
             (codChecks maxOkZeroOpen fmt s orderValue pincode state items orderTime))) ∧
      ((isCodAvailable fmt settings orderValue pincode state city items orderTime).available
          = true ↔
        ∃ s, settings = some s ∧
          ∀ c ∈ codChecks maxOkZeroOpen fmt s orderValue pincode state items orderTime,
            c.passes = true) ∧
      ((∀ s, settings = some s → s.cod.enabled = false) →
        isCodAvailable fmt settings orderValue pincode state city items orderTime =
          { available := false, reason := some "COD is disabled" }) := by
  refine ⟨isCodAvailable_eq_checks _ _ _ _ _ _ _ _, ?_, ?_⟩
  · rw [isCodAvailable_eq_checks]
    cases settings with
    | none => simp [isCodAvailableByChecks, verdict]
    | some s => simp [isCodAvailableByChecks, verdict_available, firstFailure_eq_none]
  · intro h
    cases settings with
    | none => rfl
    | some s => simp [isCodAvailable, h s rfl]

/-! ## C6: tiered pricing -/

theorem tierMatches_iff (orderValue : ℚ) (t : Tier) :
    tierMatches orderValue t = true ↔
      t.minAmount ≤ orderValue ∧ ∀ m, t.maxAmount = some m → m = 0 ∨ orderValue ≤ m := by
  unfold tierMatches
  cases t.maxAmount <;> simp

theorem matchedCourier_of_no_code (cod : Cod) (courierCode : Option String)
    (h : courierCode = none ∨ courierCode = some "") : matchedCourier cod courierCode = none := by
  rcases h with h | h <;> simp [matchedCourier, truthyStr, h]

/-- C6, as stated, fails: with tiers `{0, 0, 10}` and `{0, absent, 20}` and an order of 5,
the first tier in list order with `minAmount <= 5` and (`maxAmount` absent or
`5 <= maxAmount`) is the second one, of charge 20, yet the code returns 10. -/
theorem calculateCodCharge_tiered_zero_max :
    zeroTierSettings.cod.enabled = true ∧ zeroTierSettings.cod.pricing.type = "tiered" ∧
      matchedZone zeroTierSettings.cod.pricing "110001" "Delhi" "Delhi" = none ∧
      ((zeroTierSettings.cod.pricing.tiers.find? (tierInRange 5)).map (fun t => t.charge)
        = some 20) ∧
      calculateCodCharge (some zeroTierSettings) 5 "110001" "Delhi" "Delhi" none = 10 := by
  refine ⟨rfl, rfl, ?_, ?_, ?_⟩
  · simp [matchedZone, zeroTierSettings, defaultCod, defaultPricing]
  · norm_num [zeroTierSettings, defaultCod, defaultPricing, tierInRange]
  · norm_num [calculateCodCharge, zeroTierSettings, defaultCod, defaultPricing, matchedZone,
      matchedCourier, matchedTier, truthyStr, tierMatches]

/-- C6, amended: with `pricing.type = 'tiered'`, COD enabled, no location zone selected
and no courier code, `calculateCodCharge` returns the charge of the first tier in list
order with `minAmount <= orderValue` and (`maxAmount` absent, or zero, or
`orderValue <= maxAmount`). -/
theorem calculateCodCharge_tiered (s : Settings) (orderValue : ℚ)
    (pincode state city : String) (courierCode : Option String)
    (front : List Tier) (t : Tier) (back : List Tier)
    (hen : s.cod.enabled = true) (hty : s.cod.pricing.type = "tiered")
    (hz : matchedZone s.cod.pricing pincode state city = none)
    (hc : courierCode = none ∨ courierCode = some "")
    (htiers : s.cod.pricing.tiers = front ++ t :: back)
    (hfront : ∀ u ∈ front,
      ¬ (u.minAmount ≤ orderValue ∧ ∀ m, u.maxAmount = some m → m = 0 ∨ orderValue ≤ m))
    (ht : t.minAmount ≤ orderValue ∧ ∀ m, t.maxAmount = some m → m = 0 ∨ orderValue ≤ m) :
    calculateCodCharge (some s) orderValue pincode state city courierCode = t.charge := by
  have hfind : matchedTier s.cod.pricing orderValue = some t := by
    have h1 : List.find? (tierMatches orderValue) front = none := by
      rw [List.find?_eq_none]
      intro u hu
      rw [tierMatches_iff]
      exact hfront u hu
    have h2 : tierMatches orderValue t = true := (tierMatches_iff _ _).mpr ht
    simp [matchedTier, hty, htiers, List.find?_append, h1, List.find?_cons, h2]
  rw [calculateCodCharge_of_no_override s orderValue pincode state city courierCode hen hz
    (matchedCourier_of_no_code _ _ hc), hfind]

/-- C6 witness: for tiers `{0, 500, 30}` and `{500, absent, 60}` and an order value of 800
the charge is 60. -/
theorem calculateCodCharge_tiered_witness :
    calculateCodCharge (some scenarioTierSettings) 800 "110001" "Delhi" "Delhi" none = 60 :=
  calculateCodCharge_tiered scenarioTierSettings 800 "110001" "Delhi" "Delhi" none
    [{ minAmount := 0, maxAmount := some 500, charge := 30 }]
    { minAmount := 500, maxAmount := none, charge := 60 } []
    rfl rfl (by simp [matchedZone, scenarioTierSettings, defaultCod, defaultPricing])
    (Or.inl rfl) rfl
    (by
      intro u hu
      simp only [List.mem_singleton] at hu
      subst hu
      norm_num)
    ⟨by norm_num, fun m hm => by cases hm⟩

/-! ## C7: the time restriction -/

/-- When the checks before the time restriction pass, the result is that of the time
restriction block. -/
theorem isCodAvailable_eq_checkTime (fmt : ℚ → String) (s : Settings) (orderValue : ℚ)
    (pincode state city : String) (items : List CartItem) (orderTime : JsDate)
    (hen : s.cod.enabled = true) (hmin : ¬ orderValue < s.cod.rules.minOrderValue)
    (hmax : ∀ m, s.cod.rules.maxOrderValue = some m → ¬ (m ≠ 0 ∧ orderValue > m))
    (hpin : pincode ∉ s.cod.rules.excludedPincodes)
    (hstate : state ∉ s.cod.rules.excludedStates) :
    isCodAvailable fmt (some s) orderValue pincode state city items orderTime =
      checkTime s.cod.rules items orderTime := by
  have hloc : checkLocation s.cod.rules pincode state items orderTime =
      checkTime s.cod.rules items orderTime := by
    simp [checkLocation, hpin, hstate]
  simp only [isCodAvailable, hen, hmin, if_false, Bool.true_eq_false]
  cases hm : s.cod.rules.maxOrderValue with
  | none => simp [hloc]
  | some m => simp only [hmax m hm, if_false, hloc]

theorem checkProducts_ne_reject (rules : Rules) (items : List CartItem) :
    checkProducts rules items ≠
        { available := false, reason := some "COD not available on this day" } ∧
      checkProducts rules items ≠
        { available := false, reason := some "COD not available at this time" } := by
  unfold checkProducts
  constructor <;>
  · split
    · intro h
      simp only [CodAvailability.mk.injEq, Option.some.injEq, true_and] at h
      have hd := congrArg String.data h
      simp at hd
    · simp

/-- C7: when the time restriction is enabled and all earlier checks pass, the function
goes on to the product check if (`daysOfWeek` is empty or contains the weekday of
`orderTime`) and `startTime <= HH:MM <= endTime` as strings, both bounds inclusive, and
it rejects with the day or the time reason exactly when that condition fails; when the
time restriction is disabled the result does not depend on `orderTime`. -/
theorem isCodAvailable_time_check (fmt : ℚ → String) (orderValue : ℚ)
    (pincode state city : String) (items : List CartItem) :
    (∀ (s : Settings) (orderTime : JsDate),
      s.cod.enabled = true → ¬ orderValue < s.cod.rules.minOrderValue →
      (∀ m, s.cod.rules.maxOrderValue = some m → ¬ (m ≠ 0 ∧ orderValue > m)) →
      pincode ∉ s.cod.rules.excludedPincodes → state ∉ s.cod.rules.excludedStates →
      s.cod.rules.timeRestrictions.enabled = true →
      (((s.cod.rules.timeRestrictions.daysOfWeek = [] ∨
            orderTime.day ∈ s.cod.rules.timeRestrictions.daysOfWeek) ∧
          s.cod.rules.timeRestrictions.startTime.data ≤ orderTime.hhmm.data ∧
          orderTime.hhmm.data ≤ s.cod.rules.timeRestrictions.endTime.data) →
        isCodAvailable fmt (some s) orderValue pincode state city items orderTime =
          checkProducts s.cod.rules items) ∧
      ((isCodAvailable fmt (some s) orderValue pincode state city items orderTime =
            { available := false, reason := some "COD not available on this day" } ∨
          isCodAvailable fmt (some s) orderValue pincode state city items orderTime =
            { available := false, reason := some "COD not available at this time" }) ↔
        ¬ ((s.cod.rules.timeRestrictions.daysOfWeek = [] ∨
            orderTime.day ∈ s.cod.rules.timeRestrictions.daysOfWeek) ∧
          s.cod.rules.timeRestrictions.startTime.data ≤ orderTime.hhmm.data ∧
          orderTime.hhmm.data ≤ s.cod.rules.timeRestrictions.endTime.data))) ∧
    (∀ (settings : Option Settings) (t1 t2 : JsDate),
      (∀ s, settings = some s → s.cod.rules.timeRestrictions.enabled = false) →
      isCodAvailable fmt settings orderValue pincode state city items t1 =
        isCodAvailable fmt settings orderValue pincode state city items t2) := by
  constructor
  · intro s orderTime hen hmin hmax hpin hstate htr
    rw [isCodAvailable_eq_checkTime fmt s orderValue pincode state city items orderTime hen hmin
      hmax hpin hstate, checkTime_eq]
    have hne := checkProducts_ne_reject s.cod.rules items
    by_cases hd : dayAllowed s.cod.rules.timeRestrictions orderTime
    · by_cases hc : clockAllowed s.cod.rules.timeRestrictions orderTime
      · have hacc : (s.cod.rules.timeRestrictions.daysOfWeek = [] ∨
            orderTime.day ∈ s.cod.rules.timeRestrictions.daysOfWeek) ∧
            s.cod.rules.timeRestrictions.startTime.data ≤ orderTime.hhmm.data ∧
            orderTime.hhmm.data ≤ s.cod.rules.timeRestrictions.endTime.data := ⟨hd, hc⟩
        simp only [htr, hd, hc, and_self, not_true_eq_false, and_false, if_false]
        exact ⟨fun _ => trivial, by simp [hacc, hne.1, hne.2]⟩
      · have hacc : ¬ ((s.cod.rules.timeRestrictions.daysOfWeek = [] ∨
            orderTime.day ∈ s.cod.rules.timeRestrictions.daysOfWeek) ∧
            s.cod.rules.timeRestrictions.startTime.data ≤ orderTime.hhmm.data ∧
            orderTime.hhmm.data ≤ s.cod.rules.timeRestrictions.endTime.data) :=
          fun h => hc h.2
        simp only [htr, hd, hc, and_false, not_false_eq_true, and_self, if_true]
        exact ⟨fun h => absurd h hacc, by simp [hacc]⟩
    · have hacc : ¬ ((s.cod.rules.timeRestrictions.daysOfWeek = [] ∨
          orderTime.day ∈ s.cod.rules.timeRestrictions.daysOfWeek) ∧
          s.cod.rules.timeRestrictions.startTime.data ≤ orderTime.hhmm.data ∧
          orderTime.hhmm.data ≤ s.cod.rules.timeRestrictions.endTime.data) :=
        fun h => hd h.1
      simp only [htr, hd, false_and, not_false_eq_true, and_self, if_true, if_false]
      exact ⟨fun h => absurd h hacc, by simp [hacc]⟩
  · intro settings t1 t2 h
    cases settings with
    | none => rfl
    | some s =>
      have hoff := h s rfl
      simp [isCodAvailable, checkLocation, checkTime, hoff]

/-- C7 witness: on a Monday at 12:30, within Monday to Friday 09:00 to 18:00, the time
check is accepted and the result is that of the product check. -/
theorem isCodAvailable_time_check_witness :
    isCodAvailable (fun _ => "") (some officeHoursSettings) 1000 "110001" "Delhi" "Delhi"
        [sampleItem] sampleTime =
      checkProducts officeHoursSettings.cod.rules [sampleItem] :=
  ((isCodAvailable_time_check (fun _ => "") 1000 "110001" "Delhi" "Delhi" [sampleItem]).1
      officeHoursSettings sampleTime rfl
      (by norm_num [officeHoursSettings, defaultCod, defaultRules])
      (by
        intro m hm
        simp only [officeHoursSettings, defaultCod, defaultRules, Option.some.injEq] at hm
        subst hm
        norm_num)
      (by simp [officeHoursSettings, defaultCod, defaultRules])
      (by simp [officeHoursSettings, defaultCod, defaultRules])
      rfl).1
    ⟨Or.inr (by decide), by decide, by decide⟩

/-! ## C8: the discount of a promotion -/

/-- The discount stored with a created order is the one the promotion block computed
for the cart subtotal. -/
theorem createOrder_discount (fmt : ℚ → String)
    (stockUpdate : List Product → CartItem → List Product) (db : Db) (env : RequestEnv)
    (req : OrderRequest) (order : Order)
    (h : (createOrder fmt stockUpdate db env req).1 = OrderResponse.created order) :
    order.discount =
        (orderPromotion db.promotions req.promoCode (cartSubTotal req.cartItems)).discount ∧
      order.subTotal = cartSubTotal req.cartItems := by
  unfold createOrder at h
  by_cases h0 : req.cartItems.length = 0
  · simp [h0] at h
  · by_cases hcod : req.paymentMethod = "cod"
    · simp only [h0, hcod, if_true, if_false] at h
      split at h
      · simp at h
      · simp only [OrderResponse.created.injEq] at h
        subst h
        simp
    · simp only [h0, hcod, if_false] at h
      simp only [OrderResponse.created.injEq] at h
      subst h
      simp

/-- C8: for a promotion of type `percentage` or `fixed` found under a code, the discount is
`subtotal * discountValue / 100` for `percentage` and `discountValue` for `fixed`, both
when `POST /promotions/apply` accepts it for `cartTotal = subtotal` and when order
creation applies it to a cart of that subtotal; so the two steps compute the same
discount. -/
theorem promotion_discount_formula (fmt : ℚ → String) (promotions : List Promotion)
    (now : Int) (code : String) (subtotal : ℚ) (p : Promotion)
    (hcode : code ≠ "")
    (hfind : findPromotion promotions (toUpperCase code) = some p)
    (htype : p.discountType = "percentage" ∨ p.discountType = "fixed") :
    ((promotionsApply fmt promotions now (some code) subtotal).status = 200 →
        (promotionsApply fmt promotions now (some code) subtotal).discount =
          some (promotionDiscount p subtotal)) ∧
      (p.isActive = true →
        (orderPromotion promotions (some code) subtotal).discount =
          promotionDiscount p subtotal) ∧
      (∀ (stockUpdate : List Product → CartItem → List Product) (db : Db) (env : RequestEnv)
          (req : OrderRequest) (order : Order),
        db.promotions = promotions → req.promoCode = some code →
        cartSubTotal req.cartItems = subtotal → p.isActive = true →
        (createOrder fmt stockUpdate db env req).1 = OrderResponse.created order →
        (promotionsApply fmt promotions now (some code) subtotal).status = 200 →
        (promotionsApply fmt promotions now (some code) subtotal).discount =
          some order.discount) := by
  unfold promotionDiscount
  have happly : (promotionsApply fmt promotions now (some code) subtotal).status = 200 →
      (promotionsApply fmt promotions now (some code) subtotal).discount =
        some (if p.discountType = "percentage" then subtotal * p.discountValue / 100
              else p.discountValue) := by
    intro hst
    simp only [promotionsApply, hcode, if_false, hfind] at hst ⊢
    split_ifs at hst ⊢ <;> simp_all [applyError]
  have horder : p.isActive = true →
      (orderPromotion promotions (some code) subtotal).discount =
        (if p.discountType = "percentage" then subtotal * p.discountValue / 100
         else p.discountValue) := by
    intro hact
    simp [orderPromotion, truthyStr, hcode, hfind, hact]
  refine ⟨happly, horder, ?_⟩
  intro stockUpdate db env req order hdb hreq hsub hact hcreated hst
  have hd := (createOrder_discount fmt stockUpdate db env req order hcreated).1
  rw [hdb, hreq, hsub, horder hact] at hd
  rw [happly hst, hd]

/-- C8 witness: for a subtotal of 1000 and the ten percent promotion `SAVE10` both steps
give the discount 100. -/
theorem promotion_discount_formula_witness :
    (promotionsApply (fun _ => "") [save10] 0 (some "SAVE10") 1000).discount = some 100 ∧
      (orderPromotion [save10] (some "SAVE10") 1000).discount = 100 := by
  have hup : toUpperCase "SAVE10" = "SAVE10" := by decide
  have hq : queryCode "SAVE10" = "SAVE10" := by decide
  have hne : ("SAVE10" : String) ≠ "" := by decide
  have hfind : findPromotion [save10] (toUpperCase "SAVE10") = some save10 := by
    simp [findPromotion, hq, hup, save10]
  have h := promotion_discount_formula (fun _ => "") [save10] 0 "SAVE10" 1000 save10 hne hfind
    (Or.inl rfl)
  have hst : (promotionsApply (fun _ => "") [save10] 0 (some "SAVE10") 1000).status = 200 := by
    simp [promotionsApply, hne, hfind]
    simp [save10]
  have h1 := h.1 hst
  have h2 := h.2.1 rfl
  norm_num [save10, promotionDiscount] at h1 h2
  exact ⟨h1, h2⟩

/-! ## C9: the validation order of `POST /promotions/apply` -/

theorem decide_le_eq_not_lt {α : Type} [LinearOrder α] (a b : α) :
    decide (a ≤ b) = !decide (b < a) := by
  by_cases h : a ≤ b
  · simp [h, not_lt.mpr h]
  · simp [h, not_le.mp h]

theorem promotionsApply_eq_checks (fmt : ℚ → String) (promotions : List Promotion) (now : Int)
    (code : Option String) (cartTotal : ℚ) :
    promotionsApply fmt promotions now code cartTotal =
      promotionsApplyByChecks usageOkZeroOpen minPurchaseOkZeroOpen fmt promotions now code
        cartTotal := by
  cases code with
  | none => simp [promotionsApply, promotionsApplyByChecks, lookupPromotion, truthyStr]
  | some c =>
    by_cases hc : c = ""
    · simp [promotionsApply, promotionsApplyByChecks, lookupPromotion, truthyStr, hc]
    · cases hf : findPromotion promotions (toUpperCase c) with
      | none => simp [promotionsApply, promotionsApplyByChecks, lookupPromotion, truthyStr, hc, hf]
      | some p =>
        have h2 : (match p.startDate with
            | none => true
            | some d => decide (now ≥ d)) =
              !(match p.startDate with
                | some d => decide (d > now)
                | none => false) := by
          cases p.startDate <;> simp [decide_le_eq_not_lt]
        have h3 : (match p.endDate with
            | none => true
            | some d => decide (now ≤ d)) =
              !(match p.endDate with
                | some d => decide (d < now)
                | none => false) := by
          cases p.endDate <;> simp [decide_le_eq_not_lt]
        have h4 : usageOkZeroOpen p =
            !(match p.usageLimit with
              | some l => decide (l ≠ 0) && decide (p.timesUsed ≥ l)
              | none => false) := by
          unfold usageOkZeroOpen
          cases p.usageLimit with
          | none => simp
          | some l => by_cases hl : l = 0 <;> simp [hl, decide_le_eq_not_lt]
        have h5 : minPurchaseOkZeroOpen p cartTotal =
            !decide (p.minPurchase ≠ 0 ∧ cartTotal < p.minPurchase) := by
          unfold minPurchaseOkZeroOpen
          by_cases hm : p.minPurchase = 0 <;> simp [hm, decide_le_eq_not_lt]
        simp only [promotionsApply, promotionsApplyByChecks, lookupPromotion, hc, hf, if_false,
          promotionChecks, h2, h3, h4, h5, firstFailure]
        generalize (match p.startDate with
          | some d => decide (d > now)
          | none => false) = b2
        generalize (match p.endDate with
          | some d => decide (d < now)
          | none => false) = b3
        generalize (match p.usageLimit with
          | some l => decide (l ≠ 0) && decide (p.timesUsed ≥ l)
          | none => false) = b4
        by_cases h5b : p.minPurchase ≠ 0 ∧ cartTotal < p.minPurchase <;>
          cases p.isActive <;> cases b2 <;> cases b3 <;> cases b4 <;> simp [h5b]

theorem minimum_message_ne (x lit : String)
    (h : lit.data.head? ≠ some 'A') :
    "A minimum purchase of ₹" ++ x ++ " is required." ≠ lit := by
  intro heq
  apply h
  rw [← heq]
  simp [String.data_append]

/-- C9, as stated, fails: a promotion with `usageLimit` 0 and `timesUsed` 0 fails the
check `timesUsed < usageLimit`, yet the code answers 200 with a discount (a limit of 0 is
falsy); and a cart total of -1 fails `cartTotal >= minPurchase` for `minPurchase` 0, yet
the code answers 200 (a minimum of 0 is falsy). -/
theorem promotionsApply_ne_literal_checks :
    ((promotionsApply (fun _ => "") [zeroLimitPromo] 0 (some "FREE") 1000).status = 200 ∧
      (promotionsApplyByChecks usageOkLiteral minPurchaseOkLiteral (fun _ => "")
        [zeroLimitPromo] 0 (some "FREE") 1000).message =
          "This promotion has reached its usage limit.") ∧
    ((promotionsApply (fun _ => "") [save10] 0 (some "SAVE10") (-1)).status = 200 ∧
      (promotionsApplyByChecks usageOkLiteral minPurchaseOkLiteral (fun _ => "")
        [save10] 0 (some "SAVE10") (-1)).status = 400) := by
  have hup1 : toUpperCase "FREE" = "FREE" := by decide
  have hq1 : queryCode "FREE" = "FREE" := by decide
  have hne1 : ("FREE" : String) ≠ "" := by decide
  have hup2 : toUpperCase "SAVE10" = "SAVE10" := by decide
  have hq2 : queryCode "SAVE10" = "SAVE10" := by decide
  have hne2 : ("SAVE10" : String) ≠ "" := by decide
  refine ⟨⟨?_, ?_⟩, ⟨?_, ?_⟩⟩
  · norm_num [promotionsApply, hup1, hne1, findPromotion, hq1, zeroLimitPromo, save10]
  · norm_num [promotionsApplyByChecks, lookupPromotion, hup1, hne1, findPromotion, hq1, zeroLimitPromo,
      save10, promotionChecks, firstFailure, usageOkLiteral, applyError]
  · norm_num [promotionsApply, hup2, hne2, findPromotion, hq2, save10]
  · norm_num [promotionsApplyByChecks, lookupPromotion, hup2, hne2, findPromotion, hq2, save10,
      promotionChecks, firstFailure, usageOkLiteral, minPurchaseOkLiteral, applyError]

/-- C9, amended: `POST /promotions/apply` validates in the order: code exists (a code is
supplied and, trimmed and in upper case, it is the code of a promotion; the first such
promotion is taken), isActive, `now >= startDate` (absent = unbounded), `now <= endDate`
(absent = unbounded), `timesUsed < usageLimit` (skipped when the limit is absent or zero),
`cartTotal >= minPurchase` (skipped when `minPurchase` is zero); it reports the message of
the first failing check, the messages are pairwise distinct, and it returns a discount
exactly when all checks pass.  The padded lower-case code `" save10 "` finds `SAVE10` and is
answered with the discount 100 on a cart of 1000. -/
theorem promotionsApply_validation_order (fmt : ℚ → String) (promotions : List Promotion)
    (now : Int) (code : Option String) (cartTotal : ℚ) :
    promotionsApply fmt promotions now code cartTotal =
        promotionsApplyByChecks usageOkZeroOpen minPurchaseOkZeroOpen fmt promotions now code
          cartTotal ∧
      lookupPromotion promotions code =
        (match code with
         | none => none
         | some c =>
           if c = "" then none
           else promotions.find?
             (fun p => decide (p.code = toUpperCase (jsTrim (toUpperCase c))))) ∧
      ((promotionsApply fmt promotions now code cartTotal).discount.isSome = true ↔
        ∃ p, lookupPromotion promotions code = some p ∧
          ∀ k ∈ promotionChecks usageOkZeroOpen minPurchaseOkZeroOpen fmt p now cartTotal,
            k.passes = true) ∧
      (∀ p : Promotion,
        ("Promotion code is required." :: "Invalid promotion code." ::
          (promotionChecks usageOkZeroOpen minPurchaseOkZeroOpen fmt p now cartTotal).map
            (fun k => k.reason)).Nodup) ∧
      promotionsApply fmt [save10] now (some " save10 ") 1000 =
        { status := 200, message := "Promotion applied successfully!", discount := some 100,
          code := some "SAVE10" } := by
  refine ⟨promotionsApply_eq_checks _ _ _ _ _, ?_, ?_, ?_, ?_⟩
  · cases code with
    | none => rfl
    | some c => by_cases hc : c = "" <;> simp [lookupPromotion, findPromotion, queryCode, hc]
  rotate_left 2
  · have hne : (" save10 " : String) ≠ "" := by decide
    have hq : queryCode (toUpperCase " save10 ") = "SAVE10" := by decide
    norm_num [promotionsApply, hne, findPromotion, hq, save10]
  · rw [promotionsApply_eq_checks]
    unfold promotionsApplyByChecks
    cases hl : lookupPromotion promotions code with
    | none =>
      by_cases ht : truthyStr code = true <;> simp [ht, applyError]
    | some p =>
      cases hff : firstFailure
          (promotionChecks usageOkZeroOpen minPurchaseOkZeroOpen fmt p now cartTotal) with
      | none =>
        have := (firstFailure_eq_none _).mp hff
        simp only [hff]
        simpa using this
      | some message =>
        have hno : ¬ ∀ k ∈ promotionChecks usageOkZeroOpen minPurchaseOkZeroOpen fmt p now
            cartTotal, k.passes = true := by
          intro hall
          rw [(firstFailure_eq_none _).mpr hall] at hff
          cases hff
        simp only [hff]
        simpa [applyError] using hno
  · intro p
    have hm := minimum_message_ne (fmt p.minPurchase)
    have e1 := hm "Promotion code is required." (by decide)
    have e2 := hm "Invalid promotion code." (by decide)
    have e3 := hm "This promotion is not active." (by decide)
    have e4 := hm "This promotion has not started yet." (by decide)
    have e5 := hm "This promotion has expired." (by decide)
    have e6 := hm "This promotion has reached its usage limit." (by decide)
    simp only [promotionChecks, List.map_cons, List.map_nil, List.nodup_cons, List.mem_cons,
      List.mem_singleton, List.not_mem_nil, List.nodup_nil, not_or, or_false, and_true,
      not_false_eq_true]
    refine ⟨⟨by decide, by decide, by decide, by decide, by decide, e1.symm⟩,
      ⟨by decide, by decide, by decide, by decide, e2.symm⟩,
      ⟨by decide, by decide, by decide, e3.symm⟩, ⟨by decide, by decide, e4.symm⟩,
      ⟨by decide, e5.symm⟩, e6.symm⟩

/-! ## C10: the usage limit at order creation -/

/-- C10, evaluated on the code: for the promotion `ONCE` with `usageLimit = 1` and
`timesUsed = 1`, `POST /promotions/apply` reports the usage limit, yet an order created
with the code gets the discount and `timesUsed` becomes 2. -/
theorem createOrder_past_usage_limit :
    onceOnlyPromo.usageLimit = some 1 ∧ onceOnlyPromo.timesUsed = 1 ∧
      (promotionsApply (fun _ => "") onceDb.promotions 0 (some "ONCE") 1000).message =
        "This promotion has reached its usage limit." ∧
      ((createOrder (fun _ => "") (fun ps _ => ps) onceDb sampleEnv onceRequest).2.promotions.map
        (fun p => p.timesUsed)) = [2] ∧
      (∃ order,
        (createOrder (fun _ => "") (fun ps _ => ps) onceDb sampleEnv onceRequest).1 =
          OrderResponse.created order ∧
        order.discountCode = some "ONCE" ∧ order.discount = 100) := by
  have hup : toUpperCase "ONCE" = "ONCE" := by decide
  have hq : queryCode "ONCE" = "ONCE" := by decide
  have hne : ("ONCE" : String) ≠ "" := by decide
  have hpay : ("online" : String) ≠ "cod" := by decide
  have h4 : cartSubTotal [sampleItem] = 1000 := by norm_num [cartSubTotal, sampleItem]
  refine ⟨rfl, rfl, ?_, ?_, ?_⟩
  · norm_num [promotionsApply, hup, hne, findPromotion, hq, onceDb, sampleDb, onceOnlyPromo, save10,
      applyError]
  · simp only [createOrder, onceRequest, sampleRequest, onceDb, sampleDb, List.length_singleton,
      one_ne_zero, if_false, h4, hpay]
    norm_num [orderPromotion, truthyStr, hup, hne, findPromotion, hq, onceOnlyPromo, save10,
      saveIncrement]
  · simp only [createOrder, onceRequest, sampleRequest, onceDb, sampleDb, List.length_singleton,
      one_ne_zero, if_false, h4, hpay]
    refine ⟨_, rfl, ?_, ?_⟩
    · norm_num [orderPromotion, truthyStr, hup, hne, findPromotion, hq, onceOnlyPromo, save10]
    · norm_num [orderPromotion, truthyStr, hup, hne, findPromotion, hq, onceOnlyPromo, save10]

/-! ## C11: order creation against the promotion evaluator -/

/-- C11, evaluated on the code: at time 2000 the evaluator rejects the promotion `OLD10`
(end date 1000) with "This promotion has expired.", yet an order created with the code
gets the discount 100, records the code and increments `timesUsed` from 0 to 1. -/
theorem createOrder_applies_rejected_promotion :
    (promotionsApply (fun _ => "") expiredDb.promotions 2000 (some "OLD10") 1000).status = 400 ∧
      (promotionsApply (fun _ => "") expiredDb.promotions 2000 (some "OLD10") 1000).message =
        "This promotion has expired." ∧
      (expiredDb.promotions.map (fun p => p.timesUsed)) = [0] ∧
      ((createOrder (fun _ => "") (fun ps _ => ps) expiredDb sampleEnv
        expiredRequest).2.promotions.map (fun p => p.timesUsed)) = [1] ∧
      (∃ order,
        (createOrder (fun _ => "") (fun ps _ => ps) expiredDb sampleEnv expiredRequest).1 =
          OrderResponse.created order ∧
        order.discountCode = some "OLD10" ∧ order.discount = 100) := by
  have hup : toUpperCase "OLD10" = "OLD10" := by decide
  have hq : queryCode "OLD10" = "OLD10" := by decide
  have hne : ("OLD10" : String) ≠ "" := by decide
  have hpay : ("online" : String) ≠ "cod" := by decide
  have h4 : cartSubTotal [sampleItem] = 1000 := by norm_num [cartSubTotal, sampleItem]
  refine ⟨?_, ?_, ?_, ?_, ?_⟩
  · norm_num [promotionsApply, hup, hne, findPromotion, hq, expiredDb, sampleDb, expiredPromo, save10,
      applyError]
  · norm_num [promotionsApply, hup, hne, findPromotion, hq, expiredDb, sampleDb, expiredPromo, save10,
      applyError]
  · simp [expiredDb, expiredPromo, save10]
  · simp only [createOrder, expiredRequest, sampleRequest, expiredDb, sampleDb,
      List.length_singleton, one_ne_zero, if_false, h4, hpay]
    norm_num [orderPromotion, truthyStr, hup, hne, findPromotion, hq, expiredPromo, save10,
      saveIncrement]
  · simp only [createOrder, expiredRequest, sampleRequest, expiredDb, sampleDb,
      List.length_singleton, one_ne_zero, if_false, h4, hpay]
    refine ⟨_, rfl, ?_, ?_⟩
    · norm_num [orderPromotion, truthyStr, hup, hne, findPromotion, hq, expiredPromo, save10]
    · norm_num [orderPromotion, truthyStr, hup, hne, findPromotion, hq, expiredPromo, save10]

/-! ## C12: the sign of the total -/

theorem cartSubTotal_nonneg (items : List CartItem)
    (h : ∀ item ∈ items, 0 ≤ item.price ∧ 0 ≤ item.quantity) : 0 ≤ cartSubTotal items := by
  rw [cartSubTotal_eq_sum]
  apply List.sum_nonneg
  intro x hx
  rcases List.mem_map.mp hx with ⟨item, hitem, rfl⟩
  exact mul_nonneg (h item hitem).1 (h item hitem).2

/-- The total stored with a created order. -/
theorem createOrder_total_eq (fmt : ℚ → String)
    (stockUpdate : List Product → CartItem → List Product) (db : Db) (env : RequestEnv)
    (req : OrderRequest) (order : Order)
    (h : (createOrder fmt stockUpdate db env req).1 = OrderResponse.created order) :
    order.total = order.subTotal - order.discount + order.codCharge := by
  unfold createOrder at h
  by_cases h0 : req.cartItems.length = 0
  · simp [h0] at h
  · by_cases hcod : req.paymentMethod = "cod"
    · simp only [h0, hcod, if_true, if_false] at h
      split at h
      · simp at h
      · simp only [OrderResponse.created.injEq] at h
        subst h
        simp
    · simp only [h0, hcod, if_false] at h
      simp only [OrderResponse.created.injEq] at h
      subst h
      simp

/-- The discount of the promotion block, in terms of the promotion the code names. -/
theorem orderPromotion_discount (promotions : List Promotion) (promoCode : Option String)
    (subTotal : ℚ) :
    (orderPromotion promotions promoCode subTotal).discount =
      match lookupPromotion promotions promoCode with
      | some p => if p.isActive = true then promotionDiscount p subTotal else 0
      | none => 0 := by
  cases promoCode with
  | none => simp [orderPromotion, lookupPromotion, truthyStr]
  | some c =>
    by_cases hc : c = ""
    · simp [orderPromotion, lookupPromotion, truthyStr, hc]
    · simp only [orderPromotion, lookupPromotion, truthyStr, hc, promotionDiscount]
      cases hf : findPromotion promotions (toUpperCase c) with
      | none => simp [hf]
      | some p => by_cases ha : p.isActive = true <;> simp [hf, ha, hc]

/-- The COD charge of an order that is not paid on delivery is 0. -/
theorem createOrder_codCharge_online (fmt : ℚ → String)
    (stockUpdate : List Product → CartItem → List Product) (db : Db) (env : RequestEnv)
    (req : OrderRequest) (order : Order)
    (h : (createOrder fmt stockUpdate db env req).1 = OrderResponse.created order)
    (hpay : req.paymentMethod ≠ "cod") : order.codCharge = 0 := by
  unfold createOrder at h
  by_cases h0 : req.cartItems.length = 0
  · simp [h0] at h
  · simp only [h0, hpay, if_false] at h
    simp only [OrderResponse.created.injEq] at h
    subst h
    rfl

/-- C12, as stated, fails: a cart of one unit at 100 paid online with the fixed promotion
`FLAT500` is stored with discount 500 and total -400, also when the code is sent as
`" flat500 "`. -/
theorem createOrder_negative_total :
    (∀ item ∈ flatRequest.cartItems, 0 ≤ item.price ∧ 0 ≤ item.quantity) ∧
      (∃ order,
        (createOrder (fun _ => "") (fun ps _ => ps) flatDb sampleEnv flatRequest).1 =
          OrderResponse.created order ∧
        order.subTotal = 100 ∧ order.discount = 500 ∧ order.codCharge = 0 ∧
        order.total = -400 ∧ order.total < 0) ∧
      (∃ order,
        (createOrder (fun _ => "") (fun ps _ => ps) flatDb sampleEnv paddedFlatRequest).1 =
          OrderResponse.created order ∧
        order.subTotal = 100 ∧ order.discount = 500 ∧ order.codCharge = 0 ∧
        order.total = -400) := by
  have hup : toUpperCase "FLAT500" = "FLAT500" := by decide
  have hq : queryCode "FLAT500" = "FLAT500" := by decide
  have hq2 : queryCode (toUpperCase " flat500 ") = "FLAT500" := by decide
  have hne : ("FLAT500" : String) ≠ "" := by decide
  have hne2 : (" flat500 " : String) ≠ "" := by decide
  have hpay : ("online" : String) ≠ "cod" := by decide
  have hty : ("fixed" : String) ≠ "percentage" := by decide
  have h4 : cartSubTotal [{ sampleItem with price := 100, quantity := 1 }] = 100 := by
    norm_num [cartSubTotal]
  refine ⟨?_, ?_, ?_⟩
  · intro item hitem
    simp only [flatRequest, List.mem_singleton] at hitem
    subst hitem
    norm_num
  · simp only [createOrder, flatRequest, sampleRequest, flatDb, sampleDb, List.length_singleton,
      one_ne_zero, if_false, h4, hpay]
    refine ⟨_, rfl, rfl, ?_, rfl, ?_, ?_⟩ <;>
      norm_num [orderPromotion, truthyStr, hup, hne, hty, findPromotion, hq, flat500, save10]
  · simp only [createOrder, paddedFlatRequest, flatRequest, sampleRequest, flatDb, sampleDb,
      List.length_singleton, one_ne_zero, if_false, h4, hpay]
    refine ⟨_, rfl, rfl, ?_, rfl, ?_⟩ <;>
      norm_num [orderPromotion, truthyStr, hne2, hty, findPromotion, hq2, flat500, save10]

/-- C12, amended: the total is stored as `subTotal - discount + codCharge`, unclamped.  For
every created order with non-negative item prices and quantities the stored subtotal is
not negative, and the stored total is not negative whenever the stored discount is at most
the stored subtotal and the COD charge is not negative.  The COD charge is 0 when the
payment method is not `cod`; the discount is 0 when the code (trimmed, in upper case) names
no promotion or an inactive one, and it is the `discountValue` of the promotion when that
promotion is active and not of type `percentage`. -/
theorem createOrder_total_nonneg (fmt : ℚ → String)
    (stockUpdate : List Product → CartItem → List Product) (db : Db) (env : RequestEnv)
    (req : OrderRequest) (order : Order)
    (h : (createOrder fmt stockUpdate db env req).1 = OrderResponse.created order)
    (hitems : ∀ item ∈ req.cartItems, 0 ≤ item.price ∧ 0 ≤ item.quantity) :
    order.total = order.subTotal - order.discount + order.codCharge ∧
    0 ≤ order.subTotal ∧
    (order.discount ≤ order.subTotal → 0 ≤ order.codCharge → 0 ≤ order.total) ∧
    (req.paymentMethod ≠ "cod" → order.codCharge = 0) ∧
    ((∀ c p, req.promoCode = some c → c ≠ "" →
        db.promotions.find?
          (fun q => decide (q.code = toUpperCase (jsTrim (toUpperCase c)))) = some p →
        p.isActive = false) →
      order.discount = 0) ∧
    (∀ c p, req.promoCode = some c → c ≠ "" →
      db.promotions.find?
        (fun q => decide (q.code = toUpperCase (jsTrim (toUpperCase c)))) = some p →
      p.isActive = true → p.discountType ≠ "percentage" →
      order.discount = p.discountValue) := by
  have htot := createOrder_total_eq fmt stockUpdate db env req order h
  have hd := createOrder_discount fmt stockUpdate db env req order h
  have hsub : 0 ≤ order.subTotal := by
    rw [hd.2]
    exact cartSubTotal_nonneg _ hitems
  refine ⟨htot, hsub, ?_, createOrder_codCharge_online fmt stockUpdate db env req order h, ?_, ?_⟩
  · intro hle hcod
    rw [htot]
    linarith
  · intro hnone
    rw [hd.1]
    cases hcode : req.promoCode with
    | none => simp [orderPromotion, truthyStr]
    | some c =>
      by_cases hc : c = ""
      · simp [orderPromotion, truthyStr, hc]
      · cases hf : findPromotion db.promotions (toUpperCase c) with
        | none => simp [orderPromotion, truthyStr, hc, hf]
        | some p =>
          have hinactive : p.isActive = false :=
            hnone c p hcode hc (by simpa [findPromotion, queryCode] using hf)
          simp [orderPromotion, truthyStr, hc, hf, hinactive]
  · intro c p hcode hc hfind hactive htype
    have hf : findPromotion db.promotions (toUpperCase c) = some p := by
      simpa [findPromotion, queryCode] using hfind
    rw [hd.1]
    simp [orderPromotion, truthyStr, hcode, hc, hf, hactive, htype]

/-- C12 witness: the scenario order (subtotal 1000, discount 100, COD charge 50) has a
discount below its subtotal and the total 950, which is not negative. -/
theorem createOrder_total_nonneg_witness :
    sampleOrder.total = 950 ∧ 0 ≤ sampleOrder.subTotal ∧ 0 ≤ sampleOrder.total :=
  have hw := createOrder_total_nonneg (fun _ => "") (fun ps _ => ps) sampleDb sampleEnv
    sampleRequest sampleOrder (createOrder_sample _ _)
    (by
      intro item hitem
      simp only [sampleRequest, List.mem_singleton] at hitem
      subst hitem
      norm_num [sampleItem])
  ⟨rfl, hw.2.1, hw.2.2.1 (by norm_num [sampleOrder]) (by norm_num [sampleOrder])⟩

/-! ## C13: rejection of an order when COD is unavailable -/

/-- The outcome of `POST /orders` when COD is chosen and unavailable: status 400 with the
reason, and a store that differs from the one before only in the promotions, which are
those the promotion block left behind. -/
theorem createOrder_cod_rejected (fmt : ℚ → String)
    (stockUpdate : List Product → CartItem → List Product) (db : Db) (env : RequestEnv)
    (req : OrderRequest) (hitems : req.cartItems.length ≠ 0) (hcod : req.paymentMethod = "cod")
    (hun : (isCodAvailable fmt db.settings (cartSubTotal req.cartItems) req.address.postalCode
      req.address.state req.address.city req.cartItems env.orderTime).available = false) :
    createOrder fmt stockUpdate db env req =
      (OrderResponse.failed 400
          ((isCodAvailable fmt db.settings (cartSubTotal req.cartItems) req.address.postalCode
            req.address.state req.address.city req.cartItems env.orderTime).reason.getD ""),
        { db with
          promotions :=
            (orderPromotion db.promotions req.promoCode (cartSubTotal req.cartItems)).promotions }) := by
  simp only [createOrder, hitems, hcod, hun, if_true, if_false]

/-- C13, evaluated on the code: with COD disabled, the scenario request (COD, promotion code
`SAVE10`) is answered 400 "COD is disabled", no order is stored and no product changes,
yet `timesUsed` of `SAVE10` goes from 0 to 1. -/
theorem createOrder_cod_rejected_consumes_promotion
    (stockUpdate : List Product → CartItem → List Product) :
    (createOrder (fun _ => "") stockUpdate codOffDb sampleEnv sampleRequest).1 =
        OrderResponse.failed 400 "COD is disabled" ∧
      (createOrder (fun _ => "") stockUpdate codOffDb sampleEnv sampleRequest).2.orders =
        codOffDb.orders ∧
      (createOrder (fun _ => "") stockUpdate codOffDb sampleEnv sampleRequest).2.products =
        codOffDb.products ∧
      codOffDb.promotions.map (fun p => p.timesUsed) = [0] ∧
      (createOrder (fun _ => "") stockUpdate codOffDb sampleEnv
        sampleRequest).2.promotions.map (fun p => p.timesUsed) = [1] := by
  have hup : toUpperCase "SAVE10" = "SAVE10" := by decide
  have hq : queryCode "SAVE10" = "SAVE10" := by decide
  have hne : ("SAVE10" : String) ≠ "" := by decide
  have hun : (isCodAvailable (fun _ => "") codOffDb.settings (cartSubTotal sampleRequest.cartItems)
      sampleRequest.address.postalCode sampleRequest.address.state sampleRequest.address.city
      sampleRequest.cartItems sampleEnv.orderTime) =
        { available := false, reason := some "COD is disabled" } := by
    simp [isCodAvailable, codOffDb, sampleDb]
  rw [createOrder_cod_rejected _ _ _ _ _ (by simp [sampleRequest]) rfl (by rw [hun]), hun]
  refine ⟨rfl, rfl, rfl, ?_, ?_⟩
  · simp [codOffDb, sampleDb, save10]
  · norm_num [orderPromotion, truthyStr, sampleRequest, hup, hne, findPromotion, hq, codOffDb, sampleDb,
      save10, saveIncrement]

/-! ## C14: the stock decrement -/

/-- C14, evaluated on the code: for a product with the variants red/M, blue/S and blue/M
(ten units each) and an order of one blue/M, the filter matches, the positional operator
stands for the first variant that is blue (blue/S) or the first that is M (red/M), and that
variant loses the unit; the stock of blue/M stays 10 under either rule. -/
theorem createOrder_decrements_other_variant (rule : PositionalRule) :
    (∃ order,
      (createOrder (fun _ => "") (findOneAndUpdateStock rule) gridDb sampleEnv gridRequest).1 =
        OrderResponse.created order) ∧
    (createOrder (fun _ => "") (findOneAndUpdateStock rule) gridDb sampleEnv
        gridRequest).2.products.map
      (fun p => p.variants.map (fun v => (v.color, v.size, v.stock))) =
      [match rule with
       | PositionalRule.colorCondition =>
         [("red", some "M", 10), ("blue", some "S", 9), ("blue", some "M", 10)]
       | PositionalRule.sizeCondition =>
         [("red", some "M", 9), ("blue", some "S", 10), ("blue", some "M", 10)]] := by
  have hpay : ("online" : String) ≠ "cod" := by decide
  have hp1 : ("p1" : String) ≠ "" := by decide
  have hrb : ("red" : String) ≠ "blue" := by decide
  have hsm : ("S" : String) ≠ "M" := by decide
  constructor
  · simp only [createOrder, gridRequest, sampleRequest, gridDb, sampleDb, List.length_singleton,
      one_ne_zero, if_false, hpay]
    exact ⟨_, rfl⟩
  · cases rule <;>
      norm_num [createOrder, gridRequest, sampleRequest, gridDb, sampleDb, hpay, decrementStock,
        truthyStr, sampleItem, hp1, findOneAndUpdateStock, updateFirst, stockFilter, gridProduct,
        positionalMatch, hrb, hsm]

/-! ## C15: the money sent to the carrier -/

theorem foldl_shiprocketTotal (items : List ShiprocketItem) (acc : ℚ) :
    items.foldl (fun sum item => sum + item.selling_price * item.units) acc =
      acc + (items.map (fun item => item.selling_price * item.units)).sum := by
  induction items generalizing acc with
  | nil => simp
  | cons item rest ih =>
    simp only [List.foldl_cons, List.map_cons, List.sum_cons]
    rw [ih]
    ring

/-- C15: for every order, address and item list there is one payload that
`createShiprocketOrder` posts to the carrier, whatever the carrier is: its answer is the
carrier's reply to that payload (the two identifiers, or the error message).  The total of
that payload is the sum over its `order_items` of `selling_price * units`, added up from 0
in the order of the list, plus `order.codCharge` when the payment method is `cod` and plus 0
otherwise; every entry of
`order_items` has the price of its line item as `selling_price` and its quantity (1 when the
quantity is 0) as `units`. -/
theorem createShiprocketOrder_posts_total (today : String) (order : Order) (address : Address)
    (cartItems : List CartItem) :
    ∃ payload : ShiprocketPayload,
      (∀ carrier : Carrier,
        createShiprocketOrder carrier today order address cartItems =
          match carrier.createOrder payload with
          | CreateReply.created shipment_id order_id => Except.ok (shipment_id, order_id)
          | CreateReply.failure dataMessage =>
            Except.error
              (if truthyStr dataMessage then dataMessage.getD ""
               else "Failed to create Shiprocket order")) ∧
      payload.total =
        payload.order_items.foldl (fun sum item => sum + item.selling_price * item.units) 0 +
          (if order.payment.method = "cod" then order.codCharge else 0) ∧
      payload.order_items.map (fun item => (item.selling_price, item.units)) =
        cartItems.map
          (fun item => (item.price, if item.quantity = 0 then 1 else item.quantity)) := by
  refine ⟨shiprocketPayload today order address cartItems, fun carrier => rfl, ?_, ?_⟩
  · by_cases hc : order.codCharge = 0 <;>
      simp [shiprocketPayload, shiprocketTotal, hc]
  · simp only [shiprocketPayload, shiprocketItem, List.map_map]
    apply List.map_congr_left
    intro item _
    by_cases hq : item.quantity = 0 <;> simp [shiprocketItem, hq]

/-- C15 witness: for the scenario order (two units at 500, paid on delivery with a COD
charge of 50) the posted total is 1050. -/
theorem createShiprocketOrder_posts_total_witness :
    ∃ payload : ShiprocketPayload,
      payload.total = 1050 ∧
      payload.order_items.map (fun item => (item.selling_price, item.units)) = [(500, 2)] ∧
      ∀ carrier : Carrier,
        createShiprocketOrder carrier "2026-01-01" sampleOrder sampleAddress [sampleItem] =
          match carrier.createOrder payload with
          | CreateReply.created shipment_id order_id => Except.ok (shipment_id, order_id)
          | CreateReply.failure dataMessage =>
            Except.error
              (if truthyStr dataMessage then dataMessage.getD ""
               else "Failed to create Shiprocket order") := by
  obtain ⟨payload, hpost, htotal, hitems⟩ :=
    createShiprocketOrder_posts_total "2026-01-01" sampleOrder sampleAddress [sampleItem]
  have hitems2 : payload.order_items.map (fun item => (item.selling_price, item.units)) =
      [(500, 2)] := by
    rw [hitems]
    norm_num [sampleItem]
  have hsum : payload.order_items.map (fun item => item.selling_price * item.units) =
      (payload.order_items.map (fun item => (item.selling_price, item.units))).map
        (fun x => x.1 * x.2) := by
    simp [List.map_map, Function.comp_def]
  refine ⟨payload, ?_, hitems2, hpost⟩
  rw [htotal, foldl_shiprocketTotal, hsum, hitems2]
  norm_num [sampleOrder]

/-! ## Lemmas on `updateFirst` and the order queries -/

theorem find?_updateFirst {α : Type} (p : α → Bool) (f : α → α) (l : List α)
    (hp : ∀ x, p (f x) = p x) : (updateFirst p f l).find? p = (l.find? p).map f := by
  induction l with
  | nil => rfl
  | cons x xs ih =>
    by_cases hx : p x = true
    · simp [updateFirst, hx, List.find?, hp]
    · simp [updateFirst, hx, List.find?, ih]

theorem any_updateFirst {α : Type} (p q : α → Bool) (f : α → α) (l : List α)
    (hq : ∀ x, q (f x) = q x) : (updateFirst p f l).any q = l.any q := by
  induction l with
  | nil => rfl
  | cons x xs ih =>
    by_cases hx : p x = true
    · simp [updateFirst, hx, hq]
    · simp [updateFirst, hx, ih]

theorem updateFirst_idem {α : Type} (p : α → Bool) (f : α → α) (l : List α)
    (hp : ∀ x, p (f x) = p x) (hf : ∀ x, f (f x) = f x) :
    updateFirst p f (updateFirst p f l) = updateFirst p f l := by
  induction l with
  | nil => rfl
  | cons x xs ih =>
    by_cases hx : p x = true
    · simp [updateFirst, hx, hp, hf]
    · simp [updateFirst, hx, ih]

theorem updateFirst_of_find?_none {α : Type} (p : α → Bool) (f : α → α) (l : List α)
    (h : l.find? p = none) : updateFirst p f l = l := by
  induction l with
  | nil => rfl
  | cons x xs ih =>
    by_cases hx : p x = true
    · simp [List.find?, hx] at h
    · simp only [List.find?, hx] at h
      simp [updateFirst, hx, ih h]

/-- An update that keeps `orderId` and `_id` does not change which query finds an order. -/
theorem orderKey_updateFirst (orders : List Order) (orderId : String) (p : Order → Bool)
    (f : Order → Order) (hid : ∀ o, (f o).orderId = o.orderId ∧ (f o)._id = o._id) :
    orderKey (updateFirst p f orders) orderId = orderKey orders orderId := by
  unfold orderKey
  rw [any_updateFirst p _ f orders (by intro o; simp [(hid o).1])]

theorem orderKey_preserved (orders : List Order) (orderId : String) (f : Order → Order)
    (hid : ∀ o, (f o).orderId = o.orderId ∧ (f o)._id = o._id) (o : Order) :
    orderKey orders orderId (f o) = orderKey orders orderId o := by
  unfold orderKey
  split <;> simp [(hid o).1, (hid o).2]

/-- After a save that keeps the identifiers, the query finds the saved document. -/
theorem findOrder_updateFirst (orders : List Order) (orderId : String) (f : Order → Order)
    (hid : ∀ o, (f o).orderId = o.orderId ∧ (f o)._id = o._id) :
    findOrder (updateFirst (orderKey orders orderId) f orders) orderId =
      (findOrder orders orderId).map f := by
  unfold findOrder
  rw [orderKey_updateFirst orders orderId _ f hid]
  exact find?_updateFirst _ f orders (orderKey_preserved orders orderId f hid)

theorem carrierKey_updateFirst (orders : List Order) (order_id : String) (p : Order → Bool)
    (f : Order → Order)
    (hid : ∀ o, (f o).shipping.shiprocketOrderId = o.shipping.shiprocketOrderId ∧
      (f o)._id = o._id) :
    carrierKey (updateFirst p f orders) order_id = carrierKey orders order_id := by
  unfold carrierKey
  rw [any_updateFirst p _ f orders (by intro o; simp [(hid o).1])]

theorem carrierKey_preserved (orders : List Order) (order_id : String) (f : Order → Order)
    (hid : ∀ o, (f o).shipping.shiprocketOrderId = o.shipping.shiprocketOrderId ∧
      (f o)._id = o._id) (o : Order) :
    carrierKey orders order_id (f o) = carrierKey orders order_id o := by
  unfold carrierKey
  split <;> simp [(hid o).1, (hid o).2]

theorem webhookUpdate_ids (stripUndefined : Bool) (payload : WebhookPayload) (o : Order) :
    (webhookUpdate stripUndefined payload o).shipping.shiprocketOrderId =
        o.shipping.shiprocketOrderId ∧
      (webhookUpdate stripUndefined payload o)._id = o._id :=
  ⟨rfl, rfl⟩

theorem setField_idem {α : Type} (stripUndefined : Bool) (old new : Option α) :
    setField stripUndefined (setField stripUndefined old new) new =
      setField stripUndefined old new := by
  cases new <;> cases stripUndefined <;> simp [setField]

theorem webhookUpdate_idem (stripUndefined : Bool) (payload : WebhookPayload) (o : Order) :
    webhookUpdate stripUndefined payload (webhookUpdate stripUndefined payload o) =
      webhookUpdate stripUndefined payload o := by
  simp only [webhookUpdate, setField_idem]
  by_cases h1 : truthyStr payload.expected_delivery_date = true <;>
    by_cases h2 : truthyStr payload.pickup_scheduled_date = true <;> simp [h1, h2]

theorem updateFirst_split {α : Type} (p : α → Bool) (f : α → α) (l : List α) (x : α)
    (h : l.find? p = some x) :
    ∃ front back, l = front ++ x :: back ∧ (∀ y ∈ front, p y = false) ∧
      updateFirst p f l = front ++ f x :: back := by
  induction l with
  | nil => simp at h
  | cons y ys ih =>
    by_cases hy : p y = true
    · simp only [List.find?, hy, Option.some.injEq] at h
      subst h
      exact ⟨[], ys, rfl, by simp, by simp [updateFirst, hy]⟩
    · simp only [List.find?, hy] at h
      rcases ih h with ⟨front, back, hl, hfront, hupd⟩
      refine ⟨y :: front, back, by simp [hl], ?_, by simp [updateFirst, hy, hupd]⟩
      intro z hz
      rcases List.mem_cons.mp hz with rfl | hz
      · simpa using hy
      · exact hfront z hz

/-! ## C16: the outcomes of the carrier webhook -/

/-- C16, as stated, fails: no order has the carrier order id or the storage key `987654`,
and the webhook answers 500, not 404 (the text is not a storage key, so the lookup by key
throws); the same for `test_order_id`. -/
theorem shiprocketWebhook_unknown_id :
    (∀ o ∈ [keyedOrder], o.shipping.shiprocketOrderId ≠ some "987654" ∧ o._id ≠ "987654") ∧
    shiprocketWebhook hexObjectId true [keyedOrder]
        { order_id := some "987654", awb_code := some "AWB1" } =
      ({ status := 500, message := "Internal server error" }, [keyedOrder]) ∧
    shiprocketWebhook hexObjectId true [keyedOrder]
        { order_id := some "test_order_id", awb_code := some "TEST123456789" } =
      ({ status := 500, message := "Internal server error" }, [keyedOrder]) := by
  have h1 : hexObjectId "987654" = false := by decide
  have h2 : hexObjectId "test_order_id" = false := by decide
  refine ⟨by simp [keyedOrder, pendingOrder, sampleOrder], ?_, ?_⟩
  · simp [shiprocketWebhook, truthyStr, h1, keyedOrder, pendingOrder, sampleOrder]
  · simp [shiprocketWebhook, truthyStr, h2, keyedOrder, pendingOrder, sampleOrder]

/-- C16, amended: the webhook answers 400 and changes no order when `order_id` or `awb_code`
is missing or empty.  When no order has `order_id` as its carrier order id, it answers 500
and changes no order if `order_id` is not a text the driver casts to a storage key, and 404
(changing no order) if it is such a text and no order has it as storage key.  Otherwise (an
order has the carrier order id, or the text is cast and an order has it as storage key) it
answers 200 and rewrites only the located order, on which `shipping.awbCode` is the
payload's AWB code, `shipping.courier` and `shipping.courierId` are the payload's values
when the payload carries them, and `status` and `shipping.status` are both `shipped`. -/
theorem shiprocketWebhook_outcomes (isObjectId : String → Bool) (stripUndefined : Bool)
    (orders : List Order) (payload : WebhookPayload) :
    ((truthyStr payload.order_id = false ∨ truthyStr payload.awb_code = false) →
      shiprocketWebhook isObjectId stripUndefined orders payload =
        ({ status := 400, message := "Missing required fields" }, orders)) ∧
    (∀ id awb, payload.order_id = some id → id ≠ "" → payload.awb_code = some awb → awb ≠ "" →
      (((∀ o ∈ orders, o.shipping.shiprocketOrderId ≠ some id) ∧ isObjectId id = false) →
        shiprocketWebhook isObjectId stripUndefined orders payload =
          ({ status := 500, message := "Internal server error" }, orders)) ∧
      (((∀ o ∈ orders, o.shipping.shiprocketOrderId ≠ some id ∧ o._id ≠ id) ∧
          isObjectId id = true) →
        shiprocketWebhook isObjectId stripUndefined orders payload =
          ({ status := 404, message := "Order not found" }, orders)) ∧
      (((∃ o ∈ orders, o.shipping.shiprocketOrderId = some id) ∨
          (isObjectId id = true ∧ ∃ o ∈ orders, o._id = id)) →
        ∃ order front back,
          orders.find? (carrierKey orders id) = some order ∧
          orders = front ++ order :: back ∧
          (∀ o ∈ front, carrierKey orders id o = false) ∧
          (shiprocketWebhook isObjectId stripUndefined orders payload).1.status = 200 ∧
          (shiprocketWebhook isObjectId stripUndefined orders payload).2 =
            front ++ webhookUpdate stripUndefined payload order :: back ∧
          (webhookUpdate stripUndefined payload order).shipping.awbCode = some awb ∧
          (∀ c, payload.courier_name = some c →
            (webhookUpdate stripUndefined payload order).shipping.courier = some c) ∧
          (∀ c, payload.courier_id = some c →
            (webhookUpdate stripUndefined payload order).shipping.courierId = some c) ∧
          (webhookUpdate stripUndefined payload order).status = "shipped" ∧
          (webhookUpdate stripUndefined payload order).shipping.status = some "shipped")) := by
  constructor
  · intro h
    simp [shiprocketWebhook, h]
  · intro id awb hid hid0 hawb hawb0
    have hvalid : ¬ (truthyStr payload.order_id = false ∨ truthyStr payload.awb_code = false) := by
      simp [hid, hawb, truthyStr, hid0, hawb0]
    have hany : ∀ b : Bool,
        orders.any (fun o => decide (o.shipping.shiprocketOrderId = some id)) = b →
        orders.any
          (fun o => decide (o.shipping.shiprocketOrderId = some (payload.order_id.getD ""))) =
            b := by
      intro b hb
      simpa [hid] using hb
    refine ⟨?_, ?_, ?_⟩
    · rintro ⟨hnone, hcast⟩
      have hfalse : orders.any (fun o => decide (o.shipping.shiprocketOrderId = some id)) =
          false := by
        rw [List.any_eq_false]
        intro o ho
        simpa using hnone o ho
      have hcast2 : isObjectId (payload.order_id.getD "") = false := by simpa [hid] using hcast
      simp only [shiprocketWebhook, if_neg hvalid, hany false hfalse, hcast2, and_self, if_true]
    · rintro ⟨hnone, hcast⟩
      have hcast2 : isObjectId (payload.order_id.getD "") = true := by simpa [hid] using hcast
      have hfind : orders.find? (carrierKey orders id) = none := by
        rw [List.find?_eq_none]
        intro o ho
        unfold carrierKey
        split <;> simp [(hnone o ho).1, (hnone o ho).2]
      have hnot : ¬ (orders.any
          (fun o => decide (o.shipping.shiprocketOrderId = some (payload.order_id.getD ""))) =
            false ∧ isObjectId (payload.order_id.getD "") = false) := by
        simp [hcast2]
      simp only [shiprocketWebhook, if_neg hvalid, if_neg hnot]
      simp only [hid, Option.getD_some, hfind]
    · intro hsome
      have hnot : ¬ (orders.any
          (fun o => decide (o.shipping.shiprocketOrderId = some (payload.order_id.getD ""))) =
            false ∧ isObjectId (payload.order_id.getD "") = false) := by
        rintro ⟨hfalse, hcast⟩
        rcases hsome with ⟨o, ho, hk⟩ | ⟨hc, _⟩
        · rw [List.any_eq_false] at hfalse
          exact hfalse o ho (by simpa [hid] using hk)
        · rw [hid] at hcast
          simp [hc] at hcast
      have hfind : ∃ order, orders.find? (carrierKey orders id) = some order := by
        rw [← Option.isSome_iff_exists, List.find?_isSome]
        by_cases hany2 : orders.any (fun o => decide (o.shipping.shiprocketOrderId = some id)) = true
        · rcases List.any_eq_true.mp hany2 with ⟨o, ho, hk⟩
          exact ⟨o, ho, by simpa [carrierKey, hany2] using hk⟩
        · rcases hsome with ⟨o, ho, hk⟩ | ⟨_, o, ho, hk⟩
          · exact absurd (List.any_eq_true.mpr ⟨o, ho, by simpa using hk⟩) hany2
          · exact ⟨o, ho, by simp [carrierKey, hany2, hk]⟩
      rcases hfind with ⟨order, hfind⟩
      rcases updateFirst_split _ (webhookUpdate stripUndefined payload) orders order hfind with
        ⟨front, back, hl, hfront, hupd⟩
      refine ⟨order, front, back, hfind, hl, hfront, ?_, ?_, ?_, ?_, ?_, rfl, rfl⟩
      · simp only [shiprocketWebhook, if_neg hvalid, if_neg hnot]
        simp only [hid, Option.getD_some, hfind]
      · simp only [shiprocketWebhook, if_neg hvalid, if_neg hnot]
        simp only [hid, Option.getD_some, hfind, hupd]
      · simp [webhookUpdate, hawb]
      · intro c hc
        simp [webhookUpdate, hc, setField]
      · intro c hc
        simp [webhookUpdate, hc, setField]

/-- C16 witness: a webhook naming the order by its carrier order id `987654` is answered 200
and marks that order shipped with the AWB code and the courier of the payload; a webhook
naming an unknown text of 24 hexadecimal digits is answered 404. -/
theorem shiprocketWebhook_outcomes_witness :
    ((shiprocketWebhook hexObjectId true [carrierOrder]
        { order_id := some "987654", awb_code := some "AWB1", courier_name := some "Express" }).1.status
        = 200 ∧
      (shiprocketWebhook hexObjectId true [carrierOrder]
        { order_id := some "987654", awb_code := some "AWB1", courier_name := some "Express" }).2.map
        (fun o => (o.status, o.shipping.status, o.shipping.awbCode, o.shipping.courier)) =
        [("shipped", some "shipped", some "AWB1", some "Express")]) ∧
    shiprocketWebhook hexObjectId true [carrierOrder]
        { order_id := some "0123456789abcdef01234567", awb_code := some "AWB1" } =
      ({ status := 404, message := "Order not found" }, [carrierOrder]) := by
  constructor
  · rcases ((shiprocketWebhook_outcomes hexObjectId true [carrierOrder]
        { order_id := some "987654", awb_code := some "AWB1", courier_name := some "Express" }).2
        "987654" "AWB1" rfl (by decide) rfl (by decide)).2.2
        (Or.inl ⟨carrierOrder, by simp, rfl⟩) with
      ⟨order, front, back, hfind, _, _, hst, hstore, _⟩
    have horder : order = carrierOrder := by
      simp [carrierKey, carrierOrder, pendingOrder, sampleOrder] at hfind
      exact hfind.symm
    subst horder
    refine ⟨hst, ?_⟩
    simp [shiprocketWebhook, truthyStr, carrierKey, carrierOrder, pendingOrder, sampleOrder,
      updateFirst, webhookUpdate, setField]
  · exact ((shiprocketWebhook_outcomes hexObjectId true [carrierOrder]
        { order_id := some "0123456789abcdef01234567", awb_code := some "AWB1" }).2
        "0123456789abcdef01234567" "AWB1" rfl (by decide) rfl (by decide)).2.1
        ⟨by simp [carrierOrder, pendingOrder, sampleOrder], by decide⟩

/-! ## C17: idempotence of the carrier webhook -/

/-- C17: for every order store and every webhook payload, processing the payload a second
time gives the same answer and leaves the same store as processing it once. -/
theorem shiprocketWebhook_idempotent (isObjectId : String → Bool) (stripUndefined : Bool)
    (orders : List Order) (payload : WebhookPayload) :
    shiprocketWebhook isObjectId stripUndefined
        (shiprocketWebhook isObjectId stripUndefined orders payload).2 payload =
      shiprocketWebhook isObjectId stripUndefined orders payload := by
  by_cases hvalid : truthyStr payload.order_id = false ∨ truthyStr payload.awb_code = false
  · simp [shiprocketWebhook, hvalid]
  · by_cases hcast : orders.any
        (fun o => decide (o.shipping.shiprocketOrderId = some (payload.order_id.getD ""))) =
          false ∧ isObjectId (payload.order_id.getD "") = false
    · have hstep : shiprocketWebhook isObjectId stripUndefined orders payload =
          ({ status := 500, message := "Internal server error" }, orders) := by
        simp only [shiprocketWebhook, if_neg hvalid, if_pos hcast]
      rw [hstep]
      exact hstep
    · cases hfind : orders.find? (carrierKey orders (payload.order_id.getD "")) with
      | none =>
        have hstep : shiprocketWebhook isObjectId stripUndefined orders payload =
            ({ status := 404, message := "Order not found" }, orders) := by
          simp only [shiprocketWebhook, if_neg hvalid, if_neg hcast, hfind]
        rw [hstep]
        exact hstep
      | some order =>
        have hids := webhookUpdate_ids stripUndefined payload
        have hkey := carrierKey_updateFirst orders (payload.order_id.getD "")
          (carrierKey orders (payload.order_id.getD "")) (webhookUpdate stripUndefined payload) hids
        have hpres := carrierKey_preserved orders (payload.order_id.getD "")
          (webhookUpdate stripUndefined payload) hids
        have hfind2 := find?_updateFirst (carrierKey orders (payload.order_id.getD ""))
          (webhookUpdate stripUndefined payload) orders hpres
        have hidem := updateFirst_idem (carrierKey orders (payload.order_id.getD ""))
          (webhookUpdate stripUndefined payload) orders hpres
          (webhookUpdate_idem stripUndefined payload)
        have hany := any_updateFirst (carrierKey orders (payload.order_id.getD ""))
          (fun o => decide (o.shipping.shiprocketOrderId = some (payload.order_id.getD "")))
          (webhookUpdate stripUndefined payload) orders
          (by intro o; simp [(hids o).1])
        have hstep : shiprocketWebhook isObjectId stripUndefined orders payload =
            ({ status := 200, message := "Order updated successfully",
               orderId := some order.orderId },
              updateFirst (carrierKey orders (payload.order_id.getD ""))
                (webhookUpdate stripUndefined payload) orders) := by
          simp only [shiprocketWebhook, if_neg hvalid, if_neg hcast, hfind]
        rw [hstep]
        simp only [shiprocketWebhook, if_neg hvalid, hany, if_neg hcast, hkey, hfind2, hfind,
          Option.map_some', hidem]
        rfl

/-! ## C18: the user cancellation request -/

theorem toLowerCase_empty_not_shipped : toLowerCase "" ∉ shippedStatuses := by decide

theorem jsTrim_empty : jsTrim "" = "" := by decide

theorem contains_shipped (x : String) :
    shippedStatuses.contains x = true ↔ x ∈ shippedStatuses := by
  simp

/-- The two status guards and the AWB guard of the handler, against `cancellationOpen`. -/
theorem cancellationOpen_iff (order : Order) :
    cancellationOpen order ↔
      ¬ (order.status ≠ "" ∧ shippedStatuses.contains (toLowerCase order.status) = true) ∧
      ¬ (truthyStr order.shipping.status = true ∧
          shippedStatuses.contains (toLowerCase (order.shipping.status.getD "")) = true) ∧
      ¬ (truthyStr order.shipping.awbCode = true) := by
  unfold cancellationOpen
  have h1 : (order.status ≠ "" ∧ shippedStatuses.contains (toLowerCase order.status) = true) ↔
      toLowerCase order.status ∈ shippedStatuses := by
    rw [contains_shipped]
    constructor
    · intro h
      exact h.2
    · intro h
      refine ⟨?_, h⟩
      intro he
      rw [he] at h
      exact toLowerCase_empty_not_shipped h
  have h2 : (truthyStr order.shipping.status = true ∧
      shippedStatuses.contains (toLowerCase (order.shipping.status.getD "")) = true) ↔
        ∃ s, order.shipping.status = some s ∧ toLowerCase s ∈ shippedStatuses := by
    rw [contains_shipped]
    cases hs : order.shipping.status with
    | none => simp [truthyStr]
    | some st =>
      simp only [truthyStr, Option.getD_some, Option.some.injEq, exists_eq_left',
        decide_eq_true_eq]
      constructor
      · intro h
        exact h.2
      · intro h
        refine ⟨?_, h⟩
        intro he
        rw [he] at h
        exact toLowerCase_empty_not_shipped h
  have h3 : truthyStr order.shipping.awbCode = true ↔
      ¬ ∀ a, order.shipping.awbCode = some a → a = "" := by
    cases order.shipping.awbCode <;> simp [truthyStr]
  rw [h1, h2, h3]
  simp only [not_exists, not_and, not_not]

/-- The answer and the store of the handler for an existing order and a non-blank reason. -/
theorem requestCancellation_eq (orders : List Order) (orderId reason : String) (now : Int)
    (order : Order) (hfind : findOrder orders orderId = some order)
    (hreason : jsTrim reason ≠ "") :
    (cancellationOpen order ∧ order.cancellationRequested = false →
      requestCancellation orders orderId (some reason) now =
        ({ status := 200,
           message :=
             "Cancellation request submitted successfully. Admin will review your request." },
          updateFirst (orderKey orders orderId) (markCancellationRequested now reason) orders)) ∧
    (¬ (cancellationOpen order ∧ order.cancellationRequested = false) →
      (requestCancellation orders orderId (some reason) now).1.status = 400 ∧
        (requestCancellation orders orderId (some reason) now).2 = orders) := by
  have hne : reason ≠ "" := by
    intro he
    rw [he] at hreason
    exact hreason jsTrim_empty
  have hguard : ¬ (truthyStr (some reason) = false ∨ jsTrim ((some reason).getD "") = "") := by
    simp [truthyStr, hne, hreason]
  rw [cancellationOpen_iff]
  unfold requestCancellation
  rw [if_neg hguard]
  simp only [hfind, Option.getD_some]
  by_cases c1 : order.status ≠ "" ∧ shippedStatuses.contains (toLowerCase order.status) = true
  · rw [if_pos c1]
    exact ⟨fun h => absurd c1 h.1.1, fun _ => ⟨rfl, rfl⟩⟩
  · rw [if_neg c1]
    by_cases c2 : truthyStr order.shipping.status = true ∧
        shippedStatuses.contains (toLowerCase (order.shipping.status.getD "")) = true
    · rw [if_pos c2]
      exact ⟨fun h => absurd c2 h.1.2.1, fun _ => ⟨rfl, rfl⟩⟩
    · rw [if_neg c2]
      by_cases c3 : truthyStr order.shipping.awbCode = true
      · rw [if_pos c3]
        exact ⟨fun h => absurd c3 h.1.2.2, fun _ => ⟨rfl, rfl⟩⟩
      · rw [if_neg c3]
        by_cases c4 : order.cancellationRequested = true
        · rw [if_pos c4]
          refine ⟨fun h => ?_, fun _ => ⟨rfl, rfl⟩⟩
          rw [c4] at h
          exact absurd h.2 (by decide)
        · rw [if_neg c4]
          refine ⟨fun _ => rfl, fun h => ?_⟩
          exact absurd ⟨⟨c1, c2, c3⟩, by simpa using c4⟩ h

/-- What `trim` leaves: the text between a leading and a trailing run of white space, with
no white space at either end. -/
theorem jsTrim_spec (s : String) :
    ∃ front back : List Char,
      s.data = front ++ (jsTrim s).data ++ back ∧
      (∀ c ∈ front, isJsSpace c = true) ∧ (∀ c ∈ back, isJsSpace c = true) ∧
      (∀ c, (jsTrim s).data.head? = some c → isJsSpace c = false) ∧
      (∀ c, (jsTrim s).data.getLast? = some c → isJsSpace c = false) := by
  have hdrop : ∀ (l : List Char) (c : Char),
      (l.dropWhile isJsSpace).head? = some c → isJsSpace c = false := by
    intro l c hc
    induction l with
    | nil => simp at hc
    | cons x xs ih =>
      by_cases hx : isJsSpace x = true
      · simp only [List.dropWhile_cons, hx, if_true] at hc
        exact ih hc
      · simp only [List.dropWhile_cons, hx, Bool.false_eq_true, if_false, List.head?_cons,
          Option.some.injEq] at hc
        subst hc
        simpa using hx
  have htake : ∀ (l : List Char), ∀ c ∈ l.takeWhile isJsSpace, isJsSpace c = true := by
    intro l c hc
    exact List.mem_takeWhile_imp hc
  refine ⟨s.data.takeWhile isJsSpace,
    ((s.data.dropWhile isJsSpace).reverse.takeWhile isJsSpace).reverse, ?_, htake _, ?_, ?_, ?_⟩
  · have h1 : s.data = s.data.takeWhile isJsSpace ++ s.data.dropWhile isJsSpace :=
      (List.takeWhile_append_dropWhile isJsSpace s.data).symm
    have h2 : (s.data.dropWhile isJsSpace).reverse =
        (s.data.dropWhile isJsSpace).reverse.takeWhile isJsSpace ++
          (s.data.dropWhile isJsSpace).reverse.dropWhile isJsSpace :=
      (List.takeWhile_append_dropWhile isJsSpace _).symm
    have h3 : s.data.dropWhile isJsSpace =
        ((s.data.dropWhile isJsSpace).reverse.dropWhile isJsSpace).reverse ++
          ((s.data.dropWhile isJsSpace).reverse.takeWhile isJsSpace).reverse := by
      rw [← List.reverse_append, ← h2, List.reverse_reverse]
    show s.data = s.data.takeWhile isJsSpace ++
      ((s.data.dropWhile isJsSpace).reverse.dropWhile isJsSpace).reverse ++ _
    rw [List.append_assoc, ← h3]
    exact h1
  · intro c hc
    exact htake _ c (List.mem_reverse.mp hc)
  · intro c hc
    have hhead : ((s.data.dropWhile isJsSpace).reverse.dropWhile isJsSpace).reverse.head? =
        some c := hc
    by_cases hnil : (s.data.dropWhile isJsSpace).reverse.dropWhile isJsSpace = []
    · rw [hnil] at hhead
      simp at hhead
    · have h2 : (s.data.dropWhile isJsSpace).reverse =
          (s.data.dropWhile isJsSpace).reverse.takeWhile isJsSpace ++
            (s.data.dropWhile isJsSpace).reverse.dropWhile isJsSpace :=
        (List.takeWhile_append_dropWhile isJsSpace _).symm
      have h3 : s.data.dropWhile isJsSpace =
          ((s.data.dropWhile isJsSpace).reverse.dropWhile isJsSpace).reverse ++
            ((s.data.dropWhile isJsSpace).reverse.takeWhile isJsSpace).reverse := by
        rw [← List.reverse_append, ← h2, List.reverse_reverse]
      apply hdrop s.data c
      rw [h3]
      cases hr : ((s.data.dropWhile isJsSpace).reverse.dropWhile isJsSpace).reverse with
      | nil =>
        exact absurd (List.reverse_eq_nil_iff.mp hr) hnil
      | cons x xs =>
        rw [hr] at hhead
        simpa using hhead
  · intro c hc
    have hlast : ((s.data.dropWhile isJsSpace).reverse.dropWhile isJsSpace).reverse.getLast? =
        some c := hc
    rw [List.getLast?_reverse] at hlast
    exact hdrop _ c hlast

/-- C18: for an existing order and a reason that is not blank, the request is answered 200
exactly when `order.status` and `shipping.status` are, in lower case, none of shipped,
in_transit, out_for_delivery, delivered, no AWB code is assigned and `cancellationRequested`
is false.  When accepted, only that order is rewritten: `cancellationRequested` becomes
true, the request time is stored, and the stored reason is the reason without the white
space before and after it (it neither begins nor ends with white space, in particular not
with a blank, a tab or a line break); every other field, `status` and `shipping` among
them, keeps its value.  When rejected the answer is 400 and the store is unchanged. -/
theorem requestCancellation_accepted_iff (orders : List Order) (orderId reason : String)
    (now : Int) (order : Order) (hfind : findOrder orders orderId = some order)
    (hreason : ∃ c ∈ reason.data, isJsSpace c = false) :
    ((requestCancellation orders orderId (some reason) now).1.status = 200 ↔
        (toLowerCase order.status ∉ ["shipped", "in_transit", "out_for_delivery", "delivered"] ∧
          (∀ s, order.shipping.status = some s →
            toLowerCase s ∉ ["shipped", "in_transit", "out_for_delivery", "delivered"]) ∧
          (∀ a, order.shipping.awbCode = some a → a = "") ∧
          order.cancellationRequested = false)) ∧
      ((requestCancellation orders orderId (some reason) now).1.status = 200 →
        ∃ (front back : List Order) (stored : String) (before after : List Char),
          orders = front ++ order :: back ∧
          (requestCancellation orders orderId (some reason) now).2 =
            front ++
              { order with
                cancellationRequested := true,
                cancellationRequestedAt := some now,
                cancellationReason := some stored } :: back ∧
          reason.data = before ++ stored.data ++ after ∧
          (∀ c ∈ before, isJsSpace c = true) ∧ (∀ c ∈ after, isJsSpace c = true) ∧
          (∀ c, stored.data.head? = some c →
            isJsSpace c = false ∧ c ≠ ' ' ∧ c ≠ '\t' ∧ c ≠ '\n' ∧ c ≠ '\r') ∧
          (∀ c, stored.data.getLast? = some c →
            isJsSpace c = false ∧ c ≠ ' ' ∧ c ≠ '\t' ∧ c ≠ '\n' ∧ c ≠ '\r')) ∧
      ((requestCancellation orders orderId (some reason) now).1.status ≠ 200 →
        (requestCancellation orders orderId (some reason) now).1.status = 400 ∧
          (requestCancellation orders orderId (some reason) now).2 = orders) := by
  have hne : jsTrim reason ≠ "" := by
    obtain ⟨c, hc, hsp⟩ := hreason
    obtain ⟨front, back, hsplit, hfront, hback, _, _⟩ := jsTrim_spec reason
    intro he
    rw [he] at hsplit
    simp only [List.append_nil] at hsplit
    have : c ∈ front ++ back := by
      have hc2 := hc
      rw [hsplit] at hc2
      simpa using hc2
    rcases List.mem_append.mp this with h | h
    · rw [hfront c h] at hsp
      exact absurd hsp (by decide)
    · rw [hback c h] at hsp
      exact absurd hsp (by decide)
  have heq := requestCancellation_eq orders orderId reason now order hfind hne
  have hopen : (toLowerCase order.status ∉
        ["shipped", "in_transit", "out_for_delivery", "delivered"] ∧
      (∀ s, order.shipping.status = some s →
        toLowerCase s ∉ ["shipped", "in_transit", "out_for_delivery", "delivered"]) ∧
      (∀ a, order.shipping.awbCode = some a → a = "") ∧
      order.cancellationRequested = false) ↔
      (cancellationOpen order ∧ order.cancellationRequested = false) := by
    unfold cancellationOpen shippedStatuses
    constructor
    · rintro ⟨h1, h2, h3, h4⟩
      exact ⟨⟨h1, h2, h3⟩, h4⟩
    · rintro ⟨⟨h1, h2, h3⟩, h4⟩
      exact ⟨h1, h2, h3, h4⟩
  have hiff : (requestCancellation orders orderId (some reason) now).1.status = 200 ↔
      (cancellationOpen order ∧ order.cancellationRequested = false) := by
    constructor
    · intro hst
      by_contra hacc
      rw [(heq.2 hacc).1] at hst
      exact absurd hst (by decide)
    · intro hacc
      rw [heq.1 hacc]
  have hspace : ∀ c : Char, isJsSpace c = false →
      isJsSpace c = false ∧ c ≠ ' ' ∧ c ≠ '\t' ∧ c ≠ '\n' ∧ c ≠ '\r' := by
    intro c hc
    refine ⟨hc, ?_, ?_, ?_, ?_⟩ <;>
      · intro he
        rw [he] at hc
        exact absurd hc (by decide)
  refine ⟨hiff.trans hopen.symm, ?_, ?_⟩
  · intro hst
    have hacc := hiff.mp hst
    rcases updateFirst_split _ (markCancellationRequested now reason) orders order hfind with
      ⟨front, back, hl, _, hupd⟩
    obtain ⟨before, after, hsplit, hbefore, hafter, hhead, hlast⟩ := jsTrim_spec reason
    refine ⟨front, back, jsTrim reason, before, after, hl, ?_, hsplit, hbefore, hafter,
      fun c hc => hspace c (hhead c hc), fun c hc => hspace c (hlast c hc)⟩
    rw [heq.1 hacc]
    exact hupd
  · intro hst
    exact heq.2 (fun hacc => hst (hiff.mpr hacc))

theorem cancellationOpen_pendingOrder : cancellationOpen pendingOrder := by
  refine ⟨by decide, ?_, ?_⟩
  · intro s hs
    simp [pendingOrder, sampleOrder] at hs
  · intro a ha
    simp [pendingOrder, sampleOrder] at ha

/-- C18 witness: the pending order accepts the reason `"  wrong size "` followed by a line
break and stores `wrong size`, the request time and the flag, keeping the status `pending`;
the request is refused with 400, the store unchanged, for an order whose status is shipped,
in_transit, out_for_delivery, delivered or `Delivered`, for an order whose shipping status
is one of the four or `SHIPPED`, for an order with an AWB code, and for an order with an
earlier request. -/
theorem requestCancellation_accepted_iff_witness :
    ((requestCancellation [pendingOrder] "1001" (some "  wrong size \n") 7).1.status = 200 ∧
      (requestCancellation [pendingOrder] "1001" (some "  wrong size \n") 7).2.map
          (fun o => (o.status, o.cancellationRequested, o.cancellationRequestedAt,
            o.cancellationReason)) =
        [("pending", true, some 7, some "wrong size")]) ∧
    ((requestCancellation [statusOrder "shipped"] "1001" (some "wrong size") 7).1.status = 400 ∧
      (requestCancellation [statusOrder "shipped"] "1001" (some "wrong size") 7).2 = [statusOrder "shipped"]) ∧
    ((requestCancellation [statusOrder "in_transit"] "1001" (some "wrong size") 7).1.status = 400 ∧
      (requestCancellation [statusOrder "in_transit"] "1001" (some "wrong size") 7).2 = [statusOrder "in_transit"]) ∧
    ((requestCancellation [statusOrder "out_for_delivery"] "1001" (some "wrong size") 7).1.status = 400 ∧
      (requestCancellation [statusOrder "out_for_delivery"] "1001" (some "wrong size") 7).2 = [statusOrder "out_for_delivery"]) ∧
    ((requestCancellation [statusOrder "delivered"] "1001" (some "wrong size") 7).1.status = 400 ∧
      (requestCancellation [statusOrder "delivered"] "1001" (some "wrong size") 7).2 = [statusOrder "delivered"]) ∧
    ((requestCancellation [statusOrder "Delivered"] "1001" (some "wrong size") 7).1.status = 400 ∧
      (requestCancellation [statusOrder "Delivered"] "1001" (some "wrong size") 7).2 = [statusOrder "Delivered"]) ∧
    ((requestCancellation [shippingStatusOrder "shipped"] "1001" (some "wrong size") 7).1.status = 400 ∧
      (requestCancellation [shippingStatusOrder "shipped"] "1001" (some "wrong size") 7).2 = [shippingStatusOrder "shipped"]) ∧
    ((requestCancellation [shippingStatusOrder "in_transit"] "1001" (some "wrong size") 7).1.status = 400 ∧
      (requestCancellation [shippingStatusOrder "in_transit"] "1001" (some "wrong size") 7).2 = [shippingStatusOrder "in_transit"]) ∧
    ((requestCancellation [shippingStatusOrder "out_for_delivery"] "1001" (some "wrong size") 7).1.status = 400 ∧
      (requestCancellation [shippingStatusOrder "out_for_delivery"] "1001" (some "wrong size") 7).2 = [shippingStatusOrder "out_for_delivery"]) ∧
    ((requestCancellation [shippingStatusOrder "delivered"] "1001" (some "wrong size") 7).1.status = 400 ∧
      (requestCancellation [shippingStatusOrder "delivered"] "1001" (some "wrong size") 7).2 = [shippingStatusOrder "delivered"]) ∧
    ((requestCancellation [shippingStatusOrder "SHIPPED"] "1001" (some "wrong size") 7).1.status = 400 ∧
      (requestCancellation [shippingStatusOrder "SHIPPED"] "1001" (some "wrong size") 7).2 = [shippingStatusOrder "SHIPPED"]) ∧
    ((requestCancellation [awbOrder] "1001" (some "wrong size") 7).1.status = 400 ∧
      (requestCancellation [awbOrder] "1001" (some "wrong size") 7).2 = [awbOrder]) ∧
    ((requestCancellation [requestedOrder] "1001" (some "wrong size") 7).1.status = 400 ∧
      (requestCancellation [requestedOrder] "1001" (some "wrong size") 7).2 = [requestedOrder]) := by
  have hreason : ∃ c ∈ ("wrong size" : String).data, isJsSpace c = false :=
    ⟨'w', by decide, by decide⟩
  have key : ∀ o : Order, findOrder [o] "1001" = some o →
      ¬ (toLowerCase o.status ∉ ["shipped", "in_transit", "out_for_delivery", "delivered"] ∧
        (∀ s, o.shipping.status = some s →
          toLowerCase s ∉ ["shipped", "in_transit", "out_for_delivery", "delivered"]) ∧
        (∀ a, o.shipping.awbCode = some a → a = "") ∧
        o.cancellationRequested = false) →
      (requestCancellation [o] "1001" (some "wrong size") 7).1.status = 400 ∧
        (requestCancellation [o] "1001" (some "wrong size") 7).2 = [o] :=
    fun o hf hn =>
      (requestCancellation_accepted_iff [o] "1001" "wrong size" 7 o hf hreason).2.2
        (fun h200 =>
          hn ((requestCancellation_accepted_iff [o] "1001" "wrong size" 7 o hf hreason).1.mp
            h200))
  have haccept : (requestCancellation [pendingOrder] "1001" (some "  wrong size \n") 7).1.status
      = 200 :=
    (requestCancellation_accepted_iff [pendingOrder] "1001" "  wrong size \n" 7 pendingOrder
      (by simp [findOrder, orderKey, pendingOrder]) ⟨'w', by decide, by decide⟩).1.mpr
      ⟨by decide, fun s hs => by simp [pendingOrder, sampleOrder] at hs,
        fun a ha => by simp [pendingOrder, sampleOrder] at ha, rfl⟩
  have htrim : jsTrim "  wrong size \n" = "wrong size" := by decide
  have hblank : ("  wrong size \n" : String) ≠ "" := by decide
  have hstored : ("wrong size" : String) ≠ "" := by decide
  refine ⟨⟨haccept, ?_⟩,
    key (statusOrder "shipped") (by simp [findOrder, orderKey, statusOrder, pendingOrder])
      (fun h => h.1 (by decide)),
    key (statusOrder "in_transit") (by simp [findOrder, orderKey, statusOrder, pendingOrder])
      (fun h => h.1 (by decide)),
    key (statusOrder "out_for_delivery") (by simp [findOrder, orderKey, statusOrder, pendingOrder])
      (fun h => h.1 (by decide)),
    key (statusOrder "delivered") (by simp [findOrder, orderKey, statusOrder, pendingOrder])
      (fun h => h.1 (by decide)),
    key (statusOrder "Delivered") (by simp [findOrder, orderKey, statusOrder, pendingOrder])
      (fun h => h.1 (by decide)),
    key (shippingStatusOrder "shipped") (by simp [findOrder, orderKey, shippingStatusOrder, pendingOrder])
      (fun h => h.2.1 "shipped" rfl (by decide)),
    key (shippingStatusOrder "in_transit") (by simp [findOrder, orderKey, shippingStatusOrder, pendingOrder])
      (fun h => h.2.1 "in_transit" rfl (by decide)),
    key (shippingStatusOrder "out_for_delivery") (by simp [findOrder, orderKey, shippingStatusOrder, pendingOrder])
      (fun h => h.2.1 "out_for_delivery" rfl (by decide)),
    key (shippingStatusOrder "delivered") (by simp [findOrder, orderKey, shippingStatusOrder, pendingOrder])
      (fun h => h.2.1 "delivered" rfl (by decide)),
    key (shippingStatusOrder "SHIPPED") (by simp [findOrder, orderKey, shippingStatusOrder, pendingOrder])
      (fun h => h.2.1 "SHIPPED" rfl (by decide)),
    key awbOrder (by simp [findOrder, orderKey, awbOrder, pendingOrder])
      (fun h => absurd (h.2.2.1 "AWB1" rfl) (by decide)),
    key requestedOrder (by simp [findOrder, orderKey, requestedOrder, pendingOrder])
      (fun h => absurd h.2.2.2 (by decide))⟩
  simp [requestCancellation, truthyStr, htrim, hblank, hstored, findOrder, orderKey,
    pendingOrder, sampleOrder, updateFirst, markCancellationRequested, shippedStatuses,
    toLowerCase]

/-! ## C19: the admin decision on a cancellation request -/

theorem rejectCancellation_ids (adminReason : Option String) (o : Order) :
    (rejectCancellation adminReason o).orderId = o.orderId ∧
      (rejectCancellation adminReason o)._id = o._id :=
  ⟨rfl, rfl⟩

/-- C19: for an order with a pending cancellation request, admin reject answers 200 and
rewrites only that order, setting `cancellationRequested = false`,
`cancellationRequestedAt = null`, `cancellationReason = null` and
`adminCancellationReason` (the admin's reason, or "Cancellation request rejected" when none
is given) and keeping `status` and `shipping`; a later user request with a non-blank reason
on the resulting store is accepted exactly under the status, shipping status and AWB
conditions; for an order with no request, approve and reject both answer 400 and change
nothing. -/
theorem adminCancellation_reject (orders : List Order) (orderId : String)
    (adminReason : Option String) (now : Int) (order : Order)
    (hfind : findOrder orders orderId = some order) :
    (order.cancellationRequested = true →
      ∃ front back, orders = front ++ order :: back ∧
        adminCancellation orders "admin" orderId "reject" adminReason now =
          ({ status := 200, message := "Cancellation request rejected successfully" },
            front ++ rejectCancellation adminReason order :: back) ∧
        (rejectCancellation adminReason order).cancellationRequested = false ∧
        (rejectCancellation adminReason order).cancellationRequestedAt = none ∧
        (rejectCancellation adminReason order).cancellationReason = none ∧
        (rejectCancellation adminReason order).adminCancellationReason =
          some (if truthyStr adminReason then adminReason.getD ""
                else "Cancellation request rejected") ∧
        (rejectCancellation adminReason order).status = order.status ∧
        (rejectCancellation adminReason order).shipping = order.shipping ∧
        (∀ (reason : String) (later : Int), jsTrim reason ≠ "" →
          ((requestCancellation
              (adminCancellation orders "admin" orderId "reject" adminReason now).2 orderId
              (some reason) later).1.status = 200 ↔ cancellationOpen order))) ∧
    (order.cancellationRequested = false →
      ∀ action, action = "approve" ∨ action = "reject" →
        adminCancellation orders "admin" orderId action adminReason now =
          ({ status := 400, message := "No cancellation request found for this order" },
            orders)) := by
  constructor
  · intro hreq
    rcases updateFirst_split _ (rejectCancellation adminReason) orders order hfind with
      ⟨front, back, hl, _, hupd⟩
    have hne : ("reject" : String) ≠ "approve" := by decide
    have hstep : adminCancellation orders "admin" orderId "reject" adminReason now =
        ({ status := 200, message := "Cancellation request rejected successfully" },
          updateFirst (orderKey orders orderId) (rejectCancellation adminReason) orders) := by
      have hmsg : "Cancellation request " ++ "reject" ++ "ed successfully" =
          "Cancellation request rejected successfully" := by decide
      simp [adminCancellation, hfind, hreq, hne, hmsg]
    refine ⟨front, back, hl, ?_, rfl, rfl, rfl, rfl, rfl, rfl, ?_⟩
    · rw [hstep, hupd]
    · intro reason later hreason
      have hfind2 : findOrder (updateFirst (orderKey orders orderId)
          (rejectCancellation adminReason) orders) orderId =
            some (rejectCancellation adminReason order) := by
        rw [findOrder_updateFirst orders orderId _ (rejectCancellation_ids adminReason), hfind]
        rfl
      have heq := requestCancellation_eq _ orderId reason later _ hfind2 hreason
      rw [hstep]
      have hopen : cancellationOpen (rejectCancellation adminReason order) ∧
          (rejectCancellation adminReason order).cancellationRequested = false ↔
            cancellationOpen order :=
        ⟨fun h => h.1, fun h => ⟨h, rfl⟩⟩
      constructor
      · intro hst
        by_contra hno
        rw [(heq.2 (fun h => hno (hopen.mp h))).1] at hst
        exact absurd hst (by decide)
      · intro ho
        rw [heq.1 (hopen.mpr ho)]
  · intro hreq action haction
    rcases haction with rfl | rfl <;> simp [adminCancellation, hfind, hreq]

/-- C19 witness: the admin rejects the request on record, and a new request is accepted. -/
theorem adminCancellation_reject_witness :
    (adminCancellation [requestedOrder] "admin" "1001" "reject" none 9).1.status = 200 ∧
      (requestCancellation
        (adminCancellation [requestedOrder] "admin" "1001" "reject" none 9).2 "1001"
        (some "wrong size") 10).1.status = 200 := by
  rcases (adminCancellation_reject [requestedOrder] "1001" none 9 requestedOrder
    (by simp [findOrder, orderKey, requestedOrder, pendingOrder])).1 rfl with
    ⟨front, back, _, hstep, _, _, _, _, _, _, hagain⟩
  refine ⟨by rw [hstep], (hagain "wrong size" 10 (by decide)).mpr ?_⟩
  exact cancellationOpen_pendingOrder

/-! ## C20: a carrier failure during admin shipment creation -/

/-- C20, as stated, fails: when the carrier is unreachable, or refuses the order, both
endpoints answer 500 and leave `shipping.status` of the pending order absent; it is not
set to `Failed`. -/
theorem shipmentCreation_failure_not_marked :
    (pendingOrder.shipping.status = none ∧
      (createShiprocketAny unreachableCarrier "2026-01-01" [pendingOrder] "admin" "1001").1.status
        = 500 ∧
      (createShiprocketAny unreachableCarrier "2026-01-01" [pendingOrder] "admin"
        "1001").2.map (fun o => o.shipping.status) = [none] ∧
      (createShiprocketAny refusingCarrier "2026-01-01" [pendingOrder] "admin" "1001").1.status
        = 500 ∧
      (createShiprocketAny refusingCarrier "2026-01-01" [pendingOrder] "admin"
        "1001").2.map (fun o => o.shipping.status) = [none]) ∧
    ((addToShiprocket refusingCarrier "2026-01-01" [pendingOrder] "admin" "1001").1.status = 500 ∧
      (addToShiprocket refusingCarrier "2026-01-01" [pendingOrder] "admin"
        "1001").2.map (fun o => o.shipping.status) = [none]) := by
  have hne : ("Network Error" : String) ≠ "" := by decide
  refine ⟨⟨rfl, ?_, ?_, ?_, ?_⟩, ?_, ?_⟩ <;>
    simp [createShiprocketAny, addToShiprocket, findOrder, orderKey, pendingOrder, sampleOrder,
      truthyStr, validateShiprocketServiceability, createShiprocketOrder, unreachableCarrier,
      refusingCarrier, hne]

/-- C20, amended: when admin-initiated shipment creation fails at the carrier, the order
store is left unchanged (so `order.status` and `shipping.status` keep their values) and the
carrier error is reported with status 500: by
`POST /orders/admin/create-shiprocket-any/:orderId` as "Failed to create Shiprocket order: "
followed by the error of the serviceability or create-order call, and by
`POST /orders/admin/add-to-shiprocket/:orderId`, which makes no serviceability call, as the
error of the create-order call. -/
theorem shipmentCreation_failure (carrier : Carrier) (today : String) (orders : List Order)
    (orderId : String) (order : Order)
    (hnew : truthyStr order.shipping.shiprocketOrderId = false) :
    (orders.find? (fun o => decide (o.orderId = orderId)) = some order →
      (∀ message,
        validateShiprocketServiceability carrier order.address.postalCode =
          Except.error message →
        createShiprocketAny carrier today orders "admin" orderId =
          ({ status := 500, message := "Failed to create Shiprocket order: " ++ message },
            orders)) ∧
      (∀ courier message,
        validateShiprocketServiceability carrier order.address.postalCode = Except.ok courier →
        createShiprocketOrder carrier today order order.address order.items =
          Except.error message →
        createShiprocketAny carrier today orders "admin" orderId =
          ({ status := 500, message := "Failed to create Shiprocket order: " ++ message },
            orders))) ∧
    (findOrder orders orderId = some order →
      ∀ message,
        createShiprocketOrder carrier today order order.address order.items =
          Except.error message →
        addToShiprocket carrier today orders "admin" orderId =
          ({ status := 500, message := message }, orders)) := by
  refine ⟨fun hfind => ⟨?_, ?_⟩, ?_⟩
  · intro message hsvc
    simp [createShiprocketAny, hfind, hnew, hsvc]
  · intro courier message hsvc hcreate
    simp [createShiprocketAny, hfind, hnew, hsvc, hcreate]
  · intro hfind message hcreate
    simp [addToShiprocket, hfind, hnew, hcreate]

/-- C20 witness: the refusing carrier's error reaches the caller of both endpoints and the
store keeps the pending order as it was. -/
theorem shipmentCreation_failure_witness :
    createShiprocketAny refusingCarrier "2026-01-01" [pendingOrder] "admin" "1001" =
        ({ status := 500,
           message := "Failed to create Shiprocket order: " ++ "Invalid order data" },
          [pendingOrder]) ∧
      addToShiprocket refusingCarrier "2026-01-01" [pendingOrder] "admin" "1001" =
        ({ status := 500, message := "Invalid order data" }, [pendingOrder]) := by
  have h := shipmentCreation_failure refusingCarrier "2026-01-01" [pendingOrder] "1001"
    pendingOrder rfl
  have hcreate : createShiprocketOrder refusingCarrier "2026-01-01" pendingOrder
      pendingOrder.address pendingOrder.items = Except.error "Invalid order data" := by
    simp [createShiprocketOrder, refusingCarrier, truthyStr]
  exact ⟨(h.1 (by simp [pendingOrder])).2 { courier_name := some "Express" } "Invalid order data"
      (by simp [validateShiprocketServiceability, refusingCarrier]) hcreate,
    h.2 (by simp [findOrder, orderKey, pendingOrder]) "Invalid order data" hcreate⟩

/-! ## C21: admin-initiated shipment creation -/

theorem map_updateFirst {α β : Type} (p : α → Bool) (f : α → α) (g : α → β) (l : List α)
    (h : ∀ x, g (f x) = g x) : (updateFirst p f l).map g = l.map g := by
  induction l with
  | nil => rfl
  | cons x xs ih =>
    by_cases hx : p x = true
    · simp [updateFirst, hx, h]
    · simp [updateFirst, hx, ih]

/-- C21, evaluated on the code: `POST /admin/add-to-shiprocket/:orderId` never changes the
status of an order, whatever the carrier answers; for a carrier that reports no courier for
the pincode and accepts the create-order call, it answers 200, stores both carrier ids and
the shipping status `Processing`, and leaves `order.status` at `pending`, where
`POST /admin/create-shiprocket-any/:orderId` answers 500 for the same order and carrier. -/
theorem addToShiprocket_unvalidated_unconfirmed :
    (∀ (carrier : Carrier) (today : String) (orders : List Order) (role orderId : String),
      (addToShiprocket carrier today orders role orderId).2.map (fun o => o.status) =
        orders.map (fun o => o.status)) ∧
    (addToShiprocket unserviceableCarrier "2024-01-01" [pendingOrder] "admin" "1001").1.status
      = 200 ∧
    (addToShiprocket unserviceableCarrier "2024-01-01" [pendingOrder] "admin" "1001").2.map
        (fun o => (o.status, o.shipping.shiprocketOrderId, o.shipping.shipmentId,
          o.shipping.status)) =
      [("pending", some "c1", some "s1", some "Processing")] ∧
    createShiprocketAny unserviceableCarrier "2024-01-01" [pendingOrder] "admin" "1001" =
      ({ status := 500,
         message := "Failed to create Shiprocket order: Pincode not serviceable by Shiprocket" },
        [pendingOrder]) := by
  refine ⟨?_, ?_, ?_, ?_⟩
  · intro carrier today orders role orderId
    unfold addToShiprocket
    split
    · rfl
    · split
      · rfl
      · split
        · rfl
        · split
          · rfl
          · exact map_updateFirst _ _ _ _ (fun _ => rfl)
  · simp [addToShiprocket, findOrder, orderKey, pendingOrder, sampleOrder, truthyStr,
      createShiprocketOrder, unserviceableCarrier]
  · simp [addToShiprocket, findOrder, orderKey, pendingOrder, sampleOrder, truthyStr,
      createShiprocketOrder, unserviceableCarrier, updateFirst]
  · simp [createShiprocketAny, pendingOrder, sampleOrder, truthyStr,
      validateShiprocketServiceability, unserviceableCarrier]

/-! ## C22: the replacement deadline -/

/-- C22: for an order in status `delivered` or `confirmed` with no replacement request,
whose first item names a product of the catalogue with a replacement policy of a whole
number `days` of days, and with `D` the time value of `shipping.expectedDeliveryDate` or,
when that is absent, `createdAt`: let `L` be `D` moved by `days` calendar days on the
calendar of the server (the local time value of `D` plus `days` days, turned back into an
instant).  Check-eligibility answers eligible exactly when `now ≤ L`, and not eligible with the
reason `replacement_period_expired` when `L < now`; so at exactly `L` it answers eligible,
and one day later not eligible.  `L` is `D` plus `days` times 24 hours when the offset taken
for the moved local time is the offset at `D`; and when the offset at `L` is the offset
taken for the moved local time, the local time value of `L` is that of `D` plus `days`
days. -/
theorem checkEligibility_deadline (zone : TimeZone) (timeValue : String → Int)
    (orders : List Order) (products : List Product) (userId orderId productId : String)
    (now D L : Int) (order : Order) (item : CartItem) (rest : List CartItem)
    (product : Product) (policy : ReplacementPolicy) (days : ℕ)
    (hfind : orders.find? (fun o => decide (o.orderId = orderId ∧ o.user = userId)) =
      some order)
    (hstatus : order.status = "delivered" ∨ order.status = "confirmed")
    (hreq : order.replacementRequested = false)
    (hitems : order.items = item :: rest)
    (hid : item.id = some productId)
    (hproduct : products.find? (fun p => decide (p.id = productId)) = some product)
    (hpolicy : product.replacementPolicy = some policy)
    (hdays : policy.days = days)
    (hD : D = match order.shipping.expectedDeliveryDate with
              | some d => timeValue d
              | none => order.createdAt)
    (hL : L = D + zone.offsetAt D + days * 86400000 -
      zone.offsetOfLocal (D + zone.offsetAt D + days * 86400000)) :
    ((checkEligibility zone timeValue orders products userId orderId now).eligible =
        some true ↔ now ≤ L) ∧
    (L < now →
      (checkEligibility zone timeValue orders products userId orderId now).eligible =
          some false ∧
        (checkEligibility zone timeValue orders products userId orderId now).reason =
          some "replacement_period_expired") ∧
    (checkEligibility zone timeValue orders products userId orderId L).eligible = some true ∧
    (checkEligibility zone timeValue orders products userId orderId (L + 86400000)).eligible =
      some false ∧
    (checkEligibility zone timeValue orders products userId orderId (L + 86400000)).reason =
      some "replacement_period_expired" ∧
    (zone.offsetOfLocal (D + zone.offsetAt D + days * 86400000) = zone.offsetAt D →
      L = D + days * 86400000) ∧
    (zone.offsetAt L = zone.offsetOfLocal (D + zone.offsetAt D + days * 86400000) →
      L + zone.offsetAt L = D + zone.offsetAt D + days * 86400000) := by
  have hdl : replacementDeadline zone timeValue order policy = L := by
    have hdt : deliveryTime timeValue order = D := by
      rw [hD]
      unfold deliveryTime
      cases order.shipping.expectedDeliveryDate <;> rfl
    unfold replacementDeadline setDateForward
    rw [hdays, Int.floor_natCast, hdt, hL]
    rfl
  have hpol : firstItemPolicy products item = some policy := by
    simp [firstItemPolicy, hid, hproduct, hpolicy]
  have hfind2 : orders.find? (replacementKey userId orderId) = some order := hfind
  have hnot : ¬ (order.status ≠ "delivered" ∧ order.status ≠ "confirmed") := by
    rcases hstatus with h | h <;> simp [h]
  have hstep : ∀ t : Int,
      checkEligibility zone timeValue orders products userId orderId t =
        if t ≤ L then
          { status := 200, eligible := some true,
            replacementDeadline := some L,
            daysRemaining := some ⌈(((L - t : Int) : ℚ)) / ((dayMs : Int) : ℚ)⌉ }
        else
          { status := 200, eligible := some false,
            reason := some "replacement_period_expired",
            replacementDeadline := some L,
            daysRemaining := some 0 } := by
    intro t
    unfold checkEligibility
    simp only [hfind2, hitems, hpol, hdl, if_neg hnot, hreq, Bool.false_eq_true, if_false]
  refine ⟨?_, ?_, ?_, ?_, ?_, ?_, ?_⟩
  · rw [hstep now]
    by_cases h : now ≤ L
    · simp [h]
    · simp [h]
  · intro h
    rw [hstep now, if_neg (by omega)]
    exact ⟨rfl, rfl⟩
  · rw [hstep, if_pos (le_refl _)]
  · rw [hstep, if_neg (by omega)]
  · rw [hstep, if_neg (by omega)]
  · intro h
    rw [hL, h]
    ring
  · intro h
    rw [h, hL]
    ring

/-- C22 witness: a delivered order created at noon of day 5 with no expected delivery date,
a product with a policy of ten days, and a server whose clock goes one hour ahead at 01:00
UTC of day 10.  The deadline is 11:00 UTC of day 15 (noon on the server), one hour less than
ten times 24 hours after the creation: the check is eligible then and not eligible one
millisecond later. -/
theorem checkEligibility_deadline_witness :
    (checkEligibility summerZone (fun _ => 0) [noonOrder] [tenDayProduct] "u1" "2001"
        (15 * 86400000 + 39600000)).eligible = some true ∧
    (checkEligibility summerZone (fun _ => 0) [noonOrder] [tenDayProduct] "u1" "2001"
        (15 * 86400000 + 39600001)).eligible = some false ∧
    (checkEligibility summerZone (fun _ => 0) [noonOrder] [tenDayProduct] "u1" "2001"
        (15 * 86400000 + 39600000 + 86400000)).reason = some "replacement_period_expired" :=
  have hw := fun now => checkEligibility_deadline summerZone (fun _ => 0) [noonOrder]
    [tenDayProduct] "u1" "2001" "p1" now (5 * 86400000 + 43200000) (15 * 86400000 + 39600000)
    noonOrder sampleItem [] tenDayProduct { days := 10 } 10
    (by simp [noonOrder, sampleOrder])
    (Or.inl rfl) rfl rfl rfl
    (by simp [tenDayProduct])
    rfl
    (by norm_num)
    (by simp [noonOrder, sampleOrder, dayMs])
    (by norm_num [summerZone, dayMs])
  ⟨(hw 0).2.2.1, ((hw (15 * 86400000 + 39600001)).2.1 (by norm_num)).1, (hw 0).2.2.2.2.1⟩

/-! ## C23: the moves of the replacement status -/

theorem forall₂_self {α : Type} (R : α → α → Prop) (l : List α) (h : ∀ x ∈ l, R x x) :
    List.Forall₂ R l l := by
  induction l with
  | nil => exact List.Forall₂.nil
  | cons x xs ih =>
    exact List.Forall₂.cons (h x (List.mem_cons_self _ _))
      (ih (fun y hy => h y (List.mem_cons_of_mem _ hy)))

theorem forall₂_updateFirst {α : Type} (R : α → α → Prop) (p : α → Bool) (f : α → α)
    (l : List α) (x : α) (hfind : l.find? p = some x) (h : ∀ y ∈ l, R y y) (hx : R x (f x)) :
    List.Forall₂ R l (updateFirst p f l) := by
  induction l with
  | nil => simp at hfind
  | cons y ys ih =>
    by_cases hy : p y = true
    · simp only [List.find?, hy, Option.some.injEq] at hfind
      subst hfind
      simp only [updateFirst, hy, if_true]
      exact List.Forall₂.cons hx (forall₂_self R ys (fun z hz => h z (List.mem_cons_of_mem _ hz)))
    · simp only [List.find?, hy] at hfind
      simp only [updateFirst, hy, Bool.false_eq_true, if_false]
      exact List.Forall₂.cons (h y (List.mem_cons_self _ _))
        (ih hfind (fun z hz => h z (List.mem_cons_of_mem _ hz)))

theorem forall₂_right {α : Type} (R : α → α → Prop) (P : α → Prop) (l l' : List α)
    (h : List.Forall₂ R l l') (hP : ∀ a b, R a b → P b) : ∀ b ∈ l', P b := by
  induction h with
  | nil => simp
  | cons hab _ ih =>
    intro b hb
    rcases List.mem_cons.mp hb with rfl | hb
    · exact hP _ _ hab
    · exact ih b hb

theorem replacementStep_self (o : Order) (h : replacementConsistent o) : replacementStep o o :=
  ⟨h, Or.inl rfl⟩

/-- One replacement operation on a consistent store relates every order to its successor
by `replacementStep`. -/
theorem runReplacementOp_step (env : ReplacementEnv) (store : List Order) (op : ReplacementOp)
    (hinv : ∀ o ∈ store, replacementConsistent o) :
    List.Forall₂ replacementStep store (runReplacementOp env store op).2 := by
  have hself : ∀ o ∈ store, replacementStep o o := fun o ho => replacementStep_self o (hinv o ho)
  have hrefl := forall₂_self replacementStep store hself
  have hmem : ∀ (p : Order → Bool) (o : Order), store.find? p = some o → o ∈ store :=
    fun p o h => List.mem_of_find?_eq_some h
  cases op with
  | request userId orderId reason =>
    simp only [runReplacementOp, requestReplacement]
    split
    · exact hrefl
    · split
      · exact hrefl
      · rename_i order hfind
        split
        · exact hrefl
        · rename_i hreq
          split
          · exact hrefl
          · split
            · exact hrefl
            · split
              · exact hrefl
              · refine forall₂_updateFirst _ _ _ _ order hfind hself ?_
                have hc := hinv order (hmem _ _ hfind)
                have hst : order.replacementStatus = "pending" := hc (by simpa using hreq)
                exact ⟨fun h => by simp [markReplacementRequested] at h,
                  Or.inl (by simp [markReplacementRequested, hst])⟩
  | cancel userId orderId =>
    simp only [runReplacementOp, cancelReplacement]
    split
    · exact hrefl
    · rename_i order hfind
      split
      · exact hrefl
      · split
        · exact hrefl
        · rename_i hreq hst
          refine forall₂_updateFirst _ _ _ _ order hfind hself ?_
          exact ⟨fun _ => rfl, Or.inl (by simpa [resetReplacement] using (not_not.mp hst).symm)⟩
  | approve role orderId adminNotes =>
    simp only [runReplacementOp, approveReplacement]
    split
    · exact hrefl
    · rename_i order hfind
      split
      · exact hrefl
      · rename_i hreq
        split
        · exact hrefl
        · rename_i hst
          have hst : order.replacementStatus = "pending" := not_not.mp hst
          have hreq : order.replacementRequested = true := by simpa using hreq
          split
          · refine forall₂_updateFirst _ _ _ _ order hfind hself ?_
            exact ⟨fun h => by simp [markReplacementApproved, hreq] at h,
              Or.inr (Or.inl ⟨hst, rfl⟩)⟩
          · refine forall₂_updateFirst _ _ _ _ order hfind hself ?_
            exact ⟨fun h => by simp [markReplacementRejected, hreq] at h,
              Or.inr (Or.inr (Or.inl ⟨hst, rfl⟩))⟩
  | reject role orderId rejectionReason adminNotes =>
    simp only [runReplacementOp, rejectReplacement]
    split
    · exact hrefl
    · split
      · exact hrefl
      · rename_i order hfind
        split
        · exact hrefl
        · rename_i hreq
          split
          · exact hrefl
          · rename_i hst
            have hst : order.replacementStatus = "pending" := not_not.mp hst
            have hreq : order.replacementRequested = true := by simpa using hreq
            refine forall₂_updateFirst _ _ _ _ order hfind hself ?_
            exact ⟨fun h => by simp [markReplacementRejected, hreq] at h,
              Or.inr (Or.inr (Or.inl ⟨hst, rfl⟩))⟩
  | complete role orderId adminNotes =>
    simp only [runReplacementOp, completeReplacement]
    split
    · exact hrefl
    · rename_i order hfind
      split
      · exact hrefl
      · rename_i hreq
        split
        · exact hrefl
        · rename_i hst
          have hst : order.replacementStatus = "approved" := not_not.mp hst
          have hreq : order.replacementRequested = true := by simpa using hreq
          refine forall₂_updateFirst _ _ _ _ order hfind hself ?_
          exact ⟨fun h => by simp [markReplacementCompleted, hreq] at h,
            Or.inr (Or.inr (Or.inr ⟨hst, rfl⟩))⟩

/-- A sequence of replacement operations keeps a consistent store consistent. -/
theorem runReplacementOps_consistent (ops : List (ReplacementEnv × ReplacementOp))
    (orders : List Order) (hinv : ∀ o ∈ orders, replacementConsistent o) :
    ∀ o ∈ runReplacementOps orders ops, replacementConsistent o := by
  induction ops generalizing orders with
  | nil => exact hinv
  | cons step rest ih =>
    simp only [runReplacementOps, List.foldl_cons]
    exact ih _ (forall₂_right replacementStep replacementConsistent _ _
      (runReplacementOp_step step.1 orders step.2 hinv) (fun _ _ h => h.1))

/-- A replacement operation answered with 400 or 404 writes nothing. -/
theorem runReplacementOp_refused (env : ReplacementEnv) (store : List Order)
    (op : ReplacementOp)
    (h : (runReplacementOp env store op).1.status = 400 ∨
      (runReplacementOp env store op).1.status = 404) :
    (runReplacementOp env store op).2 = store := by
  cases op with
  | request userId orderId reason =>
    simp only [runReplacementOp, requestReplacement] at h ⊢
    repeat' split
    all_goals first | rfl | (exfalso; simp_all)
  | cancel userId orderId =>
    simp only [runReplacementOp, cancelReplacement] at h ⊢
    repeat' split
    all_goals first | rfl | (exfalso; simp_all)
  | approve role orderId adminNotes =>
    simp only [runReplacementOp, approveReplacement] at h ⊢
    repeat' split
    all_goals first | rfl | (exfalso; simp_all)
  | reject role orderId rejectionReason adminNotes =>
    simp only [runReplacementOp, rejectReplacement] at h ⊢
    repeat' split
    all_goals first | rfl | (exfalso; simp_all)
  | complete role orderId adminNotes =>
    simp only [runReplacementOp, completeReplacement] at h ⊢
    repeat' split
    all_goals first | rfl | (exfalso; simp_all)

/-- An approval answered with 200 found a pending request. -/
theorem approveReplacement_ok (carrier : ReplacementCarrier) (today stamp : String)
    (store : List Order) (role orderId : String) (adminNotes : Option String) (now : Int)
    (h : (approveReplacement carrier today stamp store role orderId adminNotes now).1.status
      = 200) :
    ∃ o, store.find? (orderIdKey orderId) = some o ∧ o.replacementRequested = true ∧
      o.replacementStatus = "pending" := by
  unfold approveReplacement at h
  split at h
  · simp at h
  · rename_i order hfind
    split at h
    · simp at h
    · rename_i hreq
      split at h
      · simp at h
      · rename_i hst
        exact ⟨order, hfind, by simpa using hreq, not_not.mp hst⟩

/-- A rejection answered with 200 carried a reason and found a pending request. -/
theorem rejectReplacement_ok (store : List Order) (role orderId : String)
    (rejectionReason adminNotes : Option String) (now : Int)
    (h : (rejectReplacement store role orderId rejectionReason adminNotes now).1.status = 200) :
    (∃ r, rejectionReason = some r ∧ r ≠ "") ∧
    ∃ o, store.find? (orderIdKey orderId) = some o ∧ o.replacementRequested = true ∧
      o.replacementStatus = "pending" := by
  unfold rejectReplacement at h
  split at h
  · simp at h
  · rename_i hreason
    split at h
    · simp at h
    · rename_i order hfind
      split at h
      · simp at h
      · rename_i hreq
        split at h
        · simp at h
        · rename_i hst
          refine ⟨?_, order, hfind, by simpa using hreq, not_not.mp hst⟩
          cases rejectionReason with
          | none => simp [truthyStr] at hreason
          | some r => exact ⟨r, rfl, by simpa [truthyStr] using hreason⟩

/-- A completion answered with 200 found an approved request. -/
theorem completeReplacement_ok (store : List Order) (role orderId : String)
    (adminNotes : Option String) (now : Int)
    (h : (completeReplacement store role orderId adminNotes now).1.status = 200) :
    ∃ o, store.find? (orderIdKey orderId) = some o ∧ o.replacementRequested = true ∧
      o.replacementStatus = "approved" := by
  unfold completeReplacement at h
  split at h
  · simp at h
  · rename_i order hfind
    split at h
    · simp at h
    · rename_i hreq
      split at h
      · simp at h
      · rename_i hst
        exact ⟨order, hfind, by simpa using hreq, not_not.mp hst⟩

/-- C23: take a store in which every order without a replacement request has the status
`pending`, run any sequence `before` of replacement operations (request, user cancel, admin
approve, admin reject, admin complete) and then one more operation `op`.  Position by
position, the operation keeps `replacementStatus` or moves it along pending → approved,
pending → rejected or approved → completed; an operation answered with 400 or 404 leaves
the store as it was; an approve or a reject answered with 200 found a request in status
pending, the reject carried a non-empty reason, and a complete answered with 200 found a
request in status approved. -/
theorem replacement_status_moves (orders : List Order)
    (before : List (ReplacementEnv × ReplacementOp)) (env : ReplacementEnv)
    (op : ReplacementOp) (hinv : ∀ o ∈ orders, replacementConsistent o) :
    List.Forall₂
      (fun o o' => o'.replacementStatus = o.replacementStatus ∨
        replacementMove o.replacementStatus o'.replacementStatus)
      (runReplacementOps orders before)
      (runReplacementOp env (runReplacementOps orders before) op).2 ∧
    (((runReplacementOp env (runReplacementOps orders before) op).1.status = 400 ∨
        (runReplacementOp env (runReplacementOps orders before) op).1.status = 404) →
      (runReplacementOp env (runReplacementOps orders before) op).2 =
        runReplacementOps orders before) ∧
    (∀ role orderId adminNotes, op = ReplacementOp.approve role orderId adminNotes →
      (runReplacementOp env (runReplacementOps orders before) op).1.status = 200 →
      ∃ o, (runReplacementOps orders before).find? (orderIdKey orderId) = some o ∧
        o.replacementRequested = true ∧ o.replacementStatus = "pending") ∧
    (∀ role orderId rejectionReason adminNotes,
      op = ReplacementOp.reject role orderId rejectionReason adminNotes →
      (runReplacementOp env (runReplacementOps orders before) op).1.status = 200 →
      (∃ r, rejectionReason = some r ∧ r ≠ "") ∧
      ∃ o, (runReplacementOps orders before).find? (orderIdKey orderId) = some o ∧
        o.replacementRequested = true ∧ o.replacementStatus = "pending") ∧
    (∀ role orderId adminNotes, op = ReplacementOp.complete role orderId adminNotes →
      (runReplacementOp env (runReplacementOps orders before) op).1.status = 200 →
      ∃ o, (runReplacementOps orders before).find? (orderIdKey orderId) = some o ∧
        o.replacementRequested = true ∧ o.replacementStatus = "approved") := by
  have hstore := runReplacementOps_consistent before orders hinv
  refine ⟨?_, runReplacementOp_refused env _ op, ?_, ?_, ?_⟩
  · exact (runReplacementOp_step env _ op hstore).imp (fun _ _ h => h.2)
  · intro role orderId adminNotes hop h
    subst hop
    exact approveReplacement_ok _ _ _ _ role orderId adminNotes _ h
  · intro role orderId rejectionReason adminNotes hop h
    subst hop
    exact rejectReplacement_ok _ role orderId rejectionReason adminNotes _ h
  · intro role orderId adminNotes hop h
    subst hop
    exact completeReplacement_ok _ role orderId adminNotes _ h

/-- C23 witness: on a store holding one order with a pending request, a request for it is
refused, then a reject with the reason `"worn"` moves the order from pending to rejected. -/
theorem replacement_status_moves_witness :
    (runReplacementOp sampleReplacementEnv
        (runReplacementOps [replacementOrder]
          [(sampleReplacementEnv, ReplacementOp.request "u1" "2001" (some "again"))])
        (ReplacementOp.reject "admin" "2001" (some "worn") none)).2.map
      (fun o => o.replacementStatus) = ["rejected"] ∧
    List.Forall₂
      (fun o o' => o'.replacementStatus = o.replacementStatus ∨
        replacementMove o.replacementStatus o'.replacementStatus)
      (runReplacementOps [replacementOrder]
        [(sampleReplacementEnv, ReplacementOp.request "u1" "2001" (some "again"))])
      (runReplacementOp sampleReplacementEnv
        (runReplacementOps [replacementOrder]
          [(sampleReplacementEnv, ReplacementOp.request "u1" "2001" (some "again"))])
        (ReplacementOp.reject "admin" "2001" (some "worn") none)).2 :=
  ⟨by simp [runReplacementOps, runReplacementOp, requestReplacement, rejectReplacement,
      truthyStr, replacementKey, orderIdKey, replacementOrder, sampleOrder, updateFirst,
      markReplacementRejected],
    (replacement_status_moves [replacementOrder]
      [(sampleReplacementEnv, ReplacementOp.request "u1" "2001" (some "again"))]
      sampleReplacementEnv (ReplacementOp.reject "admin" "2001" (some "worn") none)
      (by simp [replacementConsistent, replacementOrder])).1⟩

/-! ## C24: approving a replacement -/

/-- C24, evaluated on the code: the order has a pending replacement request, its
`address` carries the recipient name `Asha Rao` and its `shipping` sub-record holds no
address field.  Whatever the carrier answers, and so also when its login and create-order
calls succeed, admin approve answers 500 and stores the status `rejected` with the reason
`Failed to create shipping order: Failed to create Shiprocket replacement order` and no
tracking number: `createReplacementShiprocketOrder` reads the recipient from
`originalOrder.shipping`, and reading `name.split` of the absent name throws before the
create-order call.  The body it would send has `sub_total` 0 and `selling_price` 0 for
every item. -/
theorem approveReplacement_rejects_working_carrier :
    (replacementOrder.address.name = "Asha Rao" ∧ replacementOrder.shipping = {} ∧
      workingReplacementCarrier.login = some "token") ∧
    (∀ (carrier : ReplacementCarrier) (today stamp role : String) (adminNotes : Option String)
        (now : Int),
      (approveReplacement carrier today stamp [replacementOrder] role "2001" adminNotes
        now).1.status = 500 ∧
      (approveReplacement carrier today stamp [replacementOrder] role "2001" adminNotes
        now).2.map
          (fun o => (o.replacementStatus, o.replacementTrackingNumber,
            o.replacementRejectionReason)) =
        [("rejected", none,
          some "Failed to create shipping order: Failed to create Shiprocket replacement order")]) ∧
    (∀ (today stamp name : String) (originalOrder : Order) (replacementReason : Option String),
      (replacementPayload today stamp name originalOrder replacementReason).sub_total = 0 ∧
      ∀ item ∈ (replacementPayload today stamp name originalOrder
          replacementReason).order_items, item.selling_price = 0) := by
  refine ⟨⟨rfl, rfl, rfl⟩, ?_, ?_⟩
  · intro carrier today stamp role adminNotes now
    have hcreate : createReplacementShiprocketOrder carrier today stamp replacementOrder
        replacementOrder.replacementReason =
        Except.error "Failed to create Shiprocket replacement order" := by
      unfold createReplacementShiprocketOrder
      cases carrier.login <;> rfl
    have hfind : [replacementOrder].find? (orderIdKey "2001") = some replacementOrder := by
      simp [orderIdKey, replacementOrder]
    have hkey : orderIdKey "2001" replacementOrder = true := by
      simp [orderIdKey, replacementOrder]
    have hreq : replacementOrder.replacementRequested = true := rfl
    have hst : replacementOrder.replacementStatus = "pending" := rfl
    unfold approveReplacement
    simp only [hfind, hcreate, hreq, hst]
    simp [updateFirst, hkey, markReplacementRejected]
    rfl
  · intro today stamp name originalOrder replacementReason
    refine ⟨rfl, ?_⟩
    intro item hitem
    simp only [replacementPayload, List.mem_map] at hitem
    obtain ⟨_, _, rfl⟩ := hitem
    rfl

/-! ## C25: the status `cancelled` -/

/-- C25, as stated, fails: the carrier webhook moves a cancelled order to `shipped`,
`POST /admin/create-shiprocket-any/:orderId` moves a cancelled order to `confirmed`, and
the admin direct cancel moves a delivered order to `cancelled`. -/
theorem cancelled_not_terminal :
    (shiprocketWebhook hexObjectId true [{ carrierOrder with status := "cancelled" }]
        { order_id := some "987654", awb_code := some "AWB1" }).2.map (fun o => o.status) =
      ["shipped"] ∧
    (createShiprocketAny workingCarrier "2026-01-01"
        [{ pendingOrder with status := "cancelled" }] "admin" "1001").2.map
        (fun o => o.status) = ["confirmed"] ∧
    (adminCancel [{ pendingOrder with status := "delivered" }] "admin" "1001" (some "fraud")
        9).2.map (fun o => o.status) = ["cancelled"] := by
  refine ⟨?_, ?_, ?_⟩
  · simp [shiprocketWebhook, truthyStr, carrierKey, carrierOrder, pendingOrder, sampleOrder,
      updateFirst, webhookUpdate]
  · simp [createShiprocketAny, pendingOrder, sampleOrder, truthyStr,
      validateShiprocketServiceability, createShiprocketOrder, workingCarrier, updateFirst]
  · have h : jsTrim "fraud" ≠ "" := by decide
    simp [adminCancel, truthyStr, h, findOrder, orderKey, pendingOrder, sampleOrder,
      updateFirst, markCancelled]

/-- Rewriting one document with a function that keeps `cancelled` keeps every cancelled
order cancelled. -/
theorem cancelled_kept_updateFirst (p : Order → Bool) (f : Order → Order) (l : List Order)
    (hf : ∀ o, o.status = "cancelled" → (f o).status = "cancelled") :
    List.Forall₂ (fun o o' => o.status = "cancelled" → o'.status = "cancelled") l
      (updateFirst p f l) := by
  induction l with
  | nil => exact List.Forall₂.nil
  | cons x xs ih =>
    by_cases hx : p x = true
    · simp only [updateFirst, hx, if_true]
      exact List.Forall₂.cons (hf x) (forall₂_self _ xs (fun _ _ h => h))
    · simp only [updateFirst, hx, Bool.false_eq_true, if_false]
      exact List.Forall₂.cons (fun h => h) ih

/-- C25, amended: the user cancellation request, the admin decision on a cancellation
request (approve or reject), the admin direct cancel and
`POST /admin/add-to-shiprocket/:orderId` keep every cancelled order cancelled.  The carrier
webhook, when it answers 200, has set the located order to `shipped`, and
`POST /admin/create-shiprocket-any/:orderId`, when it answers 200, has set it to
`confirmed`, whatever the status was; otherwise they leave the store as it was.  The admin
direct cancel, when it answers 200, has set the located order to `cancelled` whatever its
status was, `delivered` included. -/
theorem cancelled_kept_and_entered :
    (∀ (orders : List Order) (orderId : String) (reason : Option String) (now : Int),
      List.Forall₂ (fun o o' => o.status = "cancelled" → o'.status = "cancelled") orders
        (requestCancellation orders orderId reason now).2) ∧
    (∀ (orders : List Order) (role orderId action : String) (adminReason : Option String)
        (now : Int),
      List.Forall₂ (fun o o' => o.status = "cancelled" → o'.status = "cancelled") orders
        (adminCancellation orders role orderId action adminReason now).2) ∧
    (∀ (orders : List Order) (role orderId : String) (reason : Option String) (now : Int),
      List.Forall₂ (fun o o' => o.status = "cancelled" → o'.status = "cancelled") orders
        (adminCancel orders role orderId reason now).2) ∧
    (∀ (carrier : Carrier) (today : String) (orders : List Order) (role orderId : String),
      List.Forall₂ (fun o o' => o.status = "cancelled" → o'.status = "cancelled") orders
        (addToShiprocket carrier today orders role orderId).2) ∧
    (∀ (isObjectId : String → Bool) (stripUndefined : Bool) (orders : List Order)
        (payload : WebhookPayload),
      ((shiprocketWebhook isObjectId stripUndefined orders payload).1.status = 200 ∧
        ∃ front o o' back, orders = front ++ o :: back ∧
          (shiprocketWebhook isObjectId stripUndefined orders payload).2 = front ++ o' :: back ∧
          o'.status = "shipped") ∨
      ((shiprocketWebhook isObjectId stripUndefined orders payload).1.status ≠ 200 ∧
        (shiprocketWebhook isObjectId stripUndefined orders payload).2 = orders)) ∧
    (∀ (carrier : Carrier) (today : String) (orders : List Order) (role orderId : String),
      ((createShiprocketAny carrier today orders role orderId).1.status = 200 ∧
        ∃ front o o' back, orders = front ++ o :: back ∧
          (createShiprocketAny carrier today orders role orderId).2 = front ++ o' :: back ∧
          o'.status = "confirmed") ∨
      ((createShiprocketAny carrier today orders role orderId).1.status ≠ 200 ∧
        (createShiprocketAny carrier today orders role orderId).2 = orders)) ∧
    (∀ (orders : List Order) (role orderId : String) (reason : Option String) (now : Int),
      ((adminCancel orders role orderId reason now).1.status = 200 ∧
        ∃ front o o' back, orders = front ++ o :: back ∧
          (adminCancel orders role orderId reason now).2 = front ++ o' :: back ∧
          o'.status = "cancelled") ∨
      ((adminCancel orders role orderId reason now).1.status ≠ 200 ∧
        (adminCancel orders role orderId reason now).2 = orders)) := by
  have hrefl : ∀ orders : List Order,
      List.Forall₂ (fun o o' => o.status = "cancelled" → o'.status = "cancelled") orders
        orders := fun orders => forall₂_self _ orders (fun _ _ h => h)
  refine ⟨?_, ?_, ?_, ?_, ?_, ?_, ?_⟩
  · intro orders orderId reason now
    unfold requestCancellation
    repeat' split
    all_goals first
      | exact hrefl orders
      | exact cancelled_kept_updateFirst _ _ _ (fun _ h => h)
  · intro orders role orderId action adminReason now
    unfold adminCancellation
    repeat' split
    all_goals first
      | exact hrefl orders
      | exact cancelled_kept_updateFirst _ _ _ (fun _ h => h)
      | exact cancelled_kept_updateFirst _ _ _ (fun _ _ => rfl)
  · intro orders role orderId reason now
    unfold adminCancel
    repeat' split
    all_goals first
      | exact hrefl orders
      | exact cancelled_kept_updateFirst _ _ _ (fun _ _ => rfl)
  · intro carrier today orders role orderId
    unfold addToShiprocket
    repeat' split
    all_goals first
      | exact hrefl orders
      | exact cancelled_kept_updateFirst _ _ _ (fun _ h => h)
  · intro isObjectId stripUndefined orders payload
    by_cases hv : truthyStr payload.order_id = false ∨ truthyStr payload.awb_code = false
    · right
      simp only [shiprocketWebhook, if_pos hv]
      exact ⟨by simp, trivial⟩
    · by_cases hcast : orders.any
          (fun o => decide (o.shipping.shiprocketOrderId = some (payload.order_id.getD ""))) =
            false ∧ isObjectId (payload.order_id.getD "") = false
      · right
        simp only [shiprocketWebhook, if_neg hv, if_pos hcast]
        exact ⟨by simp, trivial⟩
      · cases hfind : orders.find? (carrierKey orders (payload.order_id.getD "")) with
        | none =>
          right
          simp only [shiprocketWebhook, if_neg hv, if_neg hcast, hfind]
          exact ⟨by simp, trivial⟩
        | some order =>
          left
          simp only [shiprocketWebhook, if_neg hv, if_neg hcast, hfind]
          obtain ⟨front, back, h1, _, h2⟩ := updateFirst_split _
            (webhookUpdate stripUndefined payload) orders order hfind
          exact ⟨trivial, front, order, _, back, h1, h2, rfl⟩
  · intro carrier today orders role orderId
    by_cases hrole : role ≠ "admin"
    · right
      simp only [createShiprocketAny, if_pos hrole]
      exact ⟨by simp, trivial⟩
    · cases hfind : orders.find? (fun o => decide (o.orderId = orderId)) with
      | none =>
        right
        simp only [createShiprocketAny, if_neg hrole, hfind]
        exact ⟨by simp, trivial⟩
      | some order =>
        simp only [createShiprocketAny, if_neg hrole, hfind]
        split
        · exact Or.inr ⟨by simp, rfl⟩
        · split
          · exact Or.inr ⟨by simp, rfl⟩
          · split
            · exact Or.inr ⟨by simp, rfl⟩
            · obtain ⟨front, back, h1, _, h2⟩ := updateFirst_split _ _ orders order hfind
              exact Or.inl ⟨rfl, front, order, _, back, h1, h2, rfl⟩
  · intro orders role orderId reason now
    unfold adminCancel
    split
    · exact Or.inr ⟨by simp, rfl⟩
    · split
      · exact Or.inr ⟨by simp, rfl⟩
      · split
        · exact Or.inr ⟨by simp, rfl⟩
        · rename_i order hfind
          obtain ⟨front, back, h1, _, h2⟩ := updateFirst_split _
            (markCancelled now (reason.getD "")) orders order hfind
          exact Or.inl ⟨rfl, front, order, _, back, h1, h2, rfl⟩

/-! ## C26: the image of a stored line item -/

/-- C26, evaluated on the code: the catalogue holds the product `p1` with an empty
`images` list, as `POST /products` creates it.  An order with one line for `p1` whose image
is the relative path `/uploads/kurta.png` and one line without image for the unknown
product `p9` is created, and the stored order keeps both submitted values: the relative
path and the missing image. -/
theorem createOrder_stores_broken_image (rule : PositionalRule) :
    gridProduct.images = [] ∧
    (∃ order,
      (createOrder (fun _ => "") (findOneAndUpdateStock rule) gridDb sampleEnv
        brokenImageRequest).1 = OrderResponse.created order) ∧
    (createOrder (fun _ => "") (findOneAndUpdateStock rule) gridDb sampleEnv
        brokenImageRequest).2.orders.map (fun o => o.items.map (fun item => item.image)) =
      [[some "/uploads/kurta.png", none]] := by
  have hpay : ("online" : String) ≠ "cod" := by decide
  have hp9 : ("p1" : String) ≠ "p9" := by decide
  refine ⟨rfl, ?_, ?_⟩
  · simp only [createOrder, brokenImageRequest, sampleRequest, gridDb, sampleDb, hpay,
      if_false]
    exact ⟨_, rfl⟩
  · have hneeds : needsImage (some "/uploads/kurta.png") = true := by decide
    simp [createOrder, brokenImageRequest, sampleRequest, gridDb, sampleDb, hpay, resolveImage,
      relativeImageItem, noImageItem, sampleItem, hneeds, needsImage, gridProduct, hp9,
      orderPromotion, truthyStr]

/-! ## C27: the replacement request and the eligibility check -/

/-- C27, evaluated on the code: for a pending order (status neither `delivered` nor
`confirmed`) created at instant 0, whose first item's product allows replacements within
seven days, check-eligibility at instant 1000 answers not eligible with the reason
`order_not_delivered`, and the replacement request at the same instant is answered with
200 and stores the request. -/
theorem requestReplacement_accepts_undelivered :
    pendingOrder.status = "pending" ∧
    checkEligibility utcZone (fun _ => 0) [pendingOrder] [policyProduct] "u1" "1001" 1000 =
      { status := 200, eligible := some false, reason := some "order_not_delivered" } ∧
    (requestReplacement (fun _ => "7") utcZone (fun _ => 0) [pendingOrder] [policyProduct] "u1"
        "1001"
        (some "torn seam") 1000).1 =
      { status := 200, message := "Replacement request submitted successfully" } ∧
    (requestReplacement (fun _ => "7") utcZone (fun _ => 0) [pendingOrder] [policyProduct] "u1"
        "1001"
        (some "torn seam") 1000).2.map
        (fun o => (o.status, o.replacementRequested, o.replacementStatus,
          o.replacementReason)) =
      [("pending", true, "pending", some "torn seam")] := by
  have hkey : replacementKey "u1" "1001" pendingOrder = true := by
    simp [replacementKey, pendingOrder, sampleOrder]
  have hfind : [pendingOrder].find? (replacementKey "u1" "1001") = some pendingOrder := by
    simp [hkey]
  have hpol : firstItemPolicy [policyProduct] sampleItem = some {} := by
    simp [firstItemPolicy, sampleItem, policyProduct]
  have hitems : pendingOrder.items = [sampleItem] := rfl
  have hdl : replacementDeadline utcZone (fun _ => 0) pendingOrder {} = 7 * dayMs := by
    have h7 : (({} : ReplacementPolicy).days) = ((7 : ℕ) : ℚ) := by norm_num
    unfold replacementDeadline deliveryTime setDateForward
    rw [h7, Int.floor_natCast]
    simp [pendingOrder, sampleOrder, utcZone]
  have hreason : truthyStr (some "torn seam") = true := by decide
  refine ⟨rfl, ?_, ?_, ?_⟩
  · unfold checkEligibility
    simp only [hfind]
    decide
  · unfold requestReplacement
    simp only [hfind, hitems, hpol, hdl, hreason]
    simp [pendingOrder, sampleOrder, dayMs]
  · unfold requestReplacement
    simp only [hfind, hitems, hpol, hdl, hreason]
    simp [pendingOrder, sampleOrder, dayMs, updateFirst, markReplacementRequested, replacementKey]

/-! ## C28: who may run the admin replacement operations -/

/-- C28, evaluated on the code: the four admin replacement handlers give the same result
for every role; for a user with the role `customer`, reject answers 200 and stores the
status `rejected`, approve answers 500 and stores the status `rejected`, complete answers
200 and stores the status `completed`, and the list of all replacement requests is
answered with 200 and holds the order. -/
theorem replacement_admin_routes_ignore_role :
    (∀ (carrier : ReplacementCarrier) (today stamp : String) (orders : List Order)
        (role orderId : String) (rejectionReason adminNotes : Option String) (now : Int),
      approveReplacement carrier today stamp orders role orderId adminNotes now =
        approveReplacement carrier today stamp orders "admin" orderId adminNotes now ∧
      rejectReplacement orders role orderId rejectionReason adminNotes now =
        rejectReplacement orders "admin" orderId rejectionReason adminNotes now ∧
      completeReplacement orders role orderId adminNotes now =
        completeReplacement orders "admin" orderId adminNotes now ∧
      allReplacements orders role = allReplacements orders "admin") ∧
    (rejectReplacement [replacementOrder] "customer" "2001" (some "worn") none 9).1.status
      = 200 ∧
    (rejectReplacement [replacementOrder] "customer" "2001" (some "worn") none 9).2.map
      (fun o => o.replacementStatus) = ["rejected"] ∧
    (approveReplacement workingReplacementCarrier "2026-01-01" "1767225600000"
      [replacementOrder] "customer" "2001" none 9).1.status = 500 ∧
    (approveReplacement workingReplacementCarrier "2026-01-01" "1767225600000"
      [replacementOrder] "customer" "2001" none 9).2.map (fun o => o.replacementStatus) =
      ["rejected"] ∧
    (completeReplacement [approvedReplacementOrder] "customer" "2001" none 9).1.status = 200 ∧
    (completeReplacement [approvedReplacementOrder] "customer" "2001" none 9).2.map
      (fun o => o.replacementStatus) = ["completed"] ∧
    (allReplacements [replacementOrder] "customer").1 = 200 ∧
    (allReplacements [replacementOrder] "customer").2.map (fun o => o.orderId) = ["2001"] := by
  have hkey : orderIdKey "2001" replacementOrder = true := by
    simp [orderIdKey, replacementOrder]
  have hkey2 : orderIdKey "2001" approvedReplacementOrder = true := by
    simp [orderIdKey, approvedReplacementOrder, replacementOrder]
  have hworn : truthyStr (some "worn") = true := by decide
  have hreq : replacementOrder.replacementRequested = true := rfl
  have hst : replacementOrder.replacementStatus = "pending" := rfl
  have hreq2 : approvedReplacementOrder.replacementRequested = true := rfl
  have hst2 : approvedReplacementOrder.replacementStatus = "approved" := rfl
  have hcreate : createReplacementShiprocketOrder workingReplacementCarrier "2026-01-01"
      "1767225600000" replacementOrder replacementOrder.replacementReason =
      Except.error "Failed to create Shiprocket replacement order" := rfl
  refine ⟨fun _ _ _ _ _ _ _ _ _ => ⟨rfl, rfl, rfl, rfl⟩, ?_, ?_, ?_, ?_, ?_, ?_, ?_, ?_⟩
  · simp [rejectReplacement, hworn, hkey, hreq, hst]
  · simp [rejectReplacement, hworn, hkey, hreq, hst, updateFirst, markReplacementRejected]
  · simp [approveReplacement, hkey, hreq, hst, hcreate]
  · simp [approveReplacement, hkey, hreq, hst, hcreate, updateFirst, markReplacementRejected]
  · simp [completeReplacement, hkey2, hreq2, hst2]
  · simp [completeReplacement, hkey2, hreq2, hst2, updateFirst, markReplacementCompleted]
  · rfl
  · simp [allReplacements, hreq, replacementOrder]

/-! ## C29: the duplicate check of product variants -/

theorem duplicatesFrom_eq_nil (front rest : List String) :
    duplicatesFrom (front ++ rest) front.length rest = [] ↔
      rest.Nodup ∧ ∀ c ∈ rest, c ∉ front := by
  induction rest generalizing front with
  | nil => simp [duplicatesFrom]
  | cons c cs ih =>
    have hstep := ih (front ++ [c])
    simp only [List.append_assoc, List.singleton_append, List.length_append,
      List.length_singleton] at hstep
    by_cases hc : c ∈ front
    · have hidx : (front ++ c :: cs).indexOf c ≠ front.length := by
        rw [List.indexOf_append_of_mem hc]
        exact Nat.ne_of_lt (List.indexOf_lt_length.mpr hc)
      simp only [duplicatesFrom, hidx, ne_eq, not_false_eq_true, if_true]
      constructor
      · intro h
        simp at h
      · intro h
        exact absurd hc (h.2 c (List.mem_cons_self _ _))
    · have hidx : (front ++ c :: cs).indexOf c = front.length := by
        rw [List.indexOf_append_of_not_mem hc, List.indexOf_cons_self, Nat.add_zero]
      simp only [duplicatesFrom, hidx, ne_eq, not_true_eq_false, if_false, hstep,
        List.nodup_cons, List.mem_cons, List.mem_append, List.mem_singleton,
        List.not_mem_nil, or_false]
      constructor
      · rintro ⟨hnd, hall⟩
        refine ⟨⟨?_, hnd⟩, ?_⟩
        · intro hmem
          exact hall c hmem (Or.inr rfl)
        · intro d hd
          rcases hd with rfl | hd
          · exact hc
          · exact fun hf => hall d hd (Or.inl hf)
      · rintro ⟨⟨hnot, hnd⟩, hall⟩
        refine ⟨hnd, ?_⟩
        intro d hd hf
        rcases hf with hf | rfl
        · exact hall d (Or.inr hd) hf
        · exact hnot hd

/-- The list `duplicates` is empty exactly when no key occurs twice. -/
theorem duplicateCombos_eq_nil (colorSizeCombos : List String) :
    duplicateCombos colorSizeCombos = [] ↔ colorSizeCombos.Nodup := by
  have h := duplicatesFrom_eq_nil [] colorSizeCombos
  simpa [duplicateCombos] using h

/-- C29, evaluated on the code: the check answers `Duplicate color-size combinations found`
exactly when the list has no invalid variant and two positions with the same key
`color-size` (`color-NOSIZE` without size), so every list in which two variants have the
same colour and the same size is refused; but two keys can be equal for different pairs.
The well-formed lists blue-grey/M, blue/grey-M and red/NOSIZE, red/(no size) have pairwise
distinct pairs of colour and size and are both refused as duplicates. -/
theorem checkVariants_rejects_distinct_pairs :
    (∀ parsedVariants : List VariantInput,
      checkVariants parsedVariants =
          some { status := 400, message := "Duplicate color-size combinations found" } ↔
        (parsedVariants.any variantInvalid = false ∧
          ¬ (parsedVariants.map colorSizeCombo).Nodup)) ∧
    (∀ parsedVariants : List VariantInput,
      parsedVariants.any variantInvalid = false →
      ¬ (parsedVariants.map (fun v => (v.color, v.size))).Nodup →
      checkVariants parsedVariants =
        some { status := 400, message := "Duplicate color-size combinations found" }) ∧
    (hyphenVariants.any variantInvalid = false ∧
      (hyphenVariants.map (fun v => (v.color, v.size))).Nodup ∧
      checkVariants hyphenVariants =
        some { status := 400, message := "Duplicate color-size combinations found" }) ∧
    (noSizeVariants.any variantInvalid = false ∧
      (noSizeVariants.map (fun v => (v.color, v.size))).Nodup ∧
      checkVariants noSizeVariants =
        some { status := 400, message := "Duplicate color-size combinations found" }) := by
  have hmain : ∀ parsedVariants : List VariantInput,
      checkVariants parsedVariants =
          some { status := 400, message := "Duplicate color-size combinations found" } ↔
        (parsedVariants.any variantInvalid = false ∧
          ¬ (parsedVariants.map colorSizeCombo).Nodup) := by
    intro vs
    have hmsg : ("Invalid variant data" : String) ≠ "Duplicate color-size combinations found" := by
      decide
    unfold checkVariants
    by_cases hlen : vs.length > 0
    · by_cases hinv : vs.any variantInvalid = true
      · simp only [if_pos hlen, if_pos hinv]
        simp [hinv, hmsg]
      · have hinv2 : vs.any variantInvalid = false := by simpa using hinv
        by_cases hdup : (duplicateCombos (vs.map colorSizeCombo)).length > 0
        · have hnd : ¬ (vs.map colorSizeCombo).Nodup := by
            rw [← duplicateCombos_eq_nil]
            exact List.length_pos.mp hdup
          simp only [if_pos hlen, if_neg hinv, if_pos hdup]
          exact ⟨fun _ => ⟨hinv2, hnd⟩, fun _ => trivial⟩
        · have hnd : (vs.map colorSizeCombo).Nodup := by
            rw [← duplicateCombos_eq_nil]
            exact List.length_eq_zero.mp (by omega)
          simp only [if_pos hlen, if_neg hinv, if_neg hdup]
          exact ⟨fun h => by simp at h, fun h => absurd hnd h.2⟩
    · have hnil : vs = [] := List.length_eq_zero.mp (by omega)
      subst hnil
      simp
  refine ⟨hmain, ?_, ?_, ?_⟩
  · intro vs hinv hpairs
    refine (hmain vs).mpr ⟨hinv, ?_⟩
    intro hnd
    apply hpairs
    have hfac : vs.map colorSizeCombo =
        (vs.map (fun v => (v.color, v.size))).map
          (fun k : Option String × SizeValue =>
            k.1.getD "undefined" ++ "-" ++ sizeOr "NOSIZE" k.2) := by
      rw [List.map_map]
      rfl
    rw [hfac] at hnd
    exact List.Nodup.of_map _ hnd
  · refine ⟨by decide, by decide, ?_⟩
    exact (hmain hyphenVariants).mpr ⟨by decide, by decide⟩
  · refine ⟨by decide, by decide, ?_⟩
    exact (hmain noSizeVariants).mpr ⟨by decide, by decide⟩

/-! ## C30: the bulk stock update -/

theorem getElem?_updateFirst {α : Type} (p : α → Bool) (f : α → α) (l : List α) (i : Nat) :
    (updateFirst p f l)[i]? =
      if firstIndex p l = some i then l[i]?.map f else l[i]? := by
  induction l generalizing i with
  | nil => simp [updateFirst, firstIndex]
  | cons x xs ih =>
    by_cases hx : p x = true
    · cases i with
      | zero => simp [updateFirst, firstIndex, hx]
      | succ j => simp [updateFirst, firstIndex, hx]
    · cases i with
      | zero =>
        simp only [updateFirst, firstIndex, hx, Bool.false_eq_true, if_false,
          List.getElem?_cons_zero]
        cases firstIndex p xs <;> simp
      | succ j =>
        simp only [updateFirst, firstIndex, hx, Bool.false_eq_true, if_false,
          List.getElem?_cons_succ, ih j]
        cases firstIndex p xs <;> simp

theorem firstIndex_named_congr (update : StockUpdate) (l l' : List Variant)
    (h : l.map (fun v => (v.color, v.size)) = l'.map (fun v => (v.color, v.size))) :
    firstIndex (variantNamed update) l = firstIndex (variantNamed update) l' := by
  induction l generalizing l' with
  | nil =>
    cases l' with
    | nil => rfl
    | cons y ys => simp at h
  | cons x xs ih =>
    cases l' with
    | nil => simp at h
    | cons y ys =>
      simp only [List.map_cons, List.cons.injEq, Prod.mk.injEq] at h
      obtain ⟨⟨hc, hs⟩, ht⟩ := h
      have hxy : variantNamed update x = variantNamed update y := by
        simp [variantNamed, hc, hs]
      simp only [firstIndex, hxy, ih ys ht]

theorem any_named_congr (update : StockUpdate) (l l' : List Variant)
    (h : l.map (fun v => (v.color, v.size)) = l'.map (fun v => (v.color, v.size))) :
    l.any (variantNamed update) = l'.any (variantNamed update) := by
  induction l generalizing l' with
  | nil =>
    cases l' with
    | nil => rfl
    | cons y ys => simp at h
  | cons x xs ih =>
    cases l' with
    | nil => simp at h
    | cons y ys =>
      simp only [List.map_cons, List.cons.injEq, Prod.mk.injEq] at h
      obtain ⟨⟨hc, hs⟩, ht⟩ := h
      have hxy : variantNamed update x = variantNamed update y := by
        simp [variantNamed, hc, hs]
      simp only [List.any_cons, hxy, ih ys ht]

/-- A turn of the loop keeps the colour and the size of every variant. -/
theorem bulkStockStep_keys (state : BulkStockState) (update : StockUpdate) :
    (bulkStockStep state update).variants.map (fun v => (v.color, v.size)) =
      state.variants.map (fun v => (v.color, v.size)) := by
  unfold bulkStockStep
  split
  · rfl
  · split
    · rfl
    · exact map_updateFirst _ _ _ _ (fun _ => rfl)

theorem bulkStock_foldl_errors_grow (updates : List StockUpdate) (state : BulkStockState)
    (h : state.errors ≠ []) : (updates.foldl bulkStockStep state).errors ≠ [] := by
  induction updates generalizing state with
  | nil => exact h
  | cons u us ih =>
    rw [List.foldl_cons]
    apply ih
    unfold bulkStockStep
    split
    · simp
    · split
      · simp
      · exact h

/-- An update that is invalid or names no variant leaves an error behind. -/
theorem bulkStock_foldl_error (updates : List StockUpdate) (state : BulkStockState)
    (u : StockUpdate) (hu : u ∈ updates)
    (hbad : stockUpdateInvalid u = true ∨ state.variants.any (variantNamed u) = false) :
    (updates.foldl bulkStockStep state).errors ≠ [] := by
  induction updates generalizing state with
  | nil => simp at hu
  | cons w ws ih =>
    rw [List.foldl_cons]
    rcases List.mem_cons.mp hu with rfl | hmem
    · apply bulkStock_foldl_errors_grow
      unfold bulkStockStep
      rcases hbad with hbad | hbad
      · simp [hbad]
      · by_cases hinv : stockUpdateInvalid u = true
        · simp [hinv]
        · simp [hinv, hbad]
    · apply ih _ hmem
      rcases hbad with hbad | hbad
      · exact Or.inl hbad
      · right
        rw [any_named_congr u _ state.variants (bulkStockStep_keys state w)]
        exact hbad

/-- When every update is valid and names a variant, the loop pushes no error and applies
the updates one after the other. -/
theorem bulkStock_foldl_ok (updates : List StockUpdate) (state : BulkStockState)
    (hok : ∀ u ∈ updates,
      stockUpdateInvalid u = false ∧ state.variants.any (variantNamed u) = true) :
    (updates.foldl bulkStockStep state).errors = state.errors ∧
    (updates.foldl bulkStockStep state).variants =
      updates.foldl
        (fun vs u =>
          updateFirst (variantNamed u) (fun v => { v with stock := u.stock.getD 0 }) vs)
        state.variants := by
  induction updates generalizing state with
  | nil => exact ⟨rfl, rfl⟩
  | cons w ws ih =>
    have hw := hok w (List.mem_cons_self _ _)
    have hstep : bulkStockStep state w =
        { state with
          variants :=
            updateFirst (variantNamed w) (fun v => { v with stock := w.stock.getD 0 })
              state.variants,
          results := state.results + 1 } := by
      unfold bulkStockStep
      simp [hw.1, hw.2]
    rw [List.foldl_cons, List.foldl_cons]
    have hrest : ∀ u ∈ ws, stockUpdateInvalid u = false ∧
        (bulkStockStep state w).variants.any (variantNamed u) = true := by
      intro u hu
      refine ⟨(hok u (List.mem_cons_of_mem _ hu)).1, ?_⟩
      rw [any_named_congr u _ state.variants (bulkStockStep_keys state w)]
      exact (hok u (List.mem_cons_of_mem _ hu)).2
    obtain ⟨h1, h2⟩ := ih (bulkStockStep state w) hrest
    rw [h1, h2, hstep]
    exact ⟨rfl, rfl⟩

theorem applyUpdates_keys (updates : List StockUpdate) (variants : List Variant) :
    (updates.foldl
        (fun vs u =>
          updateFirst (variantNamed u) (fun v => { v with stock := u.stock.getD 0 }) vs)
        variants).map (fun v => (v.color, v.size)) =
      variants.map (fun v => (v.color, v.size)) := by
  induction updates generalizing variants with
  | nil => rfl
  | cons u us ih =>
    rw [List.foldl_cons, ih]
    exact map_updateFirst _ _ _ _ (fun _ => rfl)

/-- Position by position, applying the updates one after the other leaves the stock of
the last update that names the position. -/
theorem namesVariant_eq (u : StockUpdate) : namesVariant u = variantNamed u := by
  funext v
  rcases u with ⟨color, size, stock⟩
  rcases v with ⟨vcolor, vsize, vstock⟩
  cases size <;> cases vsize <;> simp [namesVariant, variantNamed, sizeEquals, eq_comm]

theorem applyUpdates_getElem? (updates : List StockUpdate) (variants : List Variant)
    (i : Nat) :
    (updates.foldl
        (fun vs u =>
          updateFirst (variantNamed u) (fun v => { v with stock := u.stock.getD 0 }) vs)
        variants)[i]? =
      variants[i]?.map
        (fun v => { v with stock := stockAfterUpdates variants updates i v }) := by
  induction updates using List.reverseRecOn with
  | nil =>
    simp only [List.foldl_nil, stockAfterUpdates, List.filter_nil, List.getLast?_nil]
    cases variants[i]? <;> rfl
  | append_singleton us u ih =>
    rw [List.foldl_append, List.foldl_cons, List.foldl_nil, getElem?_updateFirst,
      firstIndex_named_congr u _ variants (applyUpdates_keys us variants), ih]
    by_cases hn : firstIndex (variantNamed u) variants = some i
    · simp only [hn, if_true, stockAfterUpdates, namesVariant_eq, List.filter_append,
        List.filter_cons, List.filter_nil, decide_True, List.getLast?_append,
        List.getLast?_singleton]
      cases variants[i]? <;> simp
    · simp only [hn, if_false, stockAfterUpdates, namesVariant_eq, List.filter_append,
        List.filter_cons, List.filter_nil, decide_False, List.append_nil]
      simp

theorem stockUpdateInvalid_eq_false (u : StockUpdate) :
    stockUpdateInvalid u = false ↔ updateWellFormed u := by
  unfold stockUpdateInvalid updateWellFormed truthyStr
  rcases u with ⟨color, size, stock⟩
  cases color <;> cases stock <;> simp

theorem sizeEquals_eq_true (stored : Option String) (size : SizeValue) :
    sizeEquals stored size = true ↔
      ((size = SizeValue.absent ∧ stored = none) ∨
        ∃ s, size = SizeValue.text s ∧ stored = some s) := by
  cases stored <;> cases size <;> simp [sizeEquals, eq_comm]

theorem any_variantNamed (variants : List Variant) (u : StockUpdate) :
    variants.any (variantNamed u) = true ↔ updateMatches variants u := by
  simp only [updateMatches, variantNamed, List.any_eq_true, Bool.and_eq_true,
    decide_eq_true_eq, sizeEquals_eq_true]
  constructor
  · rintro ⟨v, hv, hc, hs⟩
    exact ⟨v, hv, hc.symm, hs⟩
  · rintro ⟨v, hv, hc, hs⟩
    exact ⟨v, hv, hc.symm, hs⟩

/-- C30: for a product that is found and a non-empty list of updates.  If some entry is
not well formed (colour missing or empty, stock not a number or negative) or names a
colour and size that no variant has (a size that is `null` or not a text is the size of no
variant), the answer is 400 and the store is unchanged.
Otherwise the answer is 200 and only that product is rewritten: at every position of its
variant list the variant keeps its colour and size, and its stock is the value of the last
update naming that position, or the old stock when no update names it. -/
theorem bulkStock_all_or_nothing (products : List Product) (id : String)
    (updates : List StockUpdate) (product : Product)
    (hfind : products.find? (fun p => decide (p.id = id)) = some product)
    (hne : updates ≠ []) :
    ((∃ u ∈ updates, ¬ updateWellFormed u ∨ ¬ updateMatches product.variants u) →
      (bulkStock products id updates).1.status = 400 ∧
      (bulkStock products id updates).2 = products) ∧
    ((∀ u ∈ updates, updateWellFormed u ∧ updateMatches product.variants u) →
      (bulkStock products id updates).1.status = 200 ∧
      ∃ (front back : List Product) (variants : List Variant),
        products = front ++ product :: back ∧
        (bulkStock products id updates).2 =
          front ++ { product with variants := variants } :: back ∧
        ∀ i : Nat, variants[i]? =
          product.variants[i]?.map
            (fun v => { v with stock := stockAfterUpdates product.variants updates i v })) := by
  have hlen : ¬ updates.length = 0 := by
    intro h
    exact hne (List.length_eq_zero.mp h)
  constructor
  · rintro ⟨u, hu, hbad⟩
    have herr : (updates.foldl bulkStockStep
        { variants := product.variants, errors := [], results := 0 }).errors ≠ [] := by
      apply bulkStock_foldl_error updates _ u hu
      rcases hbad with hbad | hbad
      · left
        rw [← stockUpdateInvalid_eq_false] at hbad
        simpa using hbad
      · right
        rw [← any_variantNamed] at hbad
        simpa using hbad
    have hpos : (updates.foldl bulkStockStep
        { variants := product.variants, errors := [], results := 0 }).errors.length > 0 :=
      List.length_pos.mpr herr
    unfold bulkStock
    simp only [if_neg hlen, hfind, if_pos hpos]
    exact ⟨trivial, trivial⟩
  · intro hall
    have hok : ∀ u ∈ updates, stockUpdateInvalid u = false ∧
        (BulkStockState.mk product.variants [] 0).variants.any (variantNamed u) = true :=
      fun u hu => ⟨(stockUpdateInvalid_eq_false u).mpr (hall u hu).1,
        (any_variantNamed _ u).mpr (hall u hu).2⟩
    obtain ⟨h1, h2⟩ := bulkStock_foldl_ok updates _ hok
    have hzero : ¬ (updates.foldl bulkStockStep
        { variants := product.variants, errors := [], results := 0 }).errors.length > 0 := by
      rw [h1]
      simp
    obtain ⟨front, back, hsplit, _, hupd⟩ := updateFirst_split (fun p => decide (p.id = id))
      (fun p => { p with variants := (updates.foldl bulkStockStep
        { variants := product.variants, errors := [], results := 0 }).variants })
      products product hfind
    unfold bulkStock
    simp only [if_neg hlen, hfind, if_neg hzero]
    refine ⟨trivial, front, back, _, hsplit, hupd, ?_⟩
    intro i
    rw [h2]
    exact applyUpdates_getElem? updates product.variants i

/-- C30 witness: the product with the variants red/M, blue/S and blue/M (ten units each)
and the updates blue/M to 4, red/M to 0, blue/M to 7: the answer is 200 and the stocks
are 0, 10 and 7.  For the product with the one variant red without size, the update of red
with the size `null` is answered 400 and changes nothing, and the update of red without
size is answered 200 and stores the stock 3. -/
theorem bulkStock_all_or_nothing_witness :
    ((bulkStock [gridProduct] "p1" gridUpdates).2.map
        (fun p => p.variants.map (fun v => (v.color, v.size, v.stock))) =
      [[("red", some "M", 0), ("blue", some "S", 10), ("blue", some "M", 7)]] ∧
    (bulkStock [gridProduct] "p1" gridUpdates).1.status = 200) ∧
    ((bulkStock [plainProduct] "p2"
        [{ color := some "red", size := SizeValue.null, stock := some 3 }]).1.status = 400 ∧
      (bulkStock [plainProduct] "p2"
        [{ color := some "red", size := SizeValue.null, stock := some 3 }]).2 =
        [plainProduct]) ∧
    ((bulkStock [plainProduct] "p2"
        [{ color := some "red", size := SizeValue.absent, stock := some 3 }]).1.status = 200 ∧
      (bulkStock [plainProduct] "p2"
        [{ color := some "red", size := SizeValue.absent, stock := some 3 }]).2.map
          (fun p => p.variants.map (fun v => (v.color, v.size, v.stock))) =
        [[("red", none, 3)]]) := by
  have hrb : ("red" : String) ≠ "blue" := by decide
  have hsm : ("S" : String) ≠ "M" := by decide
  have hb : ("blue" : String) ≠ "" := by decide
  have hr : ("red" : String) ≠ "" := by decide
  refine ⟨⟨?_, ?_⟩, ?_, ?_, ?_⟩
  · norm_num [bulkStock, gridUpdates, gridProduct, bulkStockStep, stockUpdateInvalid, truthyStr,
      variantNamed, sizeEquals, updateFirst, hrb, hsm, hrb.symm, hsm.symm, hb, hr]
  · exact ((bulkStock_all_or_nothing [gridProduct] "p1" gridUpdates gridProduct
      (by simp [gridProduct]) (by simp [gridUpdates])).2
      (by
        intro u hu
        simp only [gridUpdates, List.mem_cons, List.mem_singleton, List.not_mem_nil,
          or_false] at hu
        rcases hu with rfl | rfl | rfl <;>
          exact ⟨⟨⟨_, rfl, by decide⟩, ⟨_, rfl, by norm_num⟩⟩, by
            simp [updateMatches, gridProduct]⟩)).1
  · exact (bulkStock_all_or_nothing [plainProduct] "p2"
      [{ color := some "red", size := SizeValue.null, stock := some 3 }] plainProduct
      (by simp [plainProduct]) (by simp)).1
      ⟨_, List.mem_singleton.mpr rfl, Or.inr (by simp [updateMatches])⟩
  · norm_num [bulkStock, plainProduct, bulkStockStep, stockUpdateInvalid, truthyStr,
      variantNamed, sizeEquals, updateFirst, hr]
  · norm_num [bulkStock, plainProduct, bulkStockStep, stockUpdateInvalid, truthyStr,
      variantNamed, sizeEquals, updateFirst, hr]

end Arister
